import Mathlib

/-! # CarVault backend: ownership scoping, referential checks and validation

A shallow embedding of the Express/Mongoose backend

* `backend/models/Car.js`, `Maintenance.js`, `Expense.js` (schemas: setters, defaults,
  validators, the unique index on `licensePlate`, timestamps);
* `backend/routes/cars.js`, `maintenance.js`, `expenses.js` (the route handlers);
* `CarDetail.jsx`, `Expenses.jsx`, `Dashboard.jsx` (the totals, filters and recent records
  shown by the pages);
* `AddExpense.jsx`, `EditExpense.jsx`, `AddCar.jsx` (the function `validateForm` of the forms
  and the list `years`).

Conventions of the embedding.

* A collection is a `List` of documents in insertion order; `findOne` is `List.find?`,
  `findByIdAndDelete` removes the first document with the id, `save` of a loaded document
  replaces the first document with the id.
* A handler is a pure function from the request (authenticated caller, clock, path id, body)
  and the database to a response and the next database.  The `auth` middleware has already
  run: `caller` is `req.user._id`.
* A request body is typed: every field is absent (`none`) or carries a value of the type of
  the field.  Path ids are well-formed ObjectIds.
* Numbers that the validators check with `isInt` are `Int`; `cost` and `amount` are exact
  rationals and the sums of the handlers and pages are exact sums; `Binary64` gives the sum
  of JavaScript numbers, which is rounded. Dates are integer timestamps.
* `toUpperCase` is the Unicode default case conversion, by the data of Unicode 14.0; a
  string is a list of Unicode scalar values.
* `new Date().getFullYear()` is evaluated once when the modules are loaded; it is the
  parameter `currentYear`.
-/

namespace CarVault

/-! ## JavaScript string primitives -/

/-- The code points removed by `String.prototype.trim` (ECMAScript WhiteSpace and
LineTerminator), which are also the code points of `\s` used by the `trim` sanitizer. -/
def isJsWhitespace (c : Char) : Bool :=
  c.toNat = 9 || c.toNat = 10 || c.toNat = 11 || c.toNat = 12 || c.toNat = 13 ||
  c.toNat = 32 || c.toNat = 160 || c.toNat = 5760 ||
  (8192 ≤ c.toNat && c.toNat ≤ 8202) ||
  c.toNat = 8232 || c.toNat = 8233 || c.toNat = 8239 || c.toNat = 8287 ||
  c.toNat = 12288 || c.toNat = 65279

/-- Removes leading and trailing whitespace from a list of characters. -/
def trimChars (l : List Char) : List Char :=
  ((l.dropWhile isJsWhitespace).reverse.dropWhile isJsWhitespace).reverse

/-- The method `String.prototype.trim`. -/
def trim (s : String) : String := ⟨trimChars s.data⟩

/-! ### Upper-casing

`String.prototype.toUpperCase` applies the Unicode default case conversion, which does not
depend on the locale or on the context of a character. -/

/-- Uppercase mappings of the code points U+00B5 to U+010D. -/
def upperBlock00 : List (Nat × List Nat) :=
  [(0xB5, [0x39C]), (0xDF, [0x53, 0x53]), (0xE0, [0xC0]), (0xE1, [0xC1]), (0xE2, [0xC2]),
   (0xE3, [0xC3]), (0xE4, [0xC4]), (0xE5, [0xC5]), (0xE6, [0xC6]), (0xE7, [0xC7]), (0xE8, [0xC8]),
   (0xE9, [0xC9]), (0xEA, [0xCA]), (0xEB, [0xCB]), (0xEC, [0xCC]), (0xED, [0xCD]), (0xEE, [0xCE]),
   (0xEF, [0xCF]), (0xF0, [0xD0]), (0xF1, [0xD1]), (0xF2, [0xD2]), (0xF3, [0xD3]), (0xF4, [0xD4]),
   (0xF5, [0xD5]), (0xF6, [0xD6]), (0xF8, [0xD8]), (0xF9, [0xD9]), (0xFA, [0xDA]), (0xFB, [0xDB]),
   (0xFC, [0xDC]), (0xFD, [0xDD]), (0xFE, [0xDE]), (0xFF, [0x178]), (0x101, [0x100]),
   (0x103, [0x102]), (0x105, [0x104]), (0x107, [0x106]), (0x109, [0x108]), (0x10B, [0x10A]),
   (0x10D, [0x10C])]

/-- Uppercase mappings of the code points U+010F to U+015D. -/
def upperBlock01 : List (Nat × List Nat) :=
  [(0x10F, [0x10E]), (0x111, [0x110]), (0x113, [0x112]), (0x115, [0x114]), (0x117, [0x116]),
   (0x119, [0x118]), (0x11B, [0x11A]), (0x11D, [0x11C]), (0x11F, [0x11E]), (0x121, [0x120]),
   (0x123, [0x122]), (0x125, [0x124]), (0x127, [0x126]), (0x129, [0x128]), (0x12B, [0x12A]),
   (0x12D, [0x12C]), (0x12F, [0x12E]), (0x131, [0x49]), (0x133, [0x132]), (0x135, [0x134]),
   (0x137, [0x136]), (0x13A, [0x139]), (0x13C, [0x13B]), (0x13E, [0x13D]), (0x140, [0x13F]),
   (0x142, [0x141]), (0x144, [0x143]), (0x146, [0x145]), (0x148, [0x147]), (0x149, [0x2BC, 0x4E]),
   (0x14B, [0x14A]), (0x14D, [0x14C]), (0x14F, [0x14E]), (0x151, [0x150]), (0x153, [0x152]),
   (0x155, [0x154]), (0x157, [0x156]), (0x159, [0x158]), (0x15B, [0x15A]), (0x15D, [0x15C])]

/-- Uppercase mappings of the code points U+015F to U+01C6. -/
def upperBlock02 : List (Nat × List Nat) :=
  [(0x15F, [0x15E]), (0x161, [0x160]), (0x163, [0x162]), (0x165, [0x164]), (0x167, [0x166]),
   (0x169, [0x168]), (0x16B, [0x16A]), (0x16D, [0x16C]), (0x16F, [0x16E]), (0x171, [0x170]),
   (0x173, [0x172]), (0x175, [0x174]), (0x177, [0x176]), (0x17A, [0x179]), (0x17C, [0x17B]),
   (0x17E, [0x17D]), (0x17F, [0x53]), (0x180, [0x243]), (0x183, [0x182]), (0x185, [0x184]),
   (0x188, [0x187]), (0x18C, [0x18B]), (0x192, [0x191]), (0x195, [0x1F6]), (0x199, [0x198]),
   (0x19A, [0x23D]), (0x19E, [0x220]), (0x1A1, [0x1A0]), (0x1A3, [0x1A2]), (0x1A5, [0x1A4]),
   (0x1A8, [0x1A7]), (0x1AD, [0x1AC]), (0x1B0, [0x1AF]), (0x1B4, [0x1B3]), (0x1B6, [0x1B5]),
   (0x1B9, [0x1B8]), (0x1BD, [0x1BC]), (0x1BF, [0x1F7]), (0x1C5, [0x1C4]), (0x1C6, [0x1C4])]

/-- Uppercase mappings of the code points U+01C8 to U+0213. -/
def upperBlock03 : List (Nat × List Nat) :=
  [(0x1C8, [0x1C7]), (0x1C9, [0x1C7]), (0x1CB, [0x1CA]), (0x1CC, [0x1CA]), (0x1CE, [0x1CD]),
   (0x1D0, [0x1CF]), (0x1D2, [0x1D1]), (0x1D4, [0x1D3]), (0x1D6, [0x1D5]), (0x1D8, [0x1D7]),
   (0x1DA, [0x1D9]), (0x1DC, [0x1DB]), (0x1DD, [0x18E]), (0x1DF, [0x1DE]), (0x1E1, [0x1E0]),
   (0x1E3, [0x1E2]), (0x1E5, [0x1E4]), (0x1E7, [0x1E6]), (0x1E9, [0x1E8]), (0x1EB, [0x1EA]),
   (0x1ED, [0x1EC]), (0x1EF, [0x1EE]), (0x1F0, [0x4A, 0x30C]), (0x1F2, [0x1F1]), (0x1F3, [0x1F1]),
   (0x1F5, [0x1F4]), (0x1F9, [0x1F8]), (0x1FB, [0x1FA]), (0x1FD, [0x1FC]), (0x1FF, [0x1FE]),
   (0x201, [0x200]), (0x203, [0x202]), (0x205, [0x204]), (0x207, [0x206]), (0x209, [0x208]),
   (0x20B, [0x20A]), (0x20D, [0x20C]), (0x20F, [0x20E]), (0x211, [0x210]), (0x213, [0x212])]

/-- Uppercase mappings of the code points U+0215 to U+0268. -/
def upperBlock04 : List (Nat × List Nat) :=
  [(0x215, [0x214]), (0x217, [0x216]), (0x219, [0x218]), (0x21B, [0x21A]), (0x21D, [0x21C]),
   (0x21F, [0x21E]), (0x223, [0x222]), (0x225, [0x224]), (0x227, [0x226]), (0x229, [0x228]),
   (0x22B, [0x22A]), (0x22D, [0x22C]), (0x22F, [0x22E]), (0x231, [0x230]), (0x233, [0x232]),
   (0x23C, [0x23B]), (0x23F, [0x2C7E]), (0x240, [0x2C7F]), (0x242, [0x241]), (0x247, [0x246]),
   (0x249, [0x248]), (0x24B, [0x24A]), (0x24D, [0x24C]), (0x24F, [0x24E]), (0x250, [0x2C6F]),
   (0x251, [0x2C6D]), (0x252, [0x2C70]), (0x253, [0x181]), (0x254, [0x186]), (0x256, [0x189]),
   (0x257, [0x18A]), (0x259, [0x18F]), (0x25B, [0x190]), (0x25C, [0xA7AB]), (0x260, [0x193]),
   (0x261, [0xA7AC]), (0x263, [0x194]), (0x265, [0xA78D]), (0x266, [0xA7AA]), (0x268, [0x197])]

/-- Uppercase mappings of the code points U+0269 to U+03B6. -/
def upperBlock05 : List (Nat × List Nat) :=
  [(0x269, [0x196]), (0x26A, [0xA7AE]), (0x26B, [0x2C62]), (0x26C, [0xA7AD]), (0x26F, [0x19C]),
   (0x271, [0x2C6E]), (0x272, [0x19D]), (0x275, [0x19F]), (0x27D, [0x2C64]), (0x280, [0x1A6]),
   (0x282, [0xA7C5]), (0x283, [0x1A9]), (0x287, [0xA7B1]), (0x288, [0x1AE]), (0x289, [0x244]),
   (0x28A, [0x1B1]), (0x28B, [0x1B2]), (0x28C, [0x245]), (0x292, [0x1B7]), (0x29D, [0xA7B2]),
   (0x29E, [0xA7B0]), (0x345, [0x399]), (0x371, [0x370]), (0x373, [0x372]), (0x377, [0x376]),
   (0x37B, [0x3FD]), (0x37C, [0x3FE]), (0x37D, [0x3FF]), (0x390, [0x399, 0x308, 0x301]),
   (0x3AC, [0x386]), (0x3AD, [0x388]), (0x3AE, [0x389]), (0x3AF, [0x38A]),
   (0x3B0, [0x3A5, 0x308, 0x301]), (0x3B1, [0x391]), (0x3B2, [0x392]), (0x3B3, [0x393]),
   (0x3B4, [0x394]), (0x3B5, [0x395]), (0x3B6, [0x396])]

/-- Uppercase mappings of the code points U+03B7 to U+03ED. -/
def upperBlock06 : List (Nat × List Nat) :=
  [(0x3B7, [0x397]), (0x3B8, [0x398]), (0x3B9, [0x399]), (0x3BA, [0x39A]), (0x3BB, [0x39B]),
   (0x3BC, [0x39C]), (0x3BD, [0x39D]), (0x3BE, [0x39E]), (0x3BF, [0x39F]), (0x3C0, [0x3A0]),
   (0x3C1, [0x3A1]), (0x3C2, [0x3A3]), (0x3C3, [0x3A3]), (0x3C4, [0x3A4]), (0x3C5, [0x3A5]),
   (0x3C6, [0x3A6]), (0x3C7, [0x3A7]), (0x3C8, [0x3A8]), (0x3C9, [0x3A9]), (0x3CA, [0x3AA]),
   (0x3CB, [0x3AB]), (0x3CC, [0x38C]), (0x3CD, [0x38E]), (0x3CE, [0x38F]), (0x3D0, [0x392]),
   (0x3D1, [0x398]), (0x3D5, [0x3A6]), (0x3D6, [0x3A0]), (0x3D7, [0x3CF]), (0x3D9, [0x3D8]),
   (0x3DB, [0x3DA]), (0x3DD, [0x3DC]), (0x3DF, [0x3DE]), (0x3E1, [0x3E0]), (0x3E3, [0x3E2]),
   (0x3E5, [0x3E4]), (0x3E7, [0x3E6]), (0x3E9, [0x3E8]), (0x3EB, [0x3EA]), (0x3ED, [0x3EC])]

/-- Uppercase mappings of the code points U+03EF to U+044F. -/
def upperBlock07 : List (Nat × List Nat) :=
  [(0x3EF, [0x3EE]), (0x3F0, [0x39A]), (0x3F1, [0x3A1]), (0x3F2, [0x3F9]), (0x3F3, [0x37F]),
   (0x3F5, [0x395]), (0x3F8, [0x3F7]), (0x3FB, [0x3FA]), (0x430, [0x410]), (0x431, [0x411]),
   (0x432, [0x412]), (0x433, [0x413]), (0x434, [0x414]), (0x435, [0x415]), (0x436, [0x416]),
   (0x437, [0x417]), (0x438, [0x418]), (0x439, [0x419]), (0x43A, [0x41A]), (0x43B, [0x41B]),
   (0x43C, [0x41C]), (0x43D, [0x41D]), (0x43E, [0x41E]), (0x43F, [0x41F]), (0x440, [0x420]),
   (0x441, [0x421]), (0x442, [0x422]), (0x443, [0x423]), (0x444, [0x424]), (0x445, [0x425]),
   (0x446, [0x426]), (0x447, [0x427]), (0x448, [0x428]), (0x449, [0x429]), (0x44A, [0x42A]),
   (0x44B, [0x42B]), (0x44C, [0x42C]), (0x44D, [0x42D]), (0x44E, [0x42E]), (0x44F, [0x42F])]

/-- Uppercase mappings of the code points U+0450 to U+0497. -/
def upperBlock08 : List (Nat × List Nat) :=
  [(0x450, [0x400]), (0x451, [0x401]), (0x452, [0x402]), (0x453, [0x403]), (0x454, [0x404]),
   (0x455, [0x405]), (0x456, [0x406]), (0x457, [0x407]), (0x458, [0x408]), (0x459, [0x409]),
   (0x45A, [0x40A]), (0x45B, [0x40B]), (0x45C, [0x40C]), (0x45D, [0x40D]), (0x45E, [0x40E]),
   (0x45F, [0x40F]), (0x461, [0x460]), (0x463, [0x462]), (0x465, [0x464]), (0x467, [0x466]),
   (0x469, [0x468]), (0x46B, [0x46A]), (0x46D, [0x46C]), (0x46F, [0x46E]), (0x471, [0x470]),
   (0x473, [0x472]), (0x475, [0x474]), (0x477, [0x476]), (0x479, [0x478]), (0x47B, [0x47A]),
   (0x47D, [0x47C]), (0x47F, [0x47E]), (0x481, [0x480]), (0x48B, [0x48A]), (0x48D, [0x48C]),
   (0x48F, [0x48E]), (0x491, [0x490]), (0x493, [0x492]), (0x495, [0x494]), (0x497, [0x496])]

/-- Uppercase mappings of the code points U+0499 to U+04E7. -/
def upperBlock09 : List (Nat × List Nat) :=
  [(0x499, [0x498]), (0x49B, [0x49A]), (0x49D, [0x49C]), (0x49F, [0x49E]), (0x4A1, [0x4A0]),
   (0x4A3, [0x4A2]), (0x4A5, [0x4A4]), (0x4A7, [0x4A6]), (0x4A9, [0x4A8]), (0x4AB, [0x4AA]),
   (0x4AD, [0x4AC]), (0x4AF, [0x4AE]), (0x4B1, [0x4B0]), (0x4B3, [0x4B2]), (0x4B5, [0x4B4]),
   (0x4B7, [0x4B6]), (0x4B9, [0x4B8]), (0x4BB, [0x4BA]), (0x4BD, [0x4BC]), (0x4BF, [0x4BE]),
   (0x4C2, [0x4C1]), (0x4C4, [0x4C3]), (0x4C6, [0x4C5]), (0x4C8, [0x4C7]), (0x4CA, [0x4C9]),
   (0x4CC, [0x4CB]), (0x4CE, [0x4CD]), (0x4CF, [0x4C0]), (0x4D1, [0x4D0]), (0x4D3, [0x4D2]),
   (0x4D5, [0x4D4]), (0x4D7, [0x4D6]), (0x4D9, [0x4D8]), (0x4DB, [0x4DA]), (0x4DD, [0x4DC]),
   (0x4DF, [0x4DE]), (0x4E1, [0x4E0]), (0x4E3, [0x4E2]), (0x4E5, [0x4E4]), (0x4E7, [0x4E6])]

/-- Uppercase mappings of the code points U+04E9 to U+0564. -/
def upperBlock10 : List (Nat × List Nat) :=
  [(0x4E9, [0x4E8]), (0x4EB, [0x4EA]), (0x4ED, [0x4EC]), (0x4EF, [0x4EE]), (0x4F1, [0x4F0]),
   (0x4F3, [0x4F2]), (0x4F5, [0x4F4]), (0x4F7, [0x4F6]), (0x4F9, [0x4F8]), (0x4FB, [0x4FA]),
   (0x4FD, [0x4FC]), (0x4FF, [0x4FE]), (0x501, [0x500]), (0x503, [0x502]), (0x505, [0x504]),
   (0x507, [0x506]), (0x509, [0x508]), (0x50B, [0x50A]), (0x50D, [0x50C]), (0x50F, [0x50E]),
   (0x511, [0x510]), (0x513, [0x512]), (0x515, [0x514]), (0x517, [0x516]), (0x519, [0x518]),
   (0x51B, [0x51A]), (0x51D, [0x51C]), (0x51F, [0x51E]), (0x521, [0x520]), (0x523, [0x522]),
   (0x525, [0x524]), (0x527, [0x526]), (0x529, [0x528]), (0x52B, [0x52A]), (0x52D, [0x52C]),
   (0x52F, [0x52E]), (0x561, [0x531]), (0x562, [0x532]), (0x563, [0x533]), (0x564, [0x534])]

/-- Uppercase mappings of the code points U+0565 to U+10D4. -/
def upperBlock11 : List (Nat × List Nat) :=
  [(0x565, [0x535]), (0x566, [0x536]), (0x567, [0x537]), (0x568, [0x538]), (0x569, [0x539]),
   (0x56A, [0x53A]), (0x56B, [0x53B]), (0x56C, [0x53C]), (0x56D, [0x53D]), (0x56E, [0x53E]),
   (0x56F, [0x53F]), (0x570, [0x540]), (0x571, [0x541]), (0x572, [0x542]), (0x573, [0x543]),
   (0x574, [0x544]), (0x575, [0x545]), (0x576, [0x546]), (0x577, [0x547]), (0x578, [0x548]),
   (0x579, [0x549]), (0x57A, [0x54A]), (0x57B, [0x54B]), (0x57C, [0x54C]), (0x57D, [0x54D]),
   (0x57E, [0x54E]), (0x57F, [0x54F]), (0x580, [0x550]), (0x581, [0x551]), (0x582, [0x552]),
   (0x583, [0x553]), (0x584, [0x554]), (0x585, [0x555]), (0x586, [0x556]), (0x587, [0x535, 0x552]),
   (0x10D0, [0x1C90]), (0x10D1, [0x1C91]), (0x10D2, [0x1C92]), (0x10D3, [0x1C93]),
   (0x10D4, [0x1C94])]

/-- Uppercase mappings of the code points U+10D5 to U+10FE. -/
def upperBlock12 : List (Nat × List Nat) :=
  [(0x10D5, [0x1C95]), (0x10D6, [0x1C96]), (0x10D7, [0x1C97]), (0x10D8, [0x1C98]),
   (0x10D9, [0x1C99]), (0x10DA, [0x1C9A]), (0x10DB, [0x1C9B]), (0x10DC, [0x1C9C]),
   (0x10DD, [0x1C9D]), (0x10DE, [0x1C9E]), (0x10DF, [0x1C9F]), (0x10E0, [0x1CA0]),
   (0x10E1, [0x1CA1]), (0x10E2, [0x1CA2]), (0x10E3, [0x1CA3]), (0x10E4, [0x1CA4]),
   (0x10E5, [0x1CA5]), (0x10E6, [0x1CA6]), (0x10E7, [0x1CA7]), (0x10E8, [0x1CA8]),
   (0x10E9, [0x1CA9]), (0x10EA, [0x1CAA]), (0x10EB, [0x1CAB]), (0x10EC, [0x1CAC]),
   (0x10ED, [0x1CAD]), (0x10EE, [0x1CAE]), (0x10EF, [0x1CAF]), (0x10F0, [0x1CB0]),
   (0x10F1, [0x1CB1]), (0x10F2, [0x1CB2]), (0x10F3, [0x1CB3]), (0x10F4, [0x1CB4]),
   (0x10F5, [0x1CB5]), (0x10F6, [0x1CB6]), (0x10F7, [0x1CB7]), (0x10F8, [0x1CB8]),
   (0x10F9, [0x1CB9]), (0x10FA, [0x1CBA]), (0x10FD, [0x1CBD]), (0x10FE, [0x1CBE])]

/-- Uppercase mappings of the code points U+10FF to U+1E29. -/
def upperBlock13 : List (Nat × List Nat) :=
  [(0x10FF, [0x1CBF]), (0x13F8, [0x13F0]), (0x13F9, [0x13F1]), (0x13FA, [0x13F2]),
   (0x13FB, [0x13F3]), (0x13FC, [0x13F4]), (0x13FD, [0x13F5]), (0x1C80, [0x412]),
   (0x1C81, [0x414]), (0x1C82, [0x41E]), (0x1C83, [0x421]), (0x1C84, [0x422]), (0x1C85, [0x422]),
   (0x1C86, [0x42A]), (0x1C87, [0x462]), (0x1C88, [0xA64A]), (0x1D79, [0xA77D]),
   (0x1D7D, [0x2C63]), (0x1D8E, [0xA7C6]), (0x1E01, [0x1E00]), (0x1E03, [0x1E02]),
   (0x1E05, [0x1E04]), (0x1E07, [0x1E06]), (0x1E09, [0x1E08]), (0x1E0B, [0x1E0A]),
   (0x1E0D, [0x1E0C]), (0x1E0F, [0x1E0E]), (0x1E11, [0x1E10]), (0x1E13, [0x1E12]),
   (0x1E15, [0x1E14]), (0x1E17, [0x1E16]), (0x1E19, [0x1E18]), (0x1E1B, [0x1E1A]),
   (0x1E1D, [0x1E1C]), (0x1E1F, [0x1E1E]), (0x1E21, [0x1E20]), (0x1E23, [0x1E22]),
   (0x1E25, [0x1E24]), (0x1E27, [0x1E26]), (0x1E29, [0x1E28])]

/-- Uppercase mappings of the code points U+1E2B to U+1E79. -/
def upperBlock14 : List (Nat × List Nat) :=
  [(0x1E2B, [0x1E2A]), (0x1E2D, [0x1E2C]), (0x1E2F, [0x1E2E]), (0x1E31, [0x1E30]),
   (0x1E33, [0x1E32]), (0x1E35, [0x1E34]), (0x1E37, [0x1E36]), (0x1E39, [0x1E38]),
   (0x1E3B, [0x1E3A]), (0x1E3D, [0x1E3C]), (0x1E3F, [0x1E3E]), (0x1E41, [0x1E40]),
   (0x1E43, [0x1E42]), (0x1E45, [0x1E44]), (0x1E47, [0x1E46]), (0x1E49, [0x1E48]),
   (0x1E4B, [0x1E4A]), (0x1E4D, [0x1E4C]), (0x1E4F, [0x1E4E]), (0x1E51, [0x1E50]),
   (0x1E53, [0x1E52]), (0x1E55, [0x1E54]), (0x1E57, [0x1E56]), (0x1E59, [0x1E58]),
   (0x1E5B, [0x1E5A]), (0x1E5D, [0x1E5C]), (0x1E5F, [0x1E5E]), (0x1E61, [0x1E60]),
   (0x1E63, [0x1E62]), (0x1E65, [0x1E64]), (0x1E67, [0x1E66]), (0x1E69, [0x1E68]),
   (0x1E6B, [0x1E6A]), (0x1E6D, [0x1E6C]), (0x1E6F, [0x1E6E]), (0x1E71, [0x1E70]),
   (0x1E73, [0x1E72]), (0x1E75, [0x1E74]), (0x1E77, [0x1E76]), (0x1E79, [0x1E78])]

/-- Uppercase mappings of the code points U+1E7B to U+1EC7. -/
def upperBlock15 : List (Nat × List Nat) :=
  [(0x1E7B, [0x1E7A]), (0x1E7D, [0x1E7C]), (0x1E7F, [0x1E7E]), (0x1E81, [0x1E80]),
   (0x1E83, [0x1E82]), (0x1E85, [0x1E84]), (0x1E87, [0x1E86]), (0x1E89, [0x1E88]),
   (0x1E8B, [0x1E8A]), (0x1E8D, [0x1E8C]), (0x1E8F, [0x1E8E]), (0x1E91, [0x1E90]),
   (0x1E93, [0x1E92]), (0x1E95, [0x1E94]), (0x1E96, [0x48, 0x331]), (0x1E97, [0x54, 0x308]),
   (0x1E98, [0x57, 0x30A]), (0x1E99, [0x59, 0x30A]), (0x1E9A, [0x41, 0x2BE]), (0x1E9B, [0x1E60]),
   (0x1EA1, [0x1EA0]), (0x1EA3, [0x1EA2]), (0x1EA5, [0x1EA4]), (0x1EA7, [0x1EA6]),
   (0x1EA9, [0x1EA8]), (0x1EAB, [0x1EAA]), (0x1EAD, [0x1EAC]), (0x1EAF, [0x1EAE]),
   (0x1EB1, [0x1EB0]), (0x1EB3, [0x1EB2]), (0x1EB5, [0x1EB4]), (0x1EB7, [0x1EB6]),
   (0x1EB9, [0x1EB8]), (0x1EBB, [0x1EBA]), (0x1EBD, [0x1EBC]), (0x1EBF, [0x1EBE]),
   (0x1EC1, [0x1EC0]), (0x1EC3, [0x1EC2]), (0x1EC5, [0x1EC4]), (0x1EC7, [0x1EC6])]

/-- Uppercase mappings of the code points U+1EC9 to U+1F13. -/
def upperBlock16 : List (Nat × List Nat) :=
  [(0x1EC9, [0x1EC8]), (0x1ECB, [0x1ECA]), (0x1ECD, [0x1ECC]), (0x1ECF, [0x1ECE]),
   (0x1ED1, [0x1ED0]), (0x1ED3, [0x1ED2]), (0x1ED5, [0x1ED4]), (0x1ED7, [0x1ED6]),
   (0x1ED9, [0x1ED8]), (0x1EDB, [0x1EDA]), (0x1EDD, [0x1EDC]), (0x1EDF, [0x1EDE]),
   (0x1EE1, [0x1EE0]), (0x1EE3, [0x1EE2]), (0x1EE5, [0x1EE4]), (0x1EE7, [0x1EE6]),
   (0x1EE9, [0x1EE8]), (0x1EEB, [0x1EEA]), (0x1EED, [0x1EEC]), (0x1EEF, [0x1EEE]),
   (0x1EF1, [0x1EF0]), (0x1EF3, [0x1EF2]), (0x1EF5, [0x1EF4]), (0x1EF7, [0x1EF6]),
   (0x1EF9, [0x1EF8]), (0x1EFB, [0x1EFA]), (0x1EFD, [0x1EFC]), (0x1EFF, [0x1EFE]),
   (0x1F00, [0x1F08]), (0x1F01, [0x1F09]), (0x1F02, [0x1F0A]), (0x1F03, [0x1F0B]),
   (0x1F04, [0x1F0C]), (0x1F05, [0x1F0D]), (0x1F06, [0x1F0E]), (0x1F07, [0x1F0F]),
   (0x1F10, [0x1F18]), (0x1F11, [0x1F19]), (0x1F12, [0x1F1A]), (0x1F13, [0x1F1B])]

/-- Uppercase mappings of the code points U+1F14 to U+1F67. -/
def upperBlock17 : List (Nat × List Nat) :=
  [(0x1F14, [0x1F1C]), (0x1F15, [0x1F1D]), (0x1F20, [0x1F28]), (0x1F21, [0x1F29]),
   (0x1F22, [0x1F2A]), (0x1F23, [0x1F2B]), (0x1F24, [0x1F2C]), (0x1F25, [0x1F2D]),
   (0x1F26, [0x1F2E]), (0x1F27, [0x1F2F]), (0x1F30, [0x1F38]), (0x1F31, [0x1F39]),
   (0x1F32, [0x1F3A]), (0x1F33, [0x1F3B]), (0x1F34, [0x1F3C]), (0x1F35, [0x1F3D]),
   (0x1F36, [0x1F3E]), (0x1F37, [0x1F3F]), (0x1F40, [0x1F48]), (0x1F41, [0x1F49]),
   (0x1F42, [0x1F4A]), (0x1F43, [0x1F4B]), (0x1F44, [0x1F4C]), (0x1F45, [0x1F4D]),
   (0x1F50, [0x3A5, 0x313]), (0x1F51, [0x1F59]), (0x1F52, [0x3A5, 0x313, 0x300]),
   (0x1F53, [0x1F5B]), (0x1F54, [0x3A5, 0x313, 0x301]), (0x1F55, [0x1F5D]),
   (0x1F56, [0x3A5, 0x313, 0x342]), (0x1F57, [0x1F5F]), (0x1F60, [0x1F68]), (0x1F61, [0x1F69]),
   (0x1F62, [0x1F6A]), (0x1F63, [0x1F6B]), (0x1F64, [0x1F6C]), (0x1F65, [0x1F6D]),
   (0x1F66, [0x1F6E]), (0x1F67, [0x1F6F])]

/-- Uppercase mappings of the code points U+1F70 to U+1F99. -/
def upperBlock18 : List (Nat × List Nat) :=
  [(0x1F70, [0x1FBA]), (0x1F71, [0x1FBB]), (0x1F72, [0x1FC8]), (0x1F73, [0x1FC9]),
   (0x1F74, [0x1FCA]), (0x1F75, [0x1FCB]), (0x1F76, [0x1FDA]), (0x1F77, [0x1FDB]),
   (0x1F78, [0x1FF8]), (0x1F79, [0x1FF9]), (0x1F7A, [0x1FEA]), (0x1F7B, [0x1FEB]),
   (0x1F7C, [0x1FFA]), (0x1F7D, [0x1FFB]), (0x1F80, [0x1F08, 0x399]), (0x1F81, [0x1F09, 0x399]),
   (0x1F82, [0x1F0A, 0x399]), (0x1F83, [0x1F0B, 0x399]), (0x1F84, [0x1F0C, 0x399]),
   (0x1F85, [0x1F0D, 0x399]), (0x1F86, [0x1F0E, 0x399]), (0x1F87, [0x1F0F, 0x399]),
   (0x1F88, [0x1F08, 0x399]), (0x1F89, [0x1F09, 0x399]), (0x1F8A, [0x1F0A, 0x399]),
   (0x1F8B, [0x1F0B, 0x399]), (0x1F8C, [0x1F0C, 0x399]), (0x1F8D, [0x1F0D, 0x399]),
   (0x1F8E, [0x1F0E, 0x399]), (0x1F8F, [0x1F0F, 0x399]), (0x1F90, [0x1F28, 0x399]),
   (0x1F91, [0x1F29, 0x399]), (0x1F92, [0x1F2A, 0x399]), (0x1F93, [0x1F2B, 0x399]),
   (0x1F94, [0x1F2C, 0x399]), (0x1F95, [0x1F2D, 0x399]), (0x1F96, [0x1F2E, 0x399]),
   (0x1F97, [0x1F2F, 0x399]), (0x1F98, [0x1F28, 0x399]), (0x1F99, [0x1F29, 0x399])]

/-- Uppercase mappings of the code points U+1F9A to U+1FD2. -/
def upperBlock19 : List (Nat × List Nat) :=
  [(0x1F9A, [0x1F2A, 0x399]), (0x1F9B, [0x1F2B, 0x399]), (0x1F9C, [0x1F2C, 0x399]),
   (0x1F9D, [0x1F2D, 0x399]), (0x1F9E, [0x1F2E, 0x399]), (0x1F9F, [0x1F2F, 0x399]),
   (0x1FA0, [0x1F68, 0x399]), (0x1FA1, [0x1F69, 0x399]), (0x1FA2, [0x1F6A, 0x399]),
   (0x1FA3, [0x1F6B, 0x399]), (0x1FA4, [0x1F6C, 0x399]), (0x1FA5, [0x1F6D, 0x399]),
   (0x1FA6, [0x1F6E, 0x399]), (0x1FA7, [0x1F6F, 0x399]), (0x1FA8, [0x1F68, 0x399]),
   (0x1FA9, [0x1F69, 0x399]), (0x1FAA, [0x1F6A, 0x399]), (0x1FAB, [0x1F6B, 0x399]),
   (0x1FAC, [0x1F6C, 0x399]), (0x1FAD, [0x1F6D, 0x399]), (0x1FAE, [0x1F6E, 0x399]),
   (0x1FAF, [0x1F6F, 0x399]), (0x1FB0, [0x1FB8]), (0x1FB1, [0x1FB9]), (0x1FB2, [0x1FBA, 0x399]),
   (0x1FB3, [0x391, 0x399]), (0x1FB4, [0x386, 0x399]), (0x1FB6, [0x391, 0x342]),
   (0x1FB7, [0x391, 0x342, 0x399]), (0x1FBC, [0x391, 0x399]), (0x1FBE, [0x399]),
   (0x1FC2, [0x1FCA, 0x399]), (0x1FC3, [0x397, 0x399]), (0x1FC4, [0x389, 0x399]),
   (0x1FC6, [0x397, 0x342]), (0x1FC7, [0x397, 0x342, 0x399]), (0x1FCC, [0x397, 0x399]),
   (0x1FD0, [0x1FD8]), (0x1FD1, [0x1FD9]), (0x1FD2, [0x399, 0x308, 0x300])]

/-- Uppercase mappings of the code points U+1FD3 to U+24D4. -/
def upperBlock20 : List (Nat × List Nat) :=
  [(0x1FD3, [0x399, 0x308, 0x301]), (0x1FD6, [0x399, 0x342]), (0x1FD7, [0x399, 0x308, 0x342]),
   (0x1FE0, [0x1FE8]), (0x1FE1, [0x1FE9]), (0x1FE2, [0x3A5, 0x308, 0x300]),
   (0x1FE3, [0x3A5, 0x308, 0x301]), (0x1FE4, [0x3A1, 0x313]), (0x1FE5, [0x1FEC]),
   (0x1FE6, [0x3A5, 0x342]), (0x1FE7, [0x3A5, 0x308, 0x342]), (0x1FF2, [0x1FFA, 0x399]),
   (0x1FF3, [0x3A9, 0x399]), (0x1FF4, [0x38F, 0x399]), (0x1FF6, [0x3A9, 0x342]),
   (0x1FF7, [0x3A9, 0x342, 0x399]), (0x1FFC, [0x3A9, 0x399]), (0x214E, [0x2132]),
   (0x2170, [0x2160]), (0x2171, [0x2161]), (0x2172, [0x2162]), (0x2173, [0x2163]),
   (0x2174, [0x2164]), (0x2175, [0x2165]), (0x2176, [0x2166]), (0x2177, [0x2167]),
   (0x2178, [0x2168]), (0x2179, [0x2169]), (0x217A, [0x216A]), (0x217B, [0x216B]),
   (0x217C, [0x216C]), (0x217D, [0x216D]), (0x217E, [0x216E]), (0x217F, [0x216F]),
   (0x2184, [0x2183]), (0x24D0, [0x24B6]), (0x24D1, [0x24B7]), (0x24D2, [0x24B8]),
   (0x24D3, [0x24B9]), (0x24D4, [0x24BA])]

/-- Uppercase mappings of the code points U+24D5 to U+2C42. -/
def upperBlock21 : List (Nat × List Nat) :=
  [(0x24D5, [0x24BB]), (0x24D6, [0x24BC]), (0x24D7, [0x24BD]), (0x24D8, [0x24BE]),
   (0x24D9, [0x24BF]), (0x24DA, [0x24C0]), (0x24DB, [0x24C1]), (0x24DC, [0x24C2]),
   (0x24DD, [0x24C3]), (0x24DE, [0x24C4]), (0x24DF, [0x24C5]), (0x24E0, [0x24C6]),
   (0x24E1, [0x24C7]), (0x24E2, [0x24C8]), (0x24E3, [0x24C9]), (0x24E4, [0x24CA]),
   (0x24E5, [0x24CB]), (0x24E6, [0x24CC]), (0x24E7, [0x24CD]), (0x24E8, [0x24CE]),
   (0x24E9, [0x24CF]), (0x2C30, [0x2C00]), (0x2C31, [0x2C01]), (0x2C32, [0x2C02]),
   (0x2C33, [0x2C03]), (0x2C34, [0x2C04]), (0x2C35, [0x2C05]), (0x2C36, [0x2C06]),
   (0x2C37, [0x2C07]), (0x2C38, [0x2C08]), (0x2C39, [0x2C09]), (0x2C3A, [0x2C0A]),
   (0x2C3B, [0x2C0B]), (0x2C3C, [0x2C0C]), (0x2C3D, [0x2C0D]), (0x2C3E, [0x2C0E]),
   (0x2C3F, [0x2C0F]), (0x2C40, [0x2C10]), (0x2C41, [0x2C11]), (0x2C42, [0x2C12])]

/-- Uppercase mappings of the code points U+2C43 to U+2C85. -/
def upperBlock22 : List (Nat × List Nat) :=
  [(0x2C43, [0x2C13]), (0x2C44, [0x2C14]), (0x2C45, [0x2C15]), (0x2C46, [0x2C16]),
   (0x2C47, [0x2C17]), (0x2C48, [0x2C18]), (0x2C49, [0x2C19]), (0x2C4A, [0x2C1A]),
   (0x2C4B, [0x2C1B]), (0x2C4C, [0x2C1C]), (0x2C4D, [0x2C1D]), (0x2C4E, [0x2C1E]),
   (0x2C4F, [0x2C1F]), (0x2C50, [0x2C20]), (0x2C51, [0x2C21]), (0x2C52, [0x2C22]),
   (0x2C53, [0x2C23]), (0x2C54, [0x2C24]), (0x2C55, [0x2C25]), (0x2C56, [0x2C26]),
   (0x2C57, [0x2C27]), (0x2C58, [0x2C28]), (0x2C59, [0x2C29]), (0x2C5A, [0x2C2A]),
   (0x2C5B, [0x2C2B]), (0x2C5C, [0x2C2C]), (0x2C5D, [0x2C2D]), (0x2C5E, [0x2C2E]),
   (0x2C5F, [0x2C2F]), (0x2C61, [0x2C60]), (0x2C65, [0x23A]), (0x2C66, [0x23E]),
   (0x2C68, [0x2C67]), (0x2C6A, [0x2C69]), (0x2C6C, [0x2C6B]), (0x2C73, [0x2C72]),
   (0x2C76, [0x2C75]), (0x2C81, [0x2C80]), (0x2C83, [0x2C82]), (0x2C85, [0x2C84])]

/-- Uppercase mappings of the code points U+2C87 to U+2CD5. -/
def upperBlock23 : List (Nat × List Nat) :=
  [(0x2C87, [0x2C86]), (0x2C89, [0x2C88]), (0x2C8B, [0x2C8A]), (0x2C8D, [0x2C8C]),
   (0x2C8F, [0x2C8E]), (0x2C91, [0x2C90]), (0x2C93, [0x2C92]), (0x2C95, [0x2C94]),
   (0x2C97, [0x2C96]), (0x2C99, [0x2C98]), (0x2C9B, [0x2C9A]), (0x2C9D, [0x2C9C]),
   (0x2C9F, [0x2C9E]), (0x2CA1, [0x2CA0]), (0x2CA3, [0x2CA2]), (0x2CA5, [0x2CA4]),
   (0x2CA7, [0x2CA6]), (0x2CA9, [0x2CA8]), (0x2CAB, [0x2CAA]), (0x2CAD, [0x2CAC]),
   (0x2CAF, [0x2CAE]), (0x2CB1, [0x2CB0]), (0x2CB3, [0x2CB2]), (0x2CB5, [0x2CB4]),
   (0x2CB7, [0x2CB6]), (0x2CB9, [0x2CB8]), (0x2CBB, [0x2CBA]), (0x2CBD, [0x2CBC]),
   (0x2CBF, [0x2CBE]), (0x2CC1, [0x2CC0]), (0x2CC3, [0x2CC2]), (0x2CC5, [0x2CC4]),
   (0x2CC7, [0x2CC6]), (0x2CC9, [0x2CC8]), (0x2CCB, [0x2CCA]), (0x2CCD, [0x2CCC]),
   (0x2CCF, [0x2CCE]), (0x2CD1, [0x2CD0]), (0x2CD3, [0x2CD2]), (0x2CD5, [0x2CD4])]

/-- Uppercase mappings of the code points U+2CD7 to U+2D1D. -/
def upperBlock24 : List (Nat × List Nat) :=
  [(0x2CD7, [0x2CD6]), (0x2CD9, [0x2CD8]), (0x2CDB, [0x2CDA]), (0x2CDD, [0x2CDC]),
   (0x2CDF, [0x2CDE]), (0x2CE1, [0x2CE0]), (0x2CE3, [0x2CE2]), (0x2CEC, [0x2CEB]),
   (0x2CEE, [0x2CED]), (0x2CF3, [0x2CF2]), (0x2D00, [0x10A0]), (0x2D01, [0x10A1]),
   (0x2D02, [0x10A2]), (0x2D03, [0x10A3]), (0x2D04, [0x10A4]), (0x2D05, [0x10A5]),
   (0x2D06, [0x10A6]), (0x2D07, [0x10A7]), (0x2D08, [0x10A8]), (0x2D09, [0x10A9]),
   (0x2D0A, [0x10AA]), (0x2D0B, [0x10AB]), (0x2D0C, [0x10AC]), (0x2D0D, [0x10AD]),
   (0x2D0E, [0x10AE]), (0x2D0F, [0x10AF]), (0x2D10, [0x10B0]), (0x2D11, [0x10B1]),
   (0x2D12, [0x10B2]), (0x2D13, [0x10B3]), (0x2D14, [0x10B4]), (0x2D15, [0x10B5]),
   (0x2D16, [0x10B6]), (0x2D17, [0x10B7]), (0x2D18, [0x10B8]), (0x2D19, [0x10B9]),
   (0x2D1A, [0x10BA]), (0x2D1B, [0x10BB]), (0x2D1C, [0x10BC]), (0x2D1D, [0x10BD])]

/-- Uppercase mappings of the code points U+2D1E to U+A68D. -/
def upperBlock25 : List (Nat × List Nat) :=
  [(0x2D1E, [0x10BE]), (0x2D1F, [0x10BF]), (0x2D20, [0x10C0]), (0x2D21, [0x10C1]),
   (0x2D22, [0x10C2]), (0x2D23, [0x10C3]), (0x2D24, [0x10C4]), (0x2D25, [0x10C5]),
   (0x2D27, [0x10C7]), (0x2D2D, [0x10CD]), (0xA641, [0xA640]), (0xA643, [0xA642]),
   (0xA645, [0xA644]), (0xA647, [0xA646]), (0xA649, [0xA648]), (0xA64B, [0xA64A]),
   (0xA64D, [0xA64C]), (0xA64F, [0xA64E]), (0xA651, [0xA650]), (0xA653, [0xA652]),
   (0xA655, [0xA654]), (0xA657, [0xA656]), (0xA659, [0xA658]), (0xA65B, [0xA65A]),
   (0xA65D, [0xA65C]), (0xA65F, [0xA65E]), (0xA661, [0xA660]), (0xA663, [0xA662]),
   (0xA665, [0xA664]), (0xA667, [0xA666]), (0xA669, [0xA668]), (0xA66B, [0xA66A]),
   (0xA66D, [0xA66C]), (0xA681, [0xA680]), (0xA683, [0xA682]), (0xA685, [0xA684]),
   (0xA687, [0xA686]), (0xA689, [0xA688]), (0xA68B, [0xA68A]), (0xA68D, [0xA68C])]

/-- Uppercase mappings of the code points U+A68F to U+A765. -/
def upperBlock26 : List (Nat × List Nat) :=
  [(0xA68F, [0xA68E]), (0xA691, [0xA690]), (0xA693, [0xA692]), (0xA695, [0xA694]),
   (0xA697, [0xA696]), (0xA699, [0xA698]), (0xA69B, [0xA69A]), (0xA723, [0xA722]),
   (0xA725, [0xA724]), (0xA727, [0xA726]), (0xA729, [0xA728]), (0xA72B, [0xA72A]),
   (0xA72D, [0xA72C]), (0xA72F, [0xA72E]), (0xA733, [0xA732]), (0xA735, [0xA734]),
   (0xA737, [0xA736]), (0xA739, [0xA738]), (0xA73B, [0xA73A]), (0xA73D, [0xA73C]),
   (0xA73F, [0xA73E]), (0xA741, [0xA740]), (0xA743, [0xA742]), (0xA745, [0xA744]),
   (0xA747, [0xA746]), (0xA749, [0xA748]), (0xA74B, [0xA74A]), (0xA74D, [0xA74C]),
   (0xA74F, [0xA74E]), (0xA751, [0xA750]), (0xA753, [0xA752]), (0xA755, [0xA754]),
   (0xA757, [0xA756]), (0xA759, [0xA758]), (0xA75B, [0xA75A]), (0xA75D, [0xA75C]),
   (0xA75F, [0xA75E]), (0xA761, [0xA760]), (0xA763, [0xA762]), (0xA765, [0xA764])]

/-- Uppercase mappings of the code points U+A767 to U+A7F6. -/
def upperBlock27 : List (Nat × List Nat) :=
  [(0xA767, [0xA766]), (0xA769, [0xA768]), (0xA76B, [0xA76A]), (0xA76D, [0xA76C]),
   (0xA76F, [0xA76E]), (0xA77A, [0xA779]), (0xA77C, [0xA77B]), (0xA77F, [0xA77E]),
   (0xA781, [0xA780]), (0xA783, [0xA782]), (0xA785, [0xA784]), (0xA787, [0xA786]),
   (0xA78C, [0xA78B]), (0xA791, [0xA790]), (0xA793, [0xA792]), (0xA794, [0xA7C4]),
   (0xA797, [0xA796]), (0xA799, [0xA798]), (0xA79B, [0xA79A]), (0xA79D, [0xA79C]),
   (0xA79F, [0xA79E]), (0xA7A1, [0xA7A0]), (0xA7A3, [0xA7A2]), (0xA7A5, [0xA7A4]),
   (0xA7A7, [0xA7A6]), (0xA7A9, [0xA7A8]), (0xA7B5, [0xA7B4]), (0xA7B7, [0xA7B6]),
   (0xA7B9, [0xA7B8]), (0xA7BB, [0xA7BA]), (0xA7BD, [0xA7BC]), (0xA7BF, [0xA7BE]),
   (0xA7C1, [0xA7C0]), (0xA7C3, [0xA7C2]), (0xA7C8, [0xA7C7]), (0xA7CA, [0xA7C9]),
   (0xA7D1, [0xA7D0]), (0xA7D7, [0xA7D6]), (0xA7D9, [0xA7D8]), (0xA7F6, [0xA7F5])]

/-- Uppercase mappings of the code points U+AB53 to U+AB96. -/
def upperBlock28 : List (Nat × List Nat) :=
  [(0xAB53, [0xA7B3]), (0xAB70, [0x13A0]), (0xAB71, [0x13A1]), (0xAB72, [0x13A2]),
   (0xAB73, [0x13A3]), (0xAB74, [0x13A4]), (0xAB75, [0x13A5]), (0xAB76, [0x13A6]),
   (0xAB77, [0x13A7]), (0xAB78, [0x13A8]), (0xAB79, [0x13A9]), (0xAB7A, [0x13AA]),
   (0xAB7B, [0x13AB]), (0xAB7C, [0x13AC]), (0xAB7D, [0x13AD]), (0xAB7E, [0x13AE]),
   (0xAB7F, [0x13AF]), (0xAB80, [0x13B0]), (0xAB81, [0x13B1]), (0xAB82, [0x13B2]),
   (0xAB83, [0x13B3]), (0xAB84, [0x13B4]), (0xAB85, [0x13B5]), (0xAB86, [0x13B6]),
   (0xAB87, [0x13B7]), (0xAB88, [0x13B8]), (0xAB89, [0x13B9]), (0xAB8A, [0x13BA]),
   (0xAB8B, [0x13BB]), (0xAB8C, [0x13BC]), (0xAB8D, [0x13BD]), (0xAB8E, [0x13BE]),
   (0xAB8F, [0x13BF]), (0xAB90, [0x13C0]), (0xAB91, [0x13C1]), (0xAB92, [0x13C2]),
   (0xAB93, [0x13C3]), (0xAB94, [0x13C4]), (0xAB95, [0x13C5]), (0xAB96, [0x13C6])]

/-- Uppercase mappings of the code points U+AB97 to U+ABBE. -/
def upperBlock29 : List (Nat × List Nat) :=
  [(0xAB97, [0x13C7]), (0xAB98, [0x13C8]), (0xAB99, [0x13C9]), (0xAB9A, [0x13CA]),
   (0xAB9B, [0x13CB]), (0xAB9C, [0x13CC]), (0xAB9D, [0x13CD]), (0xAB9E, [0x13CE]),
   (0xAB9F, [0x13CF]), (0xABA0, [0x13D0]), (0xABA1, [0x13D1]), (0xABA2, [0x13D2]),
   (0xABA3, [0x13D3]), (0xABA4, [0x13D4]), (0xABA5, [0x13D5]), (0xABA6, [0x13D6]),
   (0xABA7, [0x13D7]), (0xABA8, [0x13D8]), (0xABA9, [0x13D9]), (0xABAA, [0x13DA]),
   (0xABAB, [0x13DB]), (0xABAC, [0x13DC]), (0xABAD, [0x13DD]), (0xABAE, [0x13DE]),
   (0xABAF, [0x13DF]), (0xABB0, [0x13E0]), (0xABB1, [0x13E1]), (0xABB2, [0x13E2]),
   (0xABB3, [0x13E3]), (0xABB4, [0x13E4]), (0xABB5, [0x13E5]), (0xABB6, [0x13E6]),
   (0xABB7, [0x13E7]), (0xABB8, [0x13E8]), (0xABB9, [0x13E9]), (0xABBA, [0x13EA]),
   (0xABBB, [0x13EB]), (0xABBC, [0x13EC]), (0xABBD, [0x13ED]), (0xABBE, [0x13EE])]

/-- Uppercase mappings of the code points U+ABBF to U+10428. -/
def upperBlock30 : List (Nat × List Nat) :=
  [(0xABBF, [0x13EF]), (0xFB00, [0x46, 0x46]), (0xFB01, [0x46, 0x49]), (0xFB02, [0x46, 0x4C]),
   (0xFB03, [0x46, 0x46, 0x49]), (0xFB04, [0x46, 0x46, 0x4C]), (0xFB05, [0x53, 0x54]),
   (0xFB06, [0x53, 0x54]), (0xFB13, [0x544, 0x546]), (0xFB14, [0x544, 0x535]),
   (0xFB15, [0x544, 0x53B]), (0xFB16, [0x54E, 0x546]), (0xFB17, [0x544, 0x53D]),
   (0xFF41, [0xFF21]), (0xFF42, [0xFF22]), (0xFF43, [0xFF23]), (0xFF44, [0xFF24]),
   (0xFF45, [0xFF25]), (0xFF46, [0xFF26]), (0xFF47, [0xFF27]), (0xFF48, [0xFF28]),
   (0xFF49, [0xFF29]), (0xFF4A, [0xFF2A]), (0xFF4B, [0xFF2B]), (0xFF4C, [0xFF2C]),
   (0xFF4D, [0xFF2D]), (0xFF4E, [0xFF2E]), (0xFF4F, [0xFF2F]), (0xFF50, [0xFF30]),
   (0xFF51, [0xFF31]), (0xFF52, [0xFF32]), (0xFF53, [0xFF33]), (0xFF54, [0xFF34]),
   (0xFF55, [0xFF35]), (0xFF56, [0xFF36]), (0xFF57, [0xFF37]), (0xFF58, [0xFF38]),
   (0xFF59, [0xFF39]), (0xFF5A, [0xFF3A]), (0x10428, [0x10400])]

/-- Uppercase mappings of the code points U+10429 to U+104D8. -/
def upperBlock31 : List (Nat × List Nat) :=
  [(0x10429, [0x10401]), (0x1042A, [0x10402]), (0x1042B, [0x10403]), (0x1042C, [0x10404]),
   (0x1042D, [0x10405]), (0x1042E, [0x10406]), (0x1042F, [0x10407]), (0x10430, [0x10408]),
   (0x10431, [0x10409]), (0x10432, [0x1040A]), (0x10433, [0x1040B]), (0x10434, [0x1040C]),
   (0x10435, [0x1040D]), (0x10436, [0x1040E]), (0x10437, [0x1040F]), (0x10438, [0x10410]),
   (0x10439, [0x10411]), (0x1043A, [0x10412]), (0x1043B, [0x10413]), (0x1043C, [0x10414]),
   (0x1043D, [0x10415]), (0x1043E, [0x10416]), (0x1043F, [0x10417]), (0x10440, [0x10418]),
   (0x10441, [0x10419]), (0x10442, [0x1041A]), (0x10443, [0x1041B]), (0x10444, [0x1041C]),
   (0x10445, [0x1041D]), (0x10446, [0x1041E]), (0x10447, [0x1041F]), (0x10448, [0x10420]),
   (0x10449, [0x10421]), (0x1044A, [0x10422]), (0x1044B, [0x10423]), (0x1044C, [0x10424]),
   (0x1044D, [0x10425]), (0x1044E, [0x10426]), (0x1044F, [0x10427]), (0x104D8, [0x104B0])]

/-- Uppercase mappings of the code points U+104D9 to U+1059B. -/
def upperBlock32 : List (Nat × List Nat) :=
  [(0x104D9, [0x104B1]), (0x104DA, [0x104B2]), (0x104DB, [0x104B3]), (0x104DC, [0x104B4]),
   (0x104DD, [0x104B5]), (0x104DE, [0x104B6]), (0x104DF, [0x104B7]), (0x104E0, [0x104B8]),
   (0x104E1, [0x104B9]), (0x104E2, [0x104BA]), (0x104E3, [0x104BB]), (0x104E4, [0x104BC]),
   (0x104E5, [0x104BD]), (0x104E6, [0x104BE]), (0x104E7, [0x104BF]), (0x104E8, [0x104C0]),
   (0x104E9, [0x104C1]), (0x104EA, [0x104C2]), (0x104EB, [0x104C3]), (0x104EC, [0x104C4]),
   (0x104ED, [0x104C5]), (0x104EE, [0x104C6]), (0x104EF, [0x104C7]), (0x104F0, [0x104C8]),
   (0x104F1, [0x104C9]), (0x104F2, [0x104CA]), (0x104F3, [0x104CB]), (0x104F4, [0x104CC]),
   (0x104F5, [0x104CD]), (0x104F6, [0x104CE]), (0x104F7, [0x104CF]), (0x104F8, [0x104D0]),
   (0x104F9, [0x104D1]), (0x104FA, [0x104D2]), (0x104FB, [0x104D3]), (0x10597, [0x10570]),
   (0x10598, [0x10571]), (0x10599, [0x10572]), (0x1059A, [0x10573]), (0x1059B, [0x10574])]

/-- Uppercase mappings of the code points U+1059C to U+10CC9. -/
def upperBlock33 : List (Nat × List Nat) :=
  [(0x1059C, [0x10575]), (0x1059D, [0x10576]), (0x1059E, [0x10577]), (0x1059F, [0x10578]),
   (0x105A0, [0x10579]), (0x105A1, [0x1057A]), (0x105A3, [0x1057C]), (0x105A4, [0x1057D]),
   (0x105A5, [0x1057E]), (0x105A6, [0x1057F]), (0x105A7, [0x10580]), (0x105A8, [0x10581]),
   (0x105A9, [0x10582]), (0x105AA, [0x10583]), (0x105AB, [0x10584]), (0x105AC, [0x10585]),
   (0x105AD, [0x10586]), (0x105AE, [0x10587]), (0x105AF, [0x10588]), (0x105B0, [0x10589]),
   (0x105B1, [0x1058A]), (0x105B3, [0x1058C]), (0x105B4, [0x1058D]), (0x105B5, [0x1058E]),
   (0x105B6, [0x1058F]), (0x105B7, [0x10590]), (0x105B8, [0x10591]), (0x105B9, [0x10592]),
   (0x105BB, [0x10594]), (0x105BC, [0x10595]), (0x10CC0, [0x10C80]), (0x10CC1, [0x10C81]),
   (0x10CC2, [0x10C82]), (0x10CC3, [0x10C83]), (0x10CC4, [0x10C84]), (0x10CC5, [0x10C85]),
   (0x10CC6, [0x10C86]), (0x10CC7, [0x10C87]), (0x10CC8, [0x10C88]), (0x10CC9, [0x10C89])]

/-- Uppercase mappings of the code points U+10CCA to U+10CF1. -/
def upperBlock34 : List (Nat × List Nat) :=
  [(0x10CCA, [0x10C8A]), (0x10CCB, [0x10C8B]), (0x10CCC, [0x10C8C]), (0x10CCD, [0x10C8D]),
   (0x10CCE, [0x10C8E]), (0x10CCF, [0x10C8F]), (0x10CD0, [0x10C90]), (0x10CD1, [0x10C91]),
   (0x10CD2, [0x10C92]), (0x10CD3, [0x10C93]), (0x10CD4, [0x10C94]), (0x10CD5, [0x10C95]),
   (0x10CD6, [0x10C96]), (0x10CD7, [0x10C97]), (0x10CD8, [0x10C98]), (0x10CD9, [0x10C99]),
   (0x10CDA, [0x10C9A]), (0x10CDB, [0x10C9B]), (0x10CDC, [0x10C9C]), (0x10CDD, [0x10C9D]),
   (0x10CDE, [0x10C9E]), (0x10CDF, [0x10C9F]), (0x10CE0, [0x10CA0]), (0x10CE1, [0x10CA1]),
   (0x10CE2, [0x10CA2]), (0x10CE3, [0x10CA3]), (0x10CE4, [0x10CA4]), (0x10CE5, [0x10CA5]),
   (0x10CE6, [0x10CA6]), (0x10CE7, [0x10CA7]), (0x10CE8, [0x10CA8]), (0x10CE9, [0x10CA9]),
   (0x10CEA, [0x10CAA]), (0x10CEB, [0x10CAB]), (0x10CEC, [0x10CAC]), (0x10CED, [0x10CAD]),
   (0x10CEE, [0x10CAE]), (0x10CEF, [0x10CAF]), (0x10CF0, [0x10CB0]), (0x10CF1, [0x10CB1])]

/-- Uppercase mappings of the code points U+10CF2 to U+16E66. -/
def upperBlock35 : List (Nat × List Nat) :=
  [(0x10CF2, [0x10CB2]), (0x118C0, [0x118A0]), (0x118C1, [0x118A1]), (0x118C2, [0x118A2]),
   (0x118C3, [0x118A3]), (0x118C4, [0x118A4]), (0x118C5, [0x118A5]), (0x118C6, [0x118A6]),
   (0x118C7, [0x118A7]), (0x118C8, [0x118A8]), (0x118C9, [0x118A9]), (0x118CA, [0x118AA]),
   (0x118CB, [0x118AB]), (0x118CC, [0x118AC]), (0x118CD, [0x118AD]), (0x118CE, [0x118AE]),
   (0x118CF, [0x118AF]), (0x118D0, [0x118B0]), (0x118D1, [0x118B1]), (0x118D2, [0x118B2]),
   (0x118D3, [0x118B3]), (0x118D4, [0x118B4]), (0x118D5, [0x118B5]), (0x118D6, [0x118B6]),
   (0x118D7, [0x118B7]), (0x118D8, [0x118B8]), (0x118D9, [0x118B9]), (0x118DA, [0x118BA]),
   (0x118DB, [0x118BB]), (0x118DC, [0x118BC]), (0x118DD, [0x118BD]), (0x118DE, [0x118BE]),
   (0x118DF, [0x118BF]), (0x16E60, [0x16E40]), (0x16E61, [0x16E41]), (0x16E62, [0x16E42]),
   (0x16E63, [0x16E43]), (0x16E64, [0x16E44]), (0x16E65, [0x16E45]), (0x16E66, [0x16E46])]

/-- Uppercase mappings of the code points U+16E67 to U+1E930. -/
def upperBlock36 : List (Nat × List Nat) :=
  [(0x16E67, [0x16E47]), (0x16E68, [0x16E48]), (0x16E69, [0x16E49]), (0x16E6A, [0x16E4A]),
   (0x16E6B, [0x16E4B]), (0x16E6C, [0x16E4C]), (0x16E6D, [0x16E4D]), (0x16E6E, [0x16E4E]),
   (0x16E6F, [0x16E4F]), (0x16E70, [0x16E50]), (0x16E71, [0x16E51]), (0x16E72, [0x16E52]),
   (0x16E73, [0x16E53]), (0x16E74, [0x16E54]), (0x16E75, [0x16E55]), (0x16E76, [0x16E56]),
   (0x16E77, [0x16E57]), (0x16E78, [0x16E58]), (0x16E79, [0x16E59]), (0x16E7A, [0x16E5A]),
   (0x16E7B, [0x16E5B]), (0x16E7C, [0x16E5C]), (0x16E7D, [0x16E5D]), (0x16E7E, [0x16E5E]),
   (0x16E7F, [0x16E5F]), (0x1E922, [0x1E900]), (0x1E923, [0x1E901]), (0x1E924, [0x1E902]),
   (0x1E925, [0x1E903]), (0x1E926, [0x1E904]), (0x1E927, [0x1E905]), (0x1E928, [0x1E906]),
   (0x1E929, [0x1E907]), (0x1E92A, [0x1E908]), (0x1E92B, [0x1E909]), (0x1E92C, [0x1E90A]),
   (0x1E92D, [0x1E90B]), (0x1E92E, [0x1E90C]), (0x1E92F, [0x1E90D]), (0x1E930, [0x1E90E])]

/-- Uppercase mappings of the code points U+1E931 to U+1E943. -/
def upperBlock37 : List (Nat × List Nat) :=
  [(0x1E931, [0x1E90F]), (0x1E932, [0x1E910]), (0x1E933, [0x1E911]), (0x1E934, [0x1E912]),
   (0x1E935, [0x1E913]), (0x1E936, [0x1E914]), (0x1E937, [0x1E915]), (0x1E938, [0x1E916]),
   (0x1E939, [0x1E917]), (0x1E93A, [0x1E918]), (0x1E93B, [0x1E919]), (0x1E93C, [0x1E91A]),
   (0x1E93D, [0x1E91B]), (0x1E93E, [0x1E91C]), (0x1E93F, [0x1E91D]), (0x1E940, [0x1E91E]),
   (0x1E941, [0x1E91F]), (0x1E942, [0x1E920]), (0x1E943, [0x1E921])]

/-- The uppercase mappings of the code points from 128 on that do not map to themselves,
by Unicode 14.0 (the simple uppercase mappings of UnicodeData.txt, replaced by the
unconditional mappings of SpecialCasing.txt where there is one): blocks in increasing
order, each with its greatest code point. -/
def upperTable : List (Nat × List (Nat × List Nat)) :=
  [(0x10D, upperBlock00), (0x15D, upperBlock01), (0x1C6, upperBlock02), (0x213, upperBlock03),
   (0x268, upperBlock04), (0x3B6, upperBlock05), (0x3ED, upperBlock06), (0x44F, upperBlock07),
   (0x497, upperBlock08), (0x4E7, upperBlock09), (0x564, upperBlock10), (0x10D4, upperBlock11),
   (0x10FE, upperBlock12), (0x1E29, upperBlock13), (0x1E79, upperBlock14), (0x1EC7, upperBlock15),
   (0x1F13, upperBlock16), (0x1F67, upperBlock17), (0x1F99, upperBlock18), (0x1FD2, upperBlock19),
   (0x24D4, upperBlock20), (0x2C42, upperBlock21), (0x2C85, upperBlock22), (0x2CD5, upperBlock23),
   (0x2D1D, upperBlock24), (0xA68D, upperBlock25), (0xA765, upperBlock26), (0xA7F6, upperBlock27),
   (0xAB96, upperBlock28), (0xABBE, upperBlock29), (0x10428, upperBlock30),
   (0x104D8, upperBlock31), (0x1059B, upperBlock32), (0x10CC9, upperBlock33),
   (0x10CF1, upperBlock34), (0x16E66, upperBlock35), (0x1E930, upperBlock36),
   (0x1E943, upperBlock37)]

/-- The uppercase mapping of a code point, as the list of the code points it maps to: the
ASCII letters directly, the code points from 128 on through `upperTable`; a code point without
entry maps to itself. -/
def upperCodes (n : Nat) : List Nat :=
  if n < 128 then
    if 97 ≤ n ∧ n ≤ 122 then [n - 32] else [n]
  else
    match upperTable.find? (fun block => n ≤ block.1) with
    | none => [n]
    | some block =>
      match block.2.lookup n with
      | none => [n]
      | some codes => codes

/-- Upper-cases one character; the result can be several characters ('ß' gives 'SS'). -/
def upperChars (c : Char) : List Char := (upperCodes c.toNat).map Char.ofNat

/-- The method `String.prototype.toUpperCase`, which is also the `uppercase` setter of the
schema. -/
def toUpperCase (s : String) : String := ⟨s.data.flatMap upperChars⟩

/-- JavaScript truthiness of a string: every string but the empty one. -/
def truthy (s : String) : Bool := s ≠ ""

/-! ## Documents -/

/-- A Mongo ObjectId. -/
abbrev ObjectId := Nat

/-- A point in time (milliseconds since the epoch). -/
abbrev Date := Int

/-- A document of the `Car` model (`models/Car.js`). -/
structure Car where
  _id : ObjectId
  user : ObjectId
  make : String
  model : String
  year : Int
  color : String
  licensePlate : String
  vin : Option String
  mileage : Int
  image : String
  notes : Option String
  createdAt : Date
  updatedAt : Date
deriving DecidableEq, Repr

/-- A document of the `Maintenance` model (`models/Maintenance.js`). -/
structure Maintenance where
  _id : ObjectId
  car : ObjectId
  user : ObjectId
  type : String
  description : String
  date : Date
  mileage : Int
  cost : ℚ
  location : Option String
  nextServiceDate : Option Date
  nextServiceMileage : Option Int
  receipt : String
  notes : Option String
  createdAt : Date
  updatedAt : Date
deriving DecidableEq, Repr

/-- A document of the `Expense` model (`models/Expense.js`). -/
structure Expense where
  _id : ObjectId
  car : ObjectId
  user : ObjectId
  category : String
  description : String
  amount : ℚ
  date : Date
  mileage : Option Int
  location : Option String
  receipt : String
  notes : Option String
  createdAt : Date
  updatedAt : Date
deriving DecidableEq, Repr

/-- The database: the three collections and the counter from which new ObjectIds are drawn. -/
structure Db where
  cars : List Car
  maintenance : List Maintenance
  expenses : List Expense
  objectIdCounter : Nat
deriving DecidableEq, Repr

/-- The database before any request. -/
def Db.empty : Db := ⟨[], [], [], 0⟩

/-! ## Populated documents and responses -/

/-- The fields selected by `populate('car', 'make model year licensePlate')`. -/
structure CarRef where
  _id : ObjectId
  make : String
  model : String
  year : Int
  licensePlate : String
deriving DecidableEq, Repr

/-- A maintenance document after `populate`: the `car` path holds the selected fields of the
referenced car, or `null` when no car has that id. -/
structure PopulatedMaintenance where
  _id : ObjectId
  car : Option CarRef
  user : ObjectId
  type : String
  description : String
  date : Date
  mileage : Int
  cost : ℚ
  location : Option String
  nextServiceDate : Option Date
  nextServiceMileage : Option Int
  receipt : String
  notes : Option String
  createdAt : Date
  updatedAt : Date
deriving DecidableEq, Repr

/-- An expense document after `populate`. -/
structure PopulatedExpense where
  _id : ObjectId
  car : Option CarRef
  user : ObjectId
  category : String
  description : String
  amount : ℚ
  date : Date
  mileage : Option Int
  location : Option String
  receipt : String
  notes : Option String
  createdAt : Date
  updatedAt : Date
deriving DecidableEq, Repr

/-- One group of the `/summary/categories` aggregation. -/
structure CategorySummary where
  _id : String
  total : ℚ
  count : Nat
deriving DecidableEq, Repr

/-- The JSON payload of a response. -/
inductive Payload where
  | message (message : String)
  | errors (errors : List String)
  | car (car : Car)
  | cars (cars : List Car)
  | maintenance (record : PopulatedMaintenance)
  | maintenanceList (records : List PopulatedMaintenance)
  | expense (record : PopulatedExpense)
  | expenses (records : List PopulatedExpense)
  | summary (groups : List CategorySummary)
deriving DecidableEq, Repr

/-- An HTTP response: status code and JSON payload. -/
structure Response where
  status : Nat
  json : Payload
deriving DecidableEq, Repr

/-- The answer of every `catch` block: `res.status(500).json({ message: 'Server error' })`. -/
def serverError : Response := ⟨500, .message "Server error"⟩

/-! ## Request bodies -/

/-- The body of `POST /cars` and `PUT /cars/:id`.  The field `user` is what a client may send
as an owner; no handler reads it. -/
structure CarBody where
  make : Option String := none
  model : Option String := none
  year : Option Int := none
  color : Option String := none
  licensePlate : Option String := none
  vin : Option String := none
  mileage : Option Int := none
  image : Option String := none
  notes : Option String := none
  user : Option ObjectId := none
deriving DecidableEq, Repr

/-- The body of `POST /maintenance` and `PUT /maintenance/:id`. -/
structure MaintenanceBody where
  car : Option ObjectId := none
  type : Option String := none
  description : Option String := none
  date : Option Date := none
  mileage : Option Int := none
  cost : Option ℚ := none
  location : Option String := none
  nextServiceDate : Option Date := none
  nextServiceMileage : Option Int := none
  receipt : Option String := none
  notes : Option String := none
  user : Option ObjectId := none
deriving DecidableEq, Repr

/-- The body of `POST /expenses` and `PUT /expenses/:id`. -/
structure ExpenseBody where
  car : Option ObjectId := none
  category : Option String := none
  description : Option String := none
  amount : Option ℚ := none
  date : Option Date := none
  mileage : Option Int := none
  location : Option String := none
  receipt : Option String := none
  notes : Option String := none
  user : Option ObjectId := none
deriving DecidableEq, Repr

/-! ## express-validator chains -/

/-- The chain `body(f).trim().notEmpty()`: an absent value is sanitized to the empty string. -/
def notEmptyTrimmed (v : Option String) : Bool :=
  match v with
  | none => false
  | some s => trim s ≠ ""

/-- The chain `body(f).isInt({ min, max })`. -/
def isIntBetween (min max : Int) (v : Option Int) : Bool :=
  match v with
  | none => false
  | some n => min ≤ n && n ≤ max

/-- The chain `body(f).isInt({ min: 0 })`. -/
def isIntMin0 (v : Option Int) : Bool :=
  match v with
  | none => false
  | some n => 0 ≤ n

/-- The chain `body(f).isFloat({ min: 0 })`. -/
def isFloatMin0 (v : Option ℚ) : Bool :=
  match v with
  | none => false
  | some x => 0 ≤ x

/-- The chain `body(f).isIn(values)`. -/
def isIn (values : List String) (v : Option String) : Bool :=
  match v with
  | none => false
  | some s => values.contains s

/-- The modifier `.optional()`: the chain is skipped when the field is undefined. -/
def optional {α : Type} (check : Option α → Bool) (v : Option α) : Bool :=
  v.isNone || check v

/-- One entry of `validationResult(req)`: the message of a failed chain. -/
def check (ok : Bool) (message : String) : List String :=
  if ok then [] else [message]

/-! ## Collection primitives -/

/-- Replaces the first element satisfying `p` (the write of `doc.save()` for a loaded
document, an `updateOne` on its `_id`). -/
def replaceFirst {α : Type} (p : α → Bool) (doc : α) : List α → List α
  | [] => []
  | x :: xs => if p x then doc :: xs else x :: replaceFirst p doc xs

/-- The expression `a || 0` on an optional integer. -/
def orZero (v : Option Int) : Int := v.getD 0

/-- The expression `a || ''` on an optional string. -/
def orEmpty (v : Option String) : String := v.getD ""

/-- The statement `if (v) doc.path = set(v)` for a string value. -/
def assignIfTruthy (v : Option String) (set : String → String) (old : String) : String :=
  match v with
  | some s => if truthy s then set s else old
  | none => old

/-- The statement `if (v !== undefined) doc.path = v`. -/
def assignIfDefined {α : Type} (v : Option α) (old : α) : α :=
  match v with
  | some a => a
  | none => old

/-! ## `models/Car.js` -/

/-- Setter of a string path declared `trim: true, uppercase: true`. -/
def setTrimUpper (s : String) : String := toUpperCase (trim s)

/-- Validators of the car schema: `required` on the string paths (an empty string is
missing), `min`/`max` on `year`, `min` on `mileage`. -/
def carValidate (currentYear : Int) (c : Car) : Bool :=
  c.make ≠ "" && c.model ≠ "" && (1900 ≤ c.year && c.year ≤ currentYear + 1) &&
  c.color ≠ "" && c.licensePlate ≠ "" && 0 ≤ c.mileage

/-- Validation of a loaded document on `save`: only the modified paths are validated. -/
def carValidateModified (currentYear : Int) (old new : Car) : Bool :=
  (new.make = old.make || new.make ≠ "") && (new.model = old.model || new.model ≠ "") &&
  (new.year = old.year || (1900 ≤ new.year && new.year ≤ currentYear + 1)) &&
  (new.color = old.color || new.color ≠ "") &&
  (new.licensePlate = old.licensePlate || new.licensePlate ≠ "") &&
  (new.mileage = old.mileage || 0 ≤ new.mileage)

/-- The unique index on `licensePlate`: writing `c` is refused when another document holds
the same plate. -/
def carDuplicateKey (cars : List Car) (c : Car) : Bool :=
  cars.any (fun d => d._id ≠ c._id && d.licensePlate = c.licensePlate)

/-- The call `car.save()` on a new document: validate, insert, or throw (`none`). -/
def carInsert (currentYear : Int) (db : Db) (c : Car) : Option Db :=
  if carValidate currentYear c && !carDuplicateKey db.cars c then
    some { db with cars := db.cars ++ [c], objectIdCounter := db.objectIdCounter + 1 }
  else none

/-- The call `car.save()` on a loaded document `old` changed to `new`: nothing is written
when no path is modified; otherwise the modified paths are validated, `updatedAt` is set
and the document is written, or the call throws (`none`). -/
def carUpdate (currentYear : Int) (now : Date) (db : Db) (old new : Car) : Option (Car × Db) :=
  if new = old then some (old, db)
  else if carValidateModified currentYear old new &&
      !(new.licensePlate ≠ old.licensePlate && carDuplicateKey db.cars new) then
    let saved := { new with updatedAt := now }
    some (saved, { db with cars := replaceFirst (fun c => c._id = old._id) saved db.cars })
  else none

/-! ## `routes/cars.js` -/

namespace cars

/-- Validation chains of `router.post('/')`. -/
def postErrors (currentYear : Int) (b : CarBody) : List String :=
  check (notEmptyTrimmed b.make) "Make is required" ++
  check (notEmptyTrimmed b.model) "Model is required" ++
  check (isIntBetween 1900 (currentYear + 1) b.year) "Valid year is required" ++
  check (notEmptyTrimmed b.color) "Color is required" ++
  check (notEmptyTrimmed b.licensePlate) "License plate is required" ++
  check (optional isIntMin0 b.mileage) "Mileage must be a positive number"

/-- Validation chains of `router.put('/:id')`. -/
def putErrors (currentYear : Int) (b : CarBody) : List String :=
  check (optional notEmptyTrimmed b.make) "Make cannot be empty" ++
  check (optional notEmptyTrimmed b.model) "Model cannot be empty" ++
  check (optional (isIntBetween 1900 (currentYear + 1)) b.year) "Valid year is required" ++
  check (optional notEmptyTrimmed b.color) "Color cannot be empty" ++
  check (optional notEmptyTrimmed b.licensePlate) "License plate cannot be empty" ++
  check (optional isIntMin0 b.mileage) "Mileage must be a positive number"

/-- The `trim()` sanitizers of the chains write the trimmed value back into `req.body`. -/
def sanitize (b : CarBody) : CarBody :=
  { b with make := b.make.map trim, model := b.model.map trim, color := b.color.map trim,
           licensePlate := b.licensePlate.map trim }

/-- Handler `router.get('/')`: the cars of the caller, newest first. -/
def getAll (caller : ObjectId) (db : Db) : Response × Db :=
  (⟨200, .cars ((db.cars.filter (fun c => c.user = caller)).insertionSort
      (fun a b => a.createdAt ≥ b.createdAt))⟩, db)

/-- Handler `router.get('/:id')`. -/
def getOne (caller : ObjectId) (id : ObjectId) (db : Db) : Response × Db :=
  match db.cars.find? (fun c => c._id = id && c.user = caller) with
  | none => (⟨404, .message "Car not found"⟩, db)
  | some car => (⟨200, .car car⟩, db)

/-- The document `new Car({ user: req.user._id, make, ..., notes })` of `router.post('/')`,
with the schema setters and defaults applied and the timestamps of the first save. -/
def newCar (id caller : ObjectId) (now : Date) (make model : String) (year : Int)
    (color licensePlate : String) (body : CarBody) : Car :=
  { _id := id
    user := caller
    make := trim make
    model := trim model
    year := year
    color := trim color
    licensePlate := setTrimUpper (toUpperCase licensePlate)
    vin := (body.vin.map toUpperCase).map setTrimUpper
    mileage := orZero body.mileage
    image := orEmpty body.image
    notes := body.notes.map trim
    createdAt := now
    updatedAt := now }

/-- Handler `router.post('/')`. -/
def post (currentYear : Int) (caller : ObjectId) (now : Date) (body : CarBody) (db : Db) :
    Response × Db :=
  let errors := postErrors currentYear body
  if errors ≠ [] then (⟨400, .errors errors⟩, db) else
  let body := sanitize body
  match body.licensePlate with
  | none => (serverError, db)
  | some licensePlate =>
    match db.cars.find? (fun c => c.licensePlate = toUpperCase licensePlate) with
    | some _ => (⟨400, .message "A car with this license plate already exists"⟩, db)
    | none =>
      match body.make, body.model, body.year, body.color with
      | some make, some model, some year, some color =>
        let car := newCar db.objectIdCounter caller now make model year color licensePlate body
        match carInsert currentYear db car with
        | some db' => (⟨201, .car car⟩, db')
        | none => (serverError, db)
      | _, _, _, _ => (serverError, db)

/-- The plate check of `router.put('/:id')`: the plate is supplied, differs from the stored
one, and another car holds it. -/
def plateTaken (id : ObjectId) (car : Car) (licensePlate : Option String) (db : Db) : Bool :=
  match licensePlate with
  | none => false
  | some lp =>
    truthy lp && toUpperCase lp ≠ car.licensePlate &&
      (db.cars.find? (fun c => c.licensePlate = toUpperCase lp && c._id ≠ id)).isSome

/-- The assignments of `router.put('/:id')`, with the schema setters applied. -/
def assign (car : Car) (body : CarBody) : Car :=
  { car with
    make := assignIfTruthy body.make trim car.make
    model := assignIfTruthy body.model trim car.model
    year := match body.year with
      | some y => if y ≠ 0 then y else car.year
      | none => car.year
    color := assignIfTruthy body.color trim car.color
    licensePlate :=
      assignIfTruthy body.licensePlate (fun lp => setTrimUpper (toUpperCase lp)) car.licensePlate
    vin := match body.vin with
      | some v => some (setTrimUpper (toUpperCase v))
      | none => car.vin
    mileage := assignIfDefined body.mileage car.mileage
    image := assignIfDefined body.image car.image
    notes := match body.notes with
      | some n => some (trim n)
      | none => car.notes }

/-- Handler `router.put('/:id')`. -/
def put (currentYear : Int) (caller : ObjectId) (now : Date) (id : ObjectId) (body : CarBody)
    (db : Db) : Response × Db :=
  let errors := putErrors currentYear body
  if errors ≠ [] then (⟨400, .errors errors⟩, db) else
  let body := sanitize body
  match db.cars.find? (fun c => c._id = id && c.user = caller) with
  | none => (⟨404, .message "Car not found"⟩, db)
  | some car =>
    if plateTaken id car body.licensePlate db then
      (⟨400, .message "A car with this license plate already exists"⟩, db)
    else
      match carUpdate currentYear now db car (assign car body) with
      | some (saved, db') => (⟨200, .car saved⟩, db')
      | none => (serverError, db)

/-- Handler `router.delete('/:id')`. -/
def delete (caller : ObjectId) (id : ObjectId) (db : Db) : Response × Db :=
  match db.cars.find? (fun c => c._id = id && c.user = caller) with
  | none => (⟨404, .message "Car not found"⟩, db)
  | some _ =>
    (⟨200, .message "Car deleted successfully"⟩,
      { db with cars := db.cars.eraseP (fun c => c._id = id) })

end cars

/-! ## `populate('car', 'make model year licensePlate')` -/

/-- The populated value of a `car` path: the selected fields of the car with that id, or
`null` when there is none. -/
def populateCar (db : Db) (id : ObjectId) : Option CarRef :=
  (db.cars.find? (fun c => c._id = id)).map
    (fun c => ⟨c._id, c.make, c.model, c.year, c.licensePlate⟩)

/-- A maintenance document with its `car` path populated. -/
def populateMaintenance (db : Db) (m : Maintenance) : PopulatedMaintenance :=
  { _id := m._id, car := populateCar db m.car, user := m.user, type := m.type,
    description := m.description, date := m.date, mileage := m.mileage, cost := m.cost,
    location := m.location, nextServiceDate := m.nextServiceDate,
    nextServiceMileage := m.nextServiceMileage, receipt := m.receipt, notes := m.notes,
    createdAt := m.createdAt, updatedAt := m.updatedAt }

/-- An expense document with its `car` path populated. -/
def populateExpense (db : Db) (e : Expense) : PopulatedExpense :=
  { _id := e._id, car := populateCar db e.car, user := e.user, category := e.category,
    description := e.description, amount := e.amount, date := e.date, mileage := e.mileage,
    location := e.location, receipt := e.receipt, notes := e.notes,
    createdAt := e.createdAt, updatedAt := e.updatedAt }

/-! ## `models/Maintenance.js` -/

/-- The `enum` of the `type` path. -/
def maintenanceTypes : List String :=
  ["Oil Change", "Tire Rotation", "Brake Service", "Engine Service", "Transmission", "Other"]

/-- The `min: 0` validator of an optional number path. -/
def optMin0 (v : Option Int) : Bool :=
  match v with
  | none => true
  | some n => 0 ≤ n

/-- Validators of the maintenance schema. -/
def maintenanceValidate (m : Maintenance) : Bool :=
  maintenanceTypes.contains m.type && m.description ≠ "" && 0 ≤ m.mileage && 0 ≤ m.cost &&
  optMin0 m.nextServiceMileage

/-- Validation of the modified paths of a loaded maintenance document. -/
def maintenanceValidateModified (old new : Maintenance) : Bool :=
  (new.type = old.type || maintenanceTypes.contains new.type) &&
  (new.description = old.description || new.description ≠ "") &&
  (new.mileage = old.mileage || 0 ≤ new.mileage) &&
  (new.cost = old.cost || 0 ≤ new.cost) &&
  (new.nextServiceMileage = old.nextServiceMileage || optMin0 new.nextServiceMileage)

/-- The call `maintenance.save()` on a new document. -/
def maintenanceInsert (db : Db) (m : Maintenance) : Option Db :=
  if maintenanceValidate m then
    some { db with maintenance := db.maintenance ++ [m],
                   objectIdCounter := db.objectIdCounter + 1 }
  else none

/-- The call `maintenance.save()` on a loaded document. -/
def maintenanceUpdate (now : Date) (db : Db) (old new : Maintenance) :
    Option (Maintenance × Db) :=
  if new = old then some (old, db)
  else if maintenanceValidateModified old new then
    let saved := { new with updatedAt := now }
    some (saved,
      { db with maintenance := replaceFirst (fun m => m._id = old._id) saved db.maintenance })
  else none

/-! ## `routes/maintenance.js` -/

namespace maintenance

/-- The values listed in `body('type').isIn([...])` of `router.post('/')`. -/
def postTypeValues : List String :=
  ["Oil Change", "Tire Rotation", "Brake Service", "Engine Service", "Transmission", "Other"]

/-- The values listed in `body('type').optional().isIn([...])` of `router.put('/:id')`. -/
def putTypeValues : List String :=
  ["Oil Change", "Tire Rotation", "Brake Service", "Engine Service", "Transmission", "Other"]

/-- Validation chains of `router.post('/')`; `isMongoId` and `isISO8601` hold of every
present value of the typed body. -/
def postErrors (b : MaintenanceBody) : List String :=
  check b.car.isSome "Valid car ID is required" ++
  check (isIn postTypeValues b.type) "Valid maintenance type is required" ++
  check (notEmptyTrimmed b.description) "Description is required" ++
  check b.date.isSome "Valid date is required" ++
  check (isIntMin0 b.mileage) "Mileage must be a positive number" ++
  check (isFloatMin0 b.cost) "Cost must be a positive number"

/-- Validation chains of `router.put('/:id')`. -/
def putErrors (b : MaintenanceBody) : List String :=
  check (optional (isIn putTypeValues) b.type) "Valid maintenance type is required" ++
  check (optional notEmptyTrimmed b.description) "Description cannot be empty" ++
  check (optional (fun d => d.isSome) b.date) "Valid date is required" ++
  check (optional isIntMin0 b.mileage) "Mileage must be a positive number" ++
  check (optional isFloatMin0 b.cost) "Cost must be a positive number"

/-- The `trim()` sanitizer of the `description` chain. -/
def sanitize (b : MaintenanceBody) : MaintenanceBody :=
  { b with description := b.description.map trim }

/-- The sort `{ date: -1 }` followed by `populate`. -/
def listing (db : Db) (records : List Maintenance) : List PopulatedMaintenance :=
  (records.insertionSort (fun a b => a.date ≥ b.date)).map (populateMaintenance db)

/-- Handler `router.get('/')`. -/
def getAll (caller : ObjectId) (db : Db) : Response × Db :=
  (⟨200, .maintenanceList (listing db (db.maintenance.filter (fun m => m.user = caller)))⟩, db)

/-- Handler `router.get('/car/:carId')`. -/
def getByCar (caller : ObjectId) (carId : ObjectId) (db : Db) : Response × Db :=
  match db.cars.find? (fun c => c._id = carId && c.user = caller) with
  | none => (⟨404, .message "Car not found"⟩, db)
  | some _ =>
    (⟨200, .maintenanceList (listing db (db.maintenance.filter (fun m => m.car = carId)))⟩, db)

/-- Handler `router.get('/:id')`. -/
def getOne (caller : ObjectId) (id : ObjectId) (db : Db) : Response × Db :=
  match db.maintenance.find? (fun m => m._id = id && m.user = caller) with
  | none => (⟨404, .message "Maintenance record not found"⟩, db)
  | some m => (⟨200, .maintenance (populateMaintenance db m)⟩, db)

/-- The document `new Maintenance({ car, user: req.user._id, ..., notes })` of
`router.post('/')`, with the schema setters applied and the timestamps of the first save. -/
def newMaintenance (id caller : ObjectId) (now : Date) (car : ObjectId)
    (type description : String) (date : Date) (mileage : Int) (cost : ℚ)
    (body : MaintenanceBody) : Maintenance :=
  { _id := id
    car := car
    user := caller
    type := type
    description := trim description
    date := date
    mileage := mileage
    cost := cost
    location := body.location.map trim
    nextServiceDate := body.nextServiceDate
    nextServiceMileage := body.nextServiceMileage
    receipt := orEmpty body.receipt
    notes := body.notes.map trim
    createdAt := now
    updatedAt := now }

/-- Handler `router.post('/')`. -/
def post (caller : ObjectId) (now : Date) (body : MaintenanceBody) (db : Db) : Response × Db :=
  let errors := postErrors body
  if errors ≠ [] then (⟨400, .errors errors⟩, db) else
  let body := sanitize body
  match body.car with
  | none => (serverError, db)
  | some car =>
    match db.cars.find? (fun c => c._id = car && c.user = caller) with
    | none => (⟨404, .message "Car not found"⟩, db)
    | some _ =>
      match body.type, body.description, body.date, body.mileage, body.cost with
      | some type, some description, some date, some mileage, some cost =>
        let doc := newMaintenance db.objectIdCounter caller now car type description date
          mileage cost body
        match maintenanceInsert db doc with
        | some db' => (⟨201, .maintenance (populateMaintenance db' doc)⟩, db')
        | none => (serverError, db)
      | _, _, _, _, _ => (serverError, db)

/-- The assignments of `router.put('/:id')`, with the schema setters applied. -/
def assign (m : Maintenance) (body : MaintenanceBody) : Maintenance :=
  { m with
    type := assignIfTruthy body.type id m.type
    description := assignIfTruthy body.description trim m.description
    date := assignIfDefined body.date m.date
    mileage := assignIfDefined body.mileage m.mileage
    cost := assignIfDefined body.cost m.cost
    location := match body.location with
      | some l => some (trim l)
      | none => m.location
    nextServiceDate := match body.nextServiceDate with
      | some d => some d
      | none => m.nextServiceDate
    nextServiceMileage := match body.nextServiceMileage with
      | some n => some n
      | none => m.nextServiceMileage
    receipt := assignIfDefined body.receipt m.receipt
    notes := match body.notes with
      | some n => some (trim n)
      | none => m.notes }

/-- Handler `router.put('/:id')`. -/
def put (caller : ObjectId) (now : Date) (id : ObjectId) (body : MaintenanceBody) (db : Db) :
    Response × Db :=
  let errors := putErrors body
  if errors ≠ [] then (⟨400, .errors errors⟩, db) else
  let body := sanitize body
  match db.maintenance.find? (fun m => m._id = id && m.user = caller) with
  | none => (⟨404, .message "Maintenance record not found"⟩, db)
  | some doc =>
    match maintenanceUpdate now db doc (assign doc body) with
    | some (saved, db') => (⟨200, .maintenance (populateMaintenance db' saved)⟩, db')
    | none => (serverError, db)

/-- Handler `router.delete('/:id')`. -/
def delete (caller : ObjectId) (id : ObjectId) (db : Db) : Response × Db :=
  match db.maintenance.find? (fun m => m._id = id && m.user = caller) with
  | none => (⟨404, .message "Maintenance record not found"⟩, db)
  | some _ =>
    (⟨200, .message "Maintenance record deleted successfully"⟩,
      { db with maintenance := db.maintenance.eraseP (fun m => m._id = id) })

end maintenance

/-! ## `models/Expense.js` -/

/-- The `enum` of the `category` path. -/
def expenseCategories : List String :=
  ["Fuel", "Insurance", "Registration", "Repairs", "Parts", "Tires", "Other"]

/-- Validators of the expense schema. -/
def expenseValidate (e : Expense) : Bool :=
  expenseCategories.contains e.category && e.description ≠ "" && 0 ≤ e.amount &&
  optMin0 e.mileage

/-- Validation of the modified paths of a loaded expense document. -/
def expenseValidateModified (old new : Expense) : Bool :=
  (new.category = old.category || expenseCategories.contains new.category) &&
  (new.description = old.description || new.description ≠ "") &&
  (new.amount = old.amount || 0 ≤ new.amount) &&
  (new.mileage = old.mileage || optMin0 new.mileage)

/-- The call `expense.save()` on a new document. -/
def expenseInsert (db : Db) (e : Expense) : Option Db :=
  if expenseValidate e then
    some { db with expenses := db.expenses ++ [e], objectIdCounter := db.objectIdCounter + 1 }
  else none

/-- The call `expense.save()` on a loaded document. -/
def expenseUpdate (now : Date) (db : Db) (old new : Expense) : Option (Expense × Db) :=
  if new = old then some (old, db)
  else if expenseValidateModified old new then
    let saved := { new with updatedAt := now }
    some (saved, { db with expenses := replaceFirst (fun e => e._id = old._id) saved db.expenses })
  else none

/-! ## `routes/expenses.js` -/

namespace expenses

/-- The values listed in `body('category').isIn([...])` of `router.post('/')`. -/
def postCategoryValues : List String :=
  ["Fuel", "Insurance", "Registration", "Repairs", "Parts", "Tires", "Other"]

/-- The values listed in `body('category').optional().isIn([...])` of `router.put('/:id')`. -/
def putCategoryValues : List String :=
  ["Fuel", "Insurance", "Registration", "Repairs", "Parts", "Tires", "Other"]

/-- Validation chains of `router.post('/')`. -/
def postErrors (b : ExpenseBody) : List String :=
  check b.car.isSome "Valid car ID is required" ++
  check (isIn postCategoryValues b.category) "Valid expense category is required" ++
  check (notEmptyTrimmed b.description) "Description is required" ++
  check (isFloatMin0 b.amount) "Amount must be a positive number" ++
  check b.date.isSome "Valid date is required"

/-- Validation chains of `router.put('/:id')`. -/
def putErrors (b : ExpenseBody) : List String :=
  check (optional (isIn putCategoryValues) b.category) "Valid expense category is required" ++
  check (optional notEmptyTrimmed b.description) "Description cannot be empty" ++
  check (optional isFloatMin0 b.amount) "Amount must be a positive number" ++
  check (optional (fun d => d.isSome) b.date) "Valid date is required"

/-- The `trim()` sanitizer of the `description` chain. -/
def sanitize (b : ExpenseBody) : ExpenseBody :=
  { b with description := b.description.map trim }

/-- The sort `{ date: -1 }` followed by `populate`. -/
def listing (db : Db) (records : List Expense) : List PopulatedExpense :=
  (records.insertionSort (fun a b => a.date ≥ b.date)).map (populateExpense db)

/-- Handler `router.get('/')`. -/
def getAll (caller : ObjectId) (db : Db) : Response × Db :=
  (⟨200, .expenses (listing db (db.expenses.filter (fun e => e.user = caller)))⟩, db)

/-- Handler `router.get('/car/:carId')`. -/
def getByCar (caller : ObjectId) (carId : ObjectId) (db : Db) : Response × Db :=
  match db.cars.find? (fun c => c._id = carId && c.user = caller) with
  | none => (⟨404, .message "Car not found"⟩, db)
  | some _ =>
    (⟨200, .expenses (listing db (db.expenses.filter (fun e => e.car = carId)))⟩, db)

/-- Handler `router.get('/:id')`. -/
def getOne (caller : ObjectId) (id : ObjectId) (db : Db) : Response × Db :=
  match db.expenses.find? (fun e => e._id = id && e.user = caller) with
  | none => (⟨404, .message "Expense not found"⟩, db)
  | some e => (⟨200, .expense (populateExpense db e)⟩, db)

/-- The document `new Expense({ car, user: req.user._id, ..., notes })` of
`router.post('/')`, with the schema setters applied and the timestamps of the first save. -/
def newExpense (id caller : ObjectId) (now : Date) (car : ObjectId)
    (category description : String) (amount : ℚ) (date : Date) (body : ExpenseBody) :
    Expense :=
  { _id := id
    car := car
    user := caller
    category := category
    description := trim description
    amount := amount
    date := date
    mileage := body.mileage
    location := body.location.map trim
    receipt := orEmpty body.receipt
    notes := body.notes.map trim
    createdAt := now
    updatedAt := now }

/-- Handler `router.post('/')`. -/
def post (caller : ObjectId) (now : Date) (body : ExpenseBody) (db : Db) : Response × Db :=
  let errors := postErrors body
  if errors ≠ [] then (⟨400, .errors errors⟩, db) else
  let body := sanitize body
  match body.car with
  | none => (serverError, db)
  | some car =>
    match db.cars.find? (fun c => c._id = car && c.user = caller) with
    | none => (⟨404, .message "Car not found"⟩, db)
    | some _ =>
      match body.category, body.description, body.amount, body.date with
      | some category, some description, some amount, some date =>
        let doc := newExpense db.objectIdCounter caller now car category description amount
          date body
        match expenseInsert db doc with
        | some db' => (⟨201, .expense (populateExpense db' doc)⟩, db')
        | none => (serverError, db)
      | _, _, _, _ => (serverError, db)

/-- The assignments of `router.put('/:id')`, with the schema setters applied. -/
def assign (e : Expense) (body : ExpenseBody) : Expense :=
  { e with
    category := assignIfTruthy body.category id e.category
    description := assignIfTruthy body.description trim e.description
    amount := assignIfDefined body.amount e.amount
    date := assignIfDefined body.date e.date
    mileage := match body.mileage with
      | some n => some n
      | none => e.mileage
    location := match body.location with
      | some l => some (trim l)
      | none => e.location
    receipt := assignIfDefined body.receipt e.receipt
    notes := match body.notes with
      | some n => some (trim n)
      | none => e.notes }

/-- Handler `router.put('/:id')`. -/
def put (caller : ObjectId) (now : Date) (id : ObjectId) (body : ExpenseBody) (db : Db) :
    Response × Db :=
  let errors := putErrors body
  if errors ≠ [] then (⟨400, .errors errors⟩, db) else
  let body := sanitize body
  match db.expenses.find? (fun e => e._id = id && e.user = caller) with
  | none => (⟨404, .message "Expense not found"⟩, db)
  | some doc =>
    match expenseUpdate now db doc (assign doc body) with
    | some (saved, db') => (⟨200, .expense (populateExpense db' saved)⟩, db')
    | none => (serverError, db)

/-- Handler `router.delete('/:id')`. -/
def delete (caller : ObjectId) (id : ObjectId) (db : Db) : Response × Db :=
  match db.expenses.find? (fun e => e._id = id && e.user = caller) with
  | none => (⟨404, .message "Expense not found"⟩, db)
  | some _ =>
    (⟨200, .message "Expense deleted successfully"⟩,
      { db with expenses := db.expenses.eraseP (fun e => e._id = id) })

/-- The stages `$group` (by category: sum of `amount`, count) and `$sort: { total: -1 }`, over
exact numbers: the total of a group is the exact sum of its amounts. -/
def groupByCategory (es : List Expense) : List CategorySummary :=
  (((es.map (fun e => e.category)).dedup).map (fun k =>
      { _id := k
        total := ((es.filter (fun e => e.category = k)).map (fun e => e.amount)).sum
        count := (es.filter (fun e => e.category = k)).length : CategorySummary })).insertionSort
    (fun a b => a.total ≥ b.total)

/-- Handler `router.get('/summary/categories')`. -/
def getSummary (caller : ObjectId) (db : Db) : Response × Db :=
  (⟨200, .summary (groupByCategory (db.expenses.filter (fun e => e.user = caller)))⟩, db)

end expenses

/-! ## Requests and runs -/

/-- A request to the cars router, with the authenticated caller and the time of handling. -/
inductive CarRequest where
  | create (caller : ObjectId) (now : Date) (body : CarBody)
  | update (caller : ObjectId) (now : Date) (id : ObjectId) (body : CarBody)
  | delete (caller : ObjectId) (id : ObjectId)

/-- The database after one request to the cars router. -/
def CarRequest.step (currentYear : Int) (db : Db) : CarRequest → Db
  | .create caller now body => (cars.post currentYear caller now body db).2
  | .update caller now id body => (cars.put currentYear caller now id body db).2
  | .delete caller id => (cars.delete caller id db).2

/-- The database after a sequence of requests handled one after the other. -/
def runCars (currentYear : Int) (requests : List CarRequest) (db : Db) : Db :=
  requests.foldl (CarRequest.step currentYear) db

end CarVault

namespace CarVault

/-! ## Totals of the pages `CarDetail.jsx` and `Expenses.jsx` -/

namespace CarDetail

/-- The constant `maintenance.reduce((sum, record) => sum + record.cost, 0)`. -/
def totalMaintenanceCost (maintenance : List PopulatedMaintenance) : ℚ :=
  maintenance.foldl (fun sum record => sum + record.cost) 0

/-- The constant `expenses.reduce((sum, expense) => sum + expense.amount, 0)`. -/
def totalExpenses (expenses : List PopulatedExpense) : ℚ :=
  expenses.foldl (fun sum expense => sum + expense.amount) 0

end CarDetail

namespace Expenses

/-- The constant `expenses.reduce((sum, expense) => sum + expense.amount, 0)`. -/
def totalExpenses (expenses : List PopulatedExpense) : ℚ :=
  expenses.foldl (fun sum expense => sum + expense.amount) 0

end Expenses

/-! ## Partial update, as specified -/

/-- The value of a path after a partial update as the specification words it: the provided
value, normalised by `set`, or the stored value when the body does not carry the field. -/
def providedOr {α β : Type} (v : Option α) (set : α → β) (stored : β) : β :=
  match v with
  | some a => set a
  | none => stored

/-- The car a partial update of `old` with `body` is specified to store: absent fields keep
the stored value, provided fields take the provided value (strings trimmed, plate and vin
also upper-cased); the id, owner and `createdAt` stay, `updatedAt` is `t`. -/
def cars.merged (old : Car) (body : CarBody) (t : Date) : Car :=
  { _id := old._id
    user := old.user
    make := providedOr body.make trim old.make
    model := providedOr body.model trim old.model
    year := providedOr body.year id old.year
    color := providedOr body.color trim old.color
    licensePlate := providedOr body.licensePlate (fun p => toUpperCase (trim p)) old.licensePlate
    vin := providedOr body.vin (fun v => some (toUpperCase (trim v))) old.vin
    mileage := providedOr body.mileage id old.mileage
    image := providedOr body.image id old.image
    notes := providedOr body.notes (fun n => some (trim n)) old.notes
    createdAt := old.createdAt
    updatedAt := t }

/-- The maintenance record a partial update of `old` with `body` is specified to store. -/
def maintenance.merged (old : Maintenance) (body : MaintenanceBody) (t : Date) : Maintenance :=
  { _id := old._id
    car := old.car
    user := old.user
    type := providedOr body.type id old.type
    description := providedOr body.description trim old.description
    date := providedOr body.date id old.date
    mileage := providedOr body.mileage id old.mileage
    cost := providedOr body.cost id old.cost
    location := providedOr body.location (fun l => some (trim l)) old.location
    nextServiceDate := providedOr body.nextServiceDate some old.nextServiceDate
    nextServiceMileage := providedOr body.nextServiceMileage some old.nextServiceMileage
    receipt := providedOr body.receipt id old.receipt
    notes := providedOr body.notes (fun n => some (trim n)) old.notes
    createdAt := old.createdAt
    updatedAt := t }

/-- The expense a partial update of `old` with `body` is specified to store. -/
def expenses.merged (old : Expense) (body : ExpenseBody) (t : Date) : Expense :=
  { _id := old._id
    car := old.car
    user := old.user
    category := providedOr body.category id old.category
    description := providedOr body.description trim old.description
    amount := providedOr body.amount id old.amount
    date := providedOr body.date id old.date
    mileage := providedOr body.mileage some old.mileage
    location := providedOr body.location (fun l => some (trim l)) old.location
    receipt := providedOr body.receipt id old.receipt
    notes := providedOr body.notes (fun n => some (trim n)) old.notes
    createdAt := old.createdAt
    updatedAt := t }

/-! ## Missing and blank values -/

/-- A string value is blank: empty, or made of whitespace only. -/
def BlankValue (s : String) : Prop :=
  ∀ c ∈ s.data, isJsWhitespace c = true

/-- A required string field is blank: missing from the body, or supplied with a blank
value. -/
def Blank (v : Option String) : Prop :=
  v = none ∨ ∃ s, v = some s ∧ BlankValue s

/-! ## The API: endpoints behind the `auth` middleware -/

/-- An endpoint of the three routers mounted by `server.js`, with its path id and body. -/
inductive Endpoint where
  | carsGetAll
  | carsGetOne (id : ObjectId)
  | carsPost (body : CarBody)
  | carsPut (id : ObjectId) (body : CarBody)
  | carsDelete (id : ObjectId)
  | maintenanceGetAll
  | maintenanceGetByCar (carId : ObjectId)
  | maintenanceGetOne (id : ObjectId)
  | maintenancePost (body : MaintenanceBody)
  | maintenancePut (id : ObjectId) (body : MaintenanceBody)
  | maintenanceDelete (id : ObjectId)
  | expensesGetAll
  | expensesGetByCar (carId : ObjectId)
  | expensesGetOne (id : ObjectId)
  | expensesPost (body : ExpenseBody)
  | expensesPut (id : ObjectId) (body : ExpenseBody)
  | expensesDelete (id : ObjectId)
  | expensesGetSummary

/-- The handler of an endpoint, once `auth` has set `req.user`. -/
def Endpoint.handle (currentYear : Int) (caller : ObjectId) (now : Date) :
    Endpoint → Db → Response × Db
  | .carsGetAll, db => cars.getAll caller db
  | .carsGetOne id, db => cars.getOne caller id db
  | .carsPost body, db => cars.post currentYear caller now body db
  | .carsPut id body, db => cars.put currentYear caller now id body db
  | .carsDelete id, db => cars.delete caller id db
  | .maintenanceGetAll, db => maintenance.getAll caller db
  | .maintenanceGetByCar carId, db => maintenance.getByCar caller carId db
  | .maintenanceGetOne id, db => maintenance.getOne caller id db
  | .maintenancePost body, db => maintenance.post caller now body db
  | .maintenancePut id body, db => maintenance.put caller now id body db
  | .maintenanceDelete id, db => maintenance.delete caller id db
  | .expensesGetAll, db => expenses.getAll caller db
  | .expensesGetByCar carId, db => expenses.getByCar caller carId db
  | .expensesGetOne id, db => expenses.getOne caller id db
  | .expensesPost body, db => expenses.post caller now body db
  | .expensesPut id body, db => expenses.put caller now id body db
  | .expensesDelete id, db => expenses.delete caller id db
  | .expensesGetSummary, db => expenses.getSummary caller db

/-- Modelled from the spec: the middleware `middleware/auth.js`, which every route lists
first and which is not among the sources. "`verify(token) → UserId | fails(Unauthorized)`.
Called by every protected endpoint before any repository access; expired or malformed tokens
fail closed." The verification of a token (signature, expiry) is the parameter `verify`; the
result is the user id put in `req.user`, or none when the token is missing or invalid. -/
def auth (verify : String → Option ObjectId) (token : Option String) : Option ObjectId :=
  match token with
  | none => none
  | some t => verify t

/-- Modelled from the spec: the answer of `middleware/auth.js` to a request without a valid
token, "absence or invalidity yields `401`", with a human-readable message whose text the
specification leaves open. -/
def unauthorized : Response := ⟨401, .message "Unauthorized"⟩

/-- A route `router.verb(path, auth, ..., handler)`: `auth` runs first and either answers
the request or passes it on with `req.user` set. -/
def serve (currentYear : Int) (verify : String → Option ObjectId) (now : Date)
    (token : Option String) (endpoint : Endpoint) (db : Db) : Response × Db :=
  match auth verify token with
  | none => (unauthorized, db)
  | some caller => endpoint.handle currentYear caller now db

/-- A request as it reaches a handler: the caller `req.user._id`, the time of handling, the
endpoint. -/
structure ApiRequest where
  caller : ObjectId
  now : Date
  endpoint : Endpoint

/-- The database after a sequence of API requests handled one after the other. -/
def runApi (currentYear : Int) (requests : List ApiRequest) (db : Db) : Db :=
  requests.foldl (fun db r => (r.endpoint.handle currentYear r.caller r.now db).2) db

/-! ## Invariant of the cars collection -/

/-- What every database reached through the handlers satisfies: ids are drawn from the
counter and identify a car, no two cars hold the same plate, and every stored plate is a
value of the schema setters (trimmed and upper-cased). -/
structure CarsInvariant (db : Db) : Prop where
  idsBelow : ∀ c ∈ db.cars, c._id < db.objectIdCounter
  idsDistinct : db.cars.Pairwise (fun a b => a._id ≠ b._id)
  platesDistinct : db.cars.Pairwise (fun a b => a.licensePlate ≠ b.licensePlate)
  platesNormal : ∀ c ∈ db.cars, setTrimUpper c.licensePlate = c.licensePlate

/-- What every database reached through the API satisfies: the invariant of the cars
collection; every car reference of a maintenance record or expense was drawn from the
counter; and a record whose car is stored has the owner of that car. -/
structure ApiInvariant (db : Db) : Prop where
  cars : CarsInvariant db
  maintenanceRefsBelow : ∀ m ∈ db.maintenance, m.car < db.objectIdCounter
  expenseRefsBelow : ∀ e ∈ db.expenses, e.car < db.objectIdCounter
  maintenanceOwner : ∀ m ∈ db.maintenance, ∀ c ∈ db.cars, c._id = m.car → c.user = m.user
  expenseOwner : ∀ e ∈ db.expenses, ∀ c ∈ db.cars, c._id = e.car → c.user = e.user

/-- A token verification for the examples: the token `"alice"` is the one of user 1, the
token `"bob"` the one of user 2, every other token is invalid. -/
def sampleVerify (token : String) : Option ObjectId :=
  if token = "alice" then some 1 else if token = "bob" then some 2 else none

/-- A run of API requests: user 2 registers a car and logs a maintenance record and an
expense for it; user 1 tries to log a record for the same car and to delete the car. -/
def sampleRequests : List ApiRequest :=
  [ ⟨2, 100, .carsPost
      { make := some "Toyota", model := some "Corolla", year := some 2020,
        color := some "Blue", licensePlate := some "abc123" }⟩,
    ⟨2, 110, .maintenancePost
      { car := some 0, type := some "Oil Change", description := some "oil",
        date := some 105, mileage := some 1000, cost := some 50 }⟩,
    ⟨2, 120, .expensesPost
      { car := some 0, category := some "Fuel", description := some "tank",
        amount := some 40, date := some 115 }⟩,
    ⟨1, 130, .maintenancePost
      { car := some 0, type := some "Other", description := some "wash",
        date := some 125, mileage := some 1100, cost := some 5 }⟩,
    ⟨1, 140, .carsDelete 0⟩ ]

/-! ## The page `Dashboard.jsx` -/

namespace Dashboard

/-- The state `stats` of the page. -/
structure Stats where
  totalCars : Nat
  totalMaintenance : Nat
  totalExpenses : ℚ
  recentMaintenance : List PopulatedMaintenance
  recentExpenses : List PopulatedExpense
deriving DecidableEq, Repr

/-- The constant `totalExpenses` of `fetchDashboardData`, shown by the card 'Total Expenses':
`maintenance.reduce((sum, maintenance) => sum + maintenance.cost, 0)`. -/
def totalExpenses (maintenance : List PopulatedMaintenance) : ℚ :=
  maintenance.foldl (fun sum maintenance => sum + maintenance.cost) 0

/-- The constant `recentMaintenance`:
`maintenance.sort((a, b) => new Date(b.date) - new Date(a.date)).slice(0, 5)`. The sort is
stable and keeps `a` before `b` when the comparator is not positive. -/
def recentMaintenance (maintenance : List PopulatedMaintenance) : List PopulatedMaintenance :=
  (maintenance.insertionSort (fun a b => b.date - a.date ≤ 0)).take 5

/-- The constant `recentExpenses`:
`expenses.sort((a, b) => new Date(b.date) - new Date(a.date)).slice(0, 5)`. -/
def recentExpenses (expenses : List PopulatedExpense) : List PopulatedExpense :=
  (expenses.insertionSort (fun a b => b.date - a.date ≤ 0)).take 5

/-- The function `fetchDashboardData`: the state set from the three fetched lists. -/
def fetchDashboardData (cars : List Car) (maintenance : List PopulatedMaintenance)
    (expenses : List PopulatedExpense) : Stats :=
  { totalCars := cars.length
    totalMaintenance := maintenance.length
    totalExpenses := totalExpenses maintenance
    recentMaintenance := recentMaintenance maintenance
    recentExpenses := recentExpenses expenses }

end Dashboard

/-! ## The filter of the page `Expenses.jsx` -/

namespace Expenses

/-- The constant `filteredExpenses`: every record under the filter 'all', else the records of
the category `filter`. -/
def filteredExpenses (filter : String) (expenses : List PopulatedExpense) :
    List PopulatedExpense :=
  expenses.filter (fun expense => if filter = "all" then true else expense.category = filter)

/-- The constant `expenseCategories` of the page. -/
def expenseCategories : List String :=
  ["Fuel", "Insurance", "Registration", "Repairs", "Parts", "Tires", "Other"]

/-- The constant `filteredTotal`:
`filteredExpenses.reduce((sum, expense) => sum + expense.amount, 0)`, over exact numbers;
`Binary64.filteredTotal` is its value in the arithmetic of JavaScript numbers. -/
def filteredTotal (filter : String) (expenses : List PopulatedExpense) : ℚ :=
  (filteredExpenses filter expenses).foldl (fun sum expense => sum + expense.amount) 0

/-- The constant `count` of a filter button:
`expenses.filter(expense => expense.category === category).length`. -/
def count (category : String) (expenses : List PopulatedExpense) : Nat :=
  (expenses.filter (fun expense => expense.category = category)).length

end Expenses

/-! ## The arithmetic of JavaScript numbers

A JavaScript number is an IEEE 754 binary64 number. A finite one is an integer multiple of
2^-1074 with at most 53 significant binary digits, of magnitude below 2^1024; it is given here
by its rational value. The sum of two numbers is their exact sum rounded to the nearest
binary64 number, to the one with an even last digit when two are nearest. -/

namespace Binary64

/-- The integer nearest to `p / q`, the even one of two nearest. -/
def roundHalfEven (p q : Nat) : Nat :=
  if 2 * (p % q) < q then p / q
  else if 2 * (p % q) = q then (if (p / q) % 2 = 0 then p / q else p / q + 1)
  else p / q + 1

/-- The exponent of the unit in the last place of a number of integer part `y`, in units of
2^-1074: the number of halvings that bring `y` below 2^53, at most `fuel`. -/
def ulpExponent : Nat → Nat → Nat
  | 0, _ => 0
  | fuel + 1, y => if y < 2 ^ 53 then 0 else ulpExponent fuel (y / 2) + 1

/-- The multiple of the unit in the last place nearest to `p / q`, ties to even, in units of
2^-1074. -/
def roundScaled (p q : Nat) : Nat :=
  roundHalfEven p (q * 2 ^ ulpExponent 2046 (p / q)) * 2 ^ ulpExponent 2046 (p / q)

/-- The binary64 number nearest to `x`, ties to even; none when that is an infinity. -/
def round (x : ℚ) : Option ℚ :=
  if roundScaled (x.num.natAbs * 2 ^ 1074) x.den < 2 ^ 2098 then
    some (mkRat
      (if x.num < 0 then -(roundScaled (x.num.natAbs * 2 ^ 1074) x.den : Int)
        else (roundScaled (x.num.natAbs * 2 ^ 1074) x.den : Int))
      (2 ^ 1074))
  else none

/-- The sum `a + b` of two JavaScript numbers; none when it is not finite. -/
def add (a b : ℚ) : Option ℚ := round (a + b)

/-- The value of `list.reduce((sum, x) => sum + x, 0)` on JavaScript numbers; none when a sum
on the way is not finite. -/
def sum (l : List ℚ) : Option ℚ := l.foldlM add 0

/-- No sum on the way of `sum l` is rounded: the sum of each initial segment of `l` is a
finite binary64 number. -/
abbrev Exact (l : List ℚ) : Prop :=
  ∀ k ≤ l.length, round ((l.take k).sum) = some ((l.take k).sum)

/-- The constant `totalExpenses` of `Expenses.jsx` in the arithmetic of JavaScript numbers. -/
def totalExpenses (expenses : List PopulatedExpense) : Option ℚ :=
  sum (expenses.map (fun expense => expense.amount))

/-- The constant `filteredTotal` of `Expenses.jsx` in the arithmetic of JavaScript numbers. -/
def filteredTotal (filter : String) (expenses : List PopulatedExpense) : Option ℚ :=
  sum ((Expenses.filteredExpenses filter expenses).map (fun expense => expense.amount))

end Binary64

/-! ## The forms `AddExpense.jsx` and `EditExpense.jsx` -/

/-- The state `formData` of the expense forms. An empty number input is none. -/
structure ExpenseFormData where
  car : String := ""
  category : String := "Fuel"
  description : String := ""
  amount : Option ℚ := some 0
  date : String := ""
  mileage : Option Int := none
  location : String := ""
  receipt : String := ""
  notes : String := ""
deriving DecidableEq, Repr

/-- The object `newErrors` of the expense forms. -/
structure ExpenseFormErrors where
  car : Option String := none
  description : Option String := none
  amount : Option String := none
  date : Option String := none
  mileage : Option String := none
deriving DecidableEq, Repr

/-- The test `!value` of a number input: true of the empty input and of 0. -/
def falsy {α : Type} [Zero α] [DecidableEq α] (value : Option α) : Bool :=
  match value with
  | none => true
  | some x => x = 0

/-- The assignment `if (condition) newErrors.field = message`. -/
def errorIf (condition : Bool) (message : String) : Option String :=
  if condition then some message else none

namespace AddExpense

/-- The function `validateForm`: the object `newErrors`, and whether it has no key. -/
def validateForm (formData : ExpenseFormData) : ExpenseFormErrors × Bool :=
  let newErrors : ExpenseFormErrors :=
    { car := errorIf (!truthy formData.car) "Please select a car"
      description := errorIf (!truthy (trim formData.description)) "Description is required"
      amount := errorIf
        (falsy formData.amount ||
          (match formData.amount with
            | none => false
            | some amount => amount ≤ 0))
        "Amount must be greater than 0"
      date := errorIf (!truthy formData.date) "Date is required"
      mileage := errorIf
        (!falsy formData.mileage &&
          (match formData.mileage with
            | none => false
            | some mileage => mileage < 0))
        "Mileage cannot be negative" }
  (newErrors, newErrors = {})

end AddExpense

namespace EditExpense

/-- The function `validateForm`: the object `newErrors`, and whether it has no key. -/
def validateForm (formData : ExpenseFormData) : ExpenseFormErrors × Bool :=
  let newErrors : ExpenseFormErrors :=
    { car := errorIf (!truthy formData.car) "Please select a car"
      description := errorIf (!truthy (trim formData.description)) "Description is required"
      amount := errorIf
        (falsy formData.amount ||
          (match formData.amount with
            | none => false
            | some amount => amount ≤ 0))
        "Amount must be greater than 0"
      date := errorIf (!truthy formData.date) "Date is required"
      mileage := errorIf
        (!falsy formData.mileage &&
          (match formData.mileage with
            | none => false
            | some mileage => mileage < 0))
        "Mileage cannot be negative" }
  (newErrors, newErrors = {})

end EditExpense

/-! ## The form `AddCar.jsx` -/

/-- The state `formData` of the car form. -/
structure CarFormData where
  make : String := ""
  model : String := ""
  year : Option Int := none
  color : String := ""
  licensePlate : String := ""
  vin : String := ""
  mileage : Int := 0
  image : String := ""
  notes : String := ""
deriving DecidableEq, Repr

/-- The object `newErrors` of the car form. -/
structure CarFormErrors where
  make : Option String := none
  model : Option String := none
  year : Option String := none
  color : Option String := none
  licensePlate : Option String := none
  mileage : Option String := none
deriving DecidableEq, Repr

namespace AddCar

/-- The function `validateForm`, with `new Date().getFullYear()` as `currentYear`. -/
def validateForm (currentYear : Int) (formData : CarFormData) : CarFormErrors × Bool :=
  let newErrors : CarFormErrors :=
    { make := errorIf (!truthy (trim formData.make)) "Make is required"
      model := errorIf (!truthy (trim formData.model)) "Model is required"
      year := errorIf
        (falsy formData.year ||
          (match formData.year with
            | none => false
            | some year => year < 1900 || year > currentYear + 1))
        "Please enter a valid year"
      color := errorIf (!truthy (trim formData.color)) "Color is required"
      licensePlate :=
        errorIf (!truthy (trim formData.licensePlate)) "License plate is required"
      mileage := errorIf (formData.mileage < 0) "Mileage cannot be negative" }
  (newErrors, newErrors = {})

/-- The constant `years`: `Array.from({ length: 50 }, (_, i) => currentYear - i + 1)`. -/
def years (currentYear : Int) : List Int :=
  (List.range 50).map (fun (i : Nat) => currentYear - (i : Int) + 1)

end AddCar

/-! ## Sample data -/

/-- A car of user 2. -/
def sampleCar : Car :=
  { _id := 0, user := 2, make := "Toyota", model := "Camry", year := 2022, color := "Blue",
    licensePlate := "ABC123", vin := none, mileage := 0, image := "", notes := none,
    createdAt := 100, updatedAt := 100 }

/-- A maintenance record of user 2 on `sampleCar`. -/
def sampleMaintenance : Maintenance :=
  { _id := 1, car := 0, user := 2, type := "Oil Change", description := "oil and filter",
    date := 150, mileage := 1200, cost := 50, location := none, nextServiceDate := none,
    nextServiceMileage := none, receipt := "", notes := none, createdAt := 160,
    updatedAt := 160 }

/-- An expense of user 2 on `sampleCar`. -/
def sampleExpense : Expense :=
  { _id := 2, car := 0, user := 2, category := "Fuel", description := "full tank",
    amount := 40, date := 170, mileage := none, location := none, receipt := "",
    notes := none, createdAt := 180, updatedAt := 180 }

/-- A car of user 1. -/
def otherCar : Car :=
  { _id := 5, user := 1, make := "Honda", model := "Civic", year := 2020, color := "Red",
    licensePlate := "XYZ789", vin := none, mileage := 10, image := "", notes := none,
    createdAt := 200, updatedAt := 200 }

/-- A database with a car of user 2 and a car of user 1. -/
def twoCarsDb : Db := ⟨[sampleCar, otherCar], [], [], 6⟩

/-- The body of the round-trip example of the specification. -/
def sampleCarBody : CarBody :=
  { make := some "Toyota", model := some "Camry", year := some 2022, color := some "Blue",
    licensePlate := some "abc123" }

/-- The sample car with a plate that has a letter outside ASCII. -/
def accentCar : Car := { sampleCar with licensePlate := "CAFÉ1" }

/-- The cars of `twoCarsDb`, the first with the plate `CAFÉ1`. -/
def accentDb : Db := ⟨[accentCar, otherCar], [], [], 6⟩

/-- The body of the round-trip example with the plate `café1`. -/
def accentCarBody : CarBody := { sampleCarBody with licensePlate := some "café1" }

/-- The body of the round-trip example with whitespace around two of the values. -/
def paddedCarBody : CarBody :=
  { make := some " Toyota", model := some "Camry", year := some 2022, color := some "Blue",
    licensePlate := some " abc123 " }

/-- A database with three expenses of user 2 and one of user 1. -/
def expensesDb : Db :=
  ⟨[sampleCar, otherCar], [],
    [sampleExpense,
     { sampleExpense with _id := 10, amount := 10, date := 175 },
     { sampleExpense with _id := 11, category := "Parts", amount := 70, date := 176 },
     { sampleExpense with _id := 12, car := 5, user := 1, amount := 99, date := 177 }], 13⟩

/-- A database holding the three sample records. -/
def sampleDb : Db := ⟨[sampleCar], [sampleMaintenance], [sampleExpense], 3⟩

/-- The maintenance record of the sample database as fetched, with another id and date. -/
def maintenanceAt (id : ObjectId) (date : Date) : PopulatedMaintenance :=
  { populateMaintenance sampleDb sampleMaintenance with _id := id, date := date }

/-- The expense of the sample database as fetched, with another id, date, category and
amount. -/
def expenseAt (id : ObjectId) (date : Date) (category : String) (amount : ℚ) :
    PopulatedExpense :=
  { populateExpense sampleDb sampleExpense with
    _id := id, date := date, category := category, amount := amount }

/-- Seven fetched maintenance records. -/
def fetchedMaintenance : List PopulatedMaintenance :=
  [maintenanceAt 1 3, maintenanceAt 2 9, maintenanceAt 3 1, maintenanceAt 4 7,
   maintenanceAt 5 5, maintenanceAt 6 9, maintenanceAt 7 2]

/-- Three fetched expenses. -/
def fetchedExpenses : List PopulatedExpense :=
  [expenseAt 1 4 "Fuel" 40, expenseAt 2 8 "Tires" (1 / 2), expenseAt 3 6 "Fuel" 10]

/-- The JavaScript number 92.22. -/
def amount9222 : ℚ := 3244702794032087 / 35184372088832

/-- The JavaScript number 85.99. -/
def amount8599 : ℚ := 6051008311837327 / 70368744177664

/-- The JavaScript number 18.59. -/
def amount1859 : ℚ := 5232619817051095 / 281474976710656

/-- Three fetched expenses: Registration 92.22, Fuel 18.59, Registration 85.99. -/
def roundedExpenses : List PopulatedExpense :=
  [expenseAt 1 4 "Registration" amount9222, expenseAt 2 8 "Fuel" amount1859,
   expenseAt 3 6 "Registration" amount8599]

/-- The sample database with the three expenses of `roundedExpenses` for user 2. -/
def roundedDb : Db :=
  ⟨[sampleCar], [],
    [{ sampleExpense with _id := 1, category := "Registration", amount := amount9222 },
     { sampleExpense with _id := 2, category := "Fuel", amount := amount1859 },
     { sampleExpense with _id := 3, category := "Registration", amount := amount8599 }], 4⟩

end CarVault

namespace CarVault

/-! ## Lemmas on the string primitives -/

theorem trimChars_eq (l : List Char) :
    trimChars l = (l.dropWhile isJsWhitespace).rdropWhile isJsWhitespace := rfl

theorem trimChars_idem (l : List Char) : trimChars (trimChars l) = trimChars l := by
  rw [trimChars_eq, trimChars_eq]
  have h : List.dropWhile isJsWhitespace
      ((l.dropWhile isJsWhitespace).rdropWhile isJsWhitespace) =
      (l.dropWhile isJsWhitespace).rdropWhile isJsWhitespace := by
    rw [List.dropWhile_eq_self_iff]
    intro hl
    obtain ⟨t, ht⟩ := List.rdropWhile_prefix isJsWhitespace (l := l.dropWhile isJsWhitespace)
    have hd := (List.dropWhile_eq_self_iff (p := isJsWhitespace)
      (l := l.dropWhile isJsWhitespace)).1 (List.dropWhile_idempotent _ _)
    generalize hr : List.rdropWhile isJsWhitespace (l.dropWhile isJsWhitespace) = r at *
    cases r with
    | nil => simp at hl
    | cons a r =>
      rw [← ht] at hd
      simpa using hd (by simp)
  rw [h, List.rdropWhile_idempotent]

theorem upperTable_spec : ∀ block ∈ upperTable, ∀ e ∈ block.2,
    128 ≤ e.1 ∧ e.2 ≠ [] ∧
      ∀ u ∈ e.2, u.isValidChar ∧ upperCodes u = [u] ∧ isJsWhitespace (Char.ofNat u) = false := by
  decide!

theorem upperCodes_whitespace : ∀ w ∈ [160, 5760, 8192, 8193, 8194, 8195, 8196, 8197, 8198,
    8199, 8200, 8201, 8202, 8232, 8233, 8239, 8287, 12288, 65279], upperCodes w = [w] := by
  decide!

theorem toNat_ofNat_of_valid (n : Nat) (h : n.isValidChar) : (Char.ofNat n).toNat = n := by
  unfold Char.ofNat
  rw [dif_pos h]
  rfl

theorem mem_of_lookup_eq_some {β : Type} (n : Nat) :
    ∀ (l : List (Nat × β)) (v : β), l.lookup n = some v → (n, v) ∈ l
  | [], _, h => by simp [List.lookup] at h
  | (k, w) :: rest, v, h => by
    by_cases hk : n = k
    · subst hk
      simp [List.lookup] at h
      subst h
      exact List.mem_cons_self _ _
    · have hb : (n == k) = false := by simpa using hk
      rw [List.lookup, hb] at h
      exact List.mem_cons_of_mem _ (mem_of_lookup_eq_some n rest v h)

/-- A code point maps to itself, or is an ASCII small letter, or has an entry in the table. -/
theorem upperCodes_cases (n : Nat) :
    upperCodes n = [n] ∨ (97 ≤ n ∧ n ≤ 122 ∧ upperCodes n = [n - 32]) ∨
    ∃ block ∈ upperTable, ∃ e ∈ block.2, e.1 = n ∧ upperCodes n = e.2 := by
  unfold upperCodes
  split
  · split
    · next h => exact Or.inr (Or.inl ⟨h.1, h.2, rfl⟩)
    · exact Or.inl rfl
  · split
    · exact Or.inl rfl
    · next block hfind =>
      split
      · exact Or.inl rfl
      · next codes hlook =>
        exact Or.inr (Or.inr ⟨block, List.mem_of_find?_eq_some hfind, (n, codes),
          mem_of_lookup_eq_some n _ _ hlook, rfl, rfl⟩)

theorem upperCodes_upper (n : Nat) (h1 : 65 ≤ n) (h2 : n ≤ 90) : upperCodes n = [n] := by
  unfold upperCodes
  rw [if_pos (by omega), if_neg (by omega)]

theorem isValidChar_of_le (n : Nat) (h : n ≤ 122) : n.isValidChar :=
  Or.inl (by omega)

theorem upperChars_of_codes (c : Char) (h : upperCodes c.toNat = [c.toNat]) :
    upperChars c = [c] := by
  unfold upperChars
  rw [h, List.map_singleton, Char.ofNat_toNat]

theorem upperChars_ofNat (k : Nat) (hv : k.isValidChar) (hk : upperCodes k = [k]) :
    upperChars (Char.ofNat k) = [Char.ofNat k] := by
  unfold upperChars
  rw [toNat_ofNat_of_valid k hv, hk, List.map_singleton]

/-- Whitespace is not changed by upper-casing. -/
theorem upperChars_whitespace (c : Char) (h : isJsWhitespace c = true) : upperChars c = [c] := by
  apply upperChars_of_codes
  unfold isJsWhitespace at h
  simp only [Bool.or_eq_true, Bool.and_eq_true, decide_eq_true_eq] at h
  by_cases hsmall : c.toNat < 128
  · unfold upperCodes
    rw [if_pos hsmall, if_neg (by omega)]
  · apply upperCodes_whitespace
    have hc : c.toNat = 160 ∨ c.toNat = 5760 ∨ (8192 ≤ c.toNat ∧ c.toNat ≤ 8202) ∨
        c.toNat = 8232 ∨ c.toNat = 8233 ∨ c.toNat = 8239 ∨ c.toNat = 8287 ∨ c.toNat = 12288 ∨
        c.toNat = 65279 := by omega
    generalize c.toNat = n at hc
    rcases hc with h | h | ⟨h1, h2⟩ | h | h | h | h | h | h
    all_goals first
      | (subst h; decide)
      | (interval_cases n <;> decide)

/-- What upper-casing does to one character: the result is not empty, each of its characters
is its own upper case, and it holds whitespace only when the character is whitespace. -/
theorem upperChars_spec (c : Char) :
    upperChars c ≠ [] ∧ (∀ u ∈ upperChars c, upperChars u = [u]) ∧
    (isJsWhitespace c = false → ∀ u ∈ upperChars c, isJsWhitespace u = false) := by
  rcases upperCodes_cases c.toNat with h | ⟨h1, h2, h⟩ | ⟨block, hb, e, he, hn, h⟩
  · have hc := upperChars_of_codes c h
    rw [hc]
    refine ⟨List.cons_ne_nil _ _, ?_, ?_⟩
    · intro u hu
      rw [List.mem_singleton] at hu
      rw [hu, hc]
    · intro hws u hu
      rw [List.mem_singleton] at hu
      rw [hu, hws]
  · have hc : upperChars c = [Char.ofNat (c.toNat - 32)] := by
      unfold upperChars; rw [h, List.map_singleton]
    have hv := isValidChar_of_le (c.toNat - 32) (by omega)
    have ht := toNat_ofNat_of_valid _ hv
    rw [hc]
    refine ⟨List.cons_ne_nil _ _, ?_, ?_⟩
    · intro u hu
      rw [List.mem_singleton] at hu
      rw [hu]
      exact upperChars_ofNat _ hv (upperCodes_upper _ (by omega) (by omega))
    · intro _ u hu
      rw [List.mem_singleton] at hu
      rw [hu]
      unfold isJsWhitespace
      rw [ht]
      simp only [Bool.or_eq_false_iff, Bool.and_eq_false_iff, decide_eq_false_iff_not]
      omega
  · obtain ⟨_, hne, hall⟩ := upperTable_spec block hb e he
    have hc : upperChars c = e.2.map Char.ofNat := by
      unfold upperChars; rw [h]
    rw [hc]
    refine ⟨fun hnil => hne (List.map_eq_nil_iff.1 hnil), ?_, ?_⟩
    · intro u hu
      obtain ⟨k, hk, rfl⟩ := List.mem_map.1 hu
      exact upperChars_ofNat k (hall k hk).1 (hall k hk).2.1
    · intro _ u hu
      obtain ⟨k, hk, rfl⟩ := List.mem_map.1 hu
      exact (hall k hk).2.2

theorem flatMap_eq_self {α : Type} (f : α → List α) :
    ∀ l : List α, (∀ u ∈ l, f u = [u]) → l.flatMap f = l
  | [], _ => rfl
  | a :: l, h => by
    rw [List.flatMap_cons, h a (List.mem_cons_self _ _),
      flatMap_eq_self f l (fun u hu => h u (List.mem_cons_of_mem _ hu))]
    rfl

/-- Dropping leading whitespace commutes with a character map that fixes whitespace and sends
the other characters to non-empty lists without whitespace. -/
theorem dropWhile_flatMap (f : Char → List Char)
    (hws : ∀ c, isJsWhitespace c = true → f c = [c])
    (hne : ∀ c, isJsWhitespace c = false →
      f c ≠ [] ∧ ∀ u ∈ f c, isJsWhitespace u = false) :
    ∀ l : List Char,
      (l.flatMap f).dropWhile isJsWhitespace = (l.dropWhile isJsWhitespace).flatMap f
  | [] => rfl
  | c :: l => by
    cases hc : isJsWhitespace c with
    | true =>
      rw [List.flatMap_cons, hws c hc, List.singleton_append, List.dropWhile_cons_of_pos hc,
        List.dropWhile_cons_of_pos hc, dropWhile_flatMap f hws hne l]
    | false =>
      obtain ⟨hnil, hall⟩ := hne c hc
      rw [List.dropWhile_cons_of_neg (by rw [hc]; exact Bool.false_ne_true), List.flatMap_cons]
      cases hf : f c with
      | nil => exact absurd hf hnil
      | cons u us =>
        have hu : isJsWhitespace u = false := hall u (by rw [hf]; exact List.mem_cons_self _ _)
        rw [List.cons_append, List.dropWhile_cons_of_neg (by rw [hu]; exact Bool.false_ne_true)]

theorem trimChars_flatMap_upper (l : List Char) :
    trimChars (l.flatMap upperChars) = (trimChars l).flatMap upperChars := by
  have h1 := dropWhile_flatMap upperChars upperChars_whitespace
    (fun c hc => ⟨(upperChars_spec c).1, (upperChars_spec c).2.2 hc⟩)
  have h2 := dropWhile_flatMap (List.reverse ∘ upperChars)
    (fun c hc => by
      show (upperChars c).reverse = [c]
      rw [upperChars_whitespace c hc]; rfl)
    (fun c hc => by
      refine ⟨?_, ?_⟩
      · show (upperChars c).reverse ≠ []
        intro h
        exact (upperChars_spec c).1 (List.reverse_eq_nil_iff.1 h)
      · intro u hu
        exact (upperChars_spec c).2.2 hc u (List.mem_reverse.1 hu))
  have hcomp : (List.reverse ∘ (List.reverse ∘ upperChars)) = upperChars := by
    funext c
    exact List.reverse_reverse _
  unfold trimChars
  rw [h1, List.reverse_flatMap, h2, List.reverse_flatMap, hcomp]

theorem toUpperCase_idem (s : String) : toUpperCase (toUpperCase s) = toUpperCase s := by
  unfold toUpperCase
  show String.mk ((s.data.flatMap upperChars).flatMap upperChars) = _
  rw [List.flatMap_assoc]
  congr 1
  apply List.flatMap_congr
  intro c _
  exact flatMap_eq_self upperChars _ (upperChars_spec c).2.1

theorem trim_idem (s : String) : trim (trim s) = trim s := by
  unfold trim
  simp [trimChars_idem]

theorem trim_toUpperCase (s : String) : trim (toUpperCase s) = toUpperCase (trim s) := by
  unfold trim toUpperCase
  show String.mk (trimChars (s.data.flatMap upperChars)) = _
  rw [trimChars_flatMap_upper]

theorem toUpperCase_eq_empty (s : String) : toUpperCase s = "" ↔ s = "" := by
  unfold toUpperCase
  constructor
  · intro h
    have h2 : (String.mk (s.data.flatMap upperChars)).data = "".data := by rw [h]
    have h3 : s.data.flatMap upperChars = [] := h2
    have h4 : s.data = [] := by
      cases hd : s.data with
      | nil => rfl
      | cons c l =>
        rw [hd, List.flatMap_cons] at h3
        exact absurd (List.append_eq_nil.1 h3).1 (upperChars_spec c).1
    exact String.ext h4
  · intro h; subst h; rfl

/-- The schema setter of `licensePlate` leaves a trimmed, upper-cased value as it is. -/
theorem setTrimUpper_normal (p : String) :
    setTrimUpper (toUpperCase (trim p)) = toUpperCase (trim p) := by
  unfold setTrimUpper
  rw [trim_toUpperCase, trim_idem, toUpperCase_idem]

theorem setTrimUpper_idem (p : String) : setTrimUpper (setTrimUpper p) = setTrimUpper p :=
  setTrimUpper_normal p

theorem setTrimUpper_upper (p : String) : toUpperCase (setTrimUpper p) = setTrimUpper p := by
  unfold setTrimUpper
  rw [toUpperCase_idem]

end CarVault

namespace CarVault

/-! ## Lookups scoped to the caller -/

theorem eq_of_key_eq {α : Type} {key : α → ObjectId} {l : List α}
    (h : l.Pairwise (fun a b => key a ≠ key b)) {a b : α} (ha : a ∈ l) (hb : b ∈ l)
    (hk : key a = key b) : a = b := by
  by_contra hne
  exact (h.forall (fun _ _ hxy => Ne.symm hxy) ha hb hne) hk

theorem find?_scoped_eq_none_iff {α : Type} (key owner : α → ObjectId) (l : List α)
    (id caller : ObjectId) :
    l.find? (fun c => decide (key c = id) && decide (owner c = caller)) = none ↔
      ¬ ∃ c ∈ l, key c = id ∧ owner c = caller := by
  simp [List.find?_eq_none]

theorem find?_scoped_foreign {α : Type} (key owner : α → ObjectId) (l : List α) (r : α)
    (caller : ObjectId) (hr : r ∈ l) (hown : owner r ≠ caller)
    (huniq : l.Pairwise (fun a b => key a ≠ key b)) :
    l.find? (fun c => decide (key c = key r) && decide (owner c = caller)) = none := by
  rw [find?_scoped_eq_none_iff]
  rintro ⟨c, hc, hk, ho⟩
  exact hown (eq_of_key_eq huniq hc hr hk ▸ ho)

theorem find?_scoped_absent {α : Type} (key owner : α → ObjectId) (l : List α)
    (id caller : ObjectId) (h : ∀ c ∈ l, key c ≠ id) :
    l.find? (fun c => decide (key c = id) && decide (owner c = caller)) = none := by
  rw [find?_scoped_eq_none_iff]
  rintro ⟨c, hc, hk, _⟩
  exact h c hc hk

/-! ## Not-found answers of the handlers -/

theorem cars_getOne_none (caller id : ObjectId) (db : Db)
    (h : db.cars.find? (fun c => decide (c._id = id) && decide (c.user = caller)) = none) :
    cars.getOne caller id db = (⟨404, .message "Car not found"⟩, db) := by
  unfold cars.getOne; rw [h]

theorem cars_put_none (currentYear : Int) (caller : ObjectId) (now : Date) (id : ObjectId)
    (body : CarBody) (db : Db) (hv : cars.putErrors currentYear body = [])
    (h : db.cars.find? (fun c => decide (c._id = id) && decide (c.user = caller)) = none) :
    cars.put currentYear caller now id body db = (⟨404, .message "Car not found"⟩, db) := by
  unfold cars.put; simp only [hv, ne_eq, not_true_eq_false, if_false]; rw [h]

theorem cars_delete_none (caller id : ObjectId) (db : Db)
    (h : db.cars.find? (fun c => decide (c._id = id) && decide (c.user = caller)) = none) :
    cars.delete caller id db = (⟨404, .message "Car not found"⟩, db) := by
  unfold cars.delete; rw [h]

theorem maintenance_getOne_none (caller id : ObjectId) (db : Db)
    (h : db.maintenance.find? (fun c => decide (c._id = id) && decide (c.user = caller)) = none) :
    maintenance.getOne caller id db = (⟨404, .message "Maintenance record not found"⟩, db) := by
  unfold maintenance.getOne; rw [h]

theorem maintenance_put_none (caller : ObjectId) (now : Date) (id : ObjectId)
    (body : MaintenanceBody) (db : Db) (hv : maintenance.putErrors body = [])
    (h : db.maintenance.find? (fun c => decide (c._id = id) && decide (c.user = caller)) = none) :
    maintenance.put caller now id body db =
      (⟨404, .message "Maintenance record not found"⟩, db) := by
  unfold maintenance.put; simp only [hv, ne_eq, not_true_eq_false, if_false]; rw [h]

theorem maintenance_delete_none (caller id : ObjectId) (db : Db)
    (h : db.maintenance.find? (fun c => decide (c._id = id) && decide (c.user = caller)) = none) :
    maintenance.delete caller id db =
      (⟨404, .message "Maintenance record not found"⟩, db) := by
  unfold maintenance.delete; rw [h]

theorem expenses_getOne_none (caller id : ObjectId) (db : Db)
    (h : db.expenses.find? (fun c => decide (c._id = id) && decide (c.user = caller)) = none) :
    expenses.getOne caller id db = (⟨404, .message "Expense not found"⟩, db) := by
  unfold expenses.getOne; rw [h]

theorem expenses_put_none (caller : ObjectId) (now : Date) (id : ObjectId)
    (body : ExpenseBody) (db : Db) (hv : expenses.putErrors body = [])
    (h : db.expenses.find? (fun c => decide (c._id = id) && decide (c.user = caller)) = none) :
    expenses.put caller now id body db = (⟨404, .message "Expense not found"⟩, db) := by
  unfold expenses.put; simp only [hv, ne_eq, not_true_eq_false, if_false]; rw [h]

theorem expenses_delete_none (caller id : ObjectId) (db : Db)
    (h : db.expenses.find? (fun c => decide (c._id = id) && decide (c.user = caller)) = none) :
    expenses.delete caller id db = (⟨404, .message "Expense not found"⟩, db) := by
  unfold expenses.delete; rw [h]

end CarVault

namespace CarVault

/-! ## C1: records of another user are indistinguishable from absent records -/

/-- C1. For a caller `A` and a Car, Maintenance or Expense record `r` of another user (ids
being unique in the collection), `GET /:id`, `PUT /:id` with a valid body and `DELETE /:id`
on the id of `r` answer 404 with the not-found message and leave the database as it is;
on a database `db0` without a record of that id the response is the same. -/
theorem foreign_record_not_found (currentYear : Int) (A : ObjectId) (now : Date)
    (db db0 : Db) :
    (∀ r ∈ db.cars, r.user ≠ A → db.cars.Pairwise (fun a b => a._id ≠ b._id) →
      (∀ c ∈ db0.cars, c._id ≠ r._id) →
      ∀ body, cars.putErrors currentYear body = [] →
        (cars.getOne A r._id db = (⟨404, .message "Car not found"⟩, db) ∧
          (cars.getOne A r._id db0).1 = (cars.getOne A r._id db).1) ∧
        (cars.put currentYear A now r._id body db = (⟨404, .message "Car not found"⟩, db) ∧
          (cars.put currentYear A now r._id body db0).1 =
            (cars.put currentYear A now r._id body db).1) ∧
        (cars.delete A r._id db = (⟨404, .message "Car not found"⟩, db) ∧
          (cars.delete A r._id db0).1 = (cars.delete A r._id db).1)) ∧
    (∀ r ∈ db.maintenance, r.user ≠ A →
      db.maintenance.Pairwise (fun a b => a._id ≠ b._id) →
      (∀ c ∈ db0.maintenance, c._id ≠ r._id) →
      ∀ body, maintenance.putErrors body = [] →
        (maintenance.getOne A r._id db =
            (⟨404, .message "Maintenance record not found"⟩, db) ∧
          (maintenance.getOne A r._id db0).1 = (maintenance.getOne A r._id db).1) ∧
        (maintenance.put A now r._id body db =
            (⟨404, .message "Maintenance record not found"⟩, db) ∧
          (maintenance.put A now r._id body db0).1 =
            (maintenance.put A now r._id body db).1) ∧
        (maintenance.delete A r._id db =
            (⟨404, .message "Maintenance record not found"⟩, db) ∧
          (maintenance.delete A r._id db0).1 = (maintenance.delete A r._id db).1)) ∧
    (∀ r ∈ db.expenses, r.user ≠ A → db.expenses.Pairwise (fun a b => a._id ≠ b._id) →
      (∀ c ∈ db0.expenses, c._id ≠ r._id) →
      ∀ body, expenses.putErrors body = [] →
        (expenses.getOne A r._id db = (⟨404, .message "Expense not found"⟩, db) ∧
          (expenses.getOne A r._id db0).1 = (expenses.getOne A r._id db).1) ∧
        (expenses.put A now r._id body db = (⟨404, .message "Expense not found"⟩, db) ∧
          (expenses.put A now r._id body db0).1 = (expenses.put A now r._id body db).1) ∧
        (expenses.delete A r._id db = (⟨404, .message "Expense not found"⟩, db) ∧
          (expenses.delete A r._id db0).1 = (expenses.delete A r._id db).1)) := by
  refine ⟨?_, ?_, ?_⟩
  · intro r hr hown huniq habs body hv
    have h1 := find?_scoped_foreign (fun c : Car => c._id) (fun c => c.user) db.cars r A
      hr hown huniq
    have h0 := find?_scoped_absent (fun c : Car => c._id) (fun c => c.user) db0.cars r._id A
      habs
    rw [cars_getOne_none A r._id db h1, cars_getOne_none A r._id db0 h0,
      cars_put_none currentYear A now r._id body db hv h1,
      cars_put_none currentYear A now r._id body db0 hv h0,
      cars_delete_none A r._id db h1, cars_delete_none A r._id db0 h0]
    simp
  · intro r hr hown huniq habs body hv
    have h1 := find?_scoped_foreign (fun c : Maintenance => c._id) (fun c => c.user)
      db.maintenance r A hr hown huniq
    have h0 := find?_scoped_absent (fun c : Maintenance => c._id) (fun c => c.user)
      db0.maintenance r._id A habs
    rw [maintenance_getOne_none A r._id db h1, maintenance_getOne_none A r._id db0 h0,
      maintenance_put_none A now r._id body db hv h1,
      maintenance_put_none A now r._id body db0 hv h0,
      maintenance_delete_none A r._id db h1, maintenance_delete_none A r._id db0 h0]
    simp
  · intro r hr hown huniq habs body hv
    have h1 := find?_scoped_foreign (fun c : Expense => c._id) (fun c => c.user)
      db.expenses r A hr hown huniq
    have h0 := find?_scoped_absent (fun c : Expense => c._id) (fun c => c.user)
      db0.expenses r._id A habs
    rw [expenses_getOne_none A r._id db h1, expenses_getOne_none A r._id db0 h0,
      expenses_put_none A now r._id body db hv h1,
      expenses_put_none A now r._id body db0 hv h0,
      expenses_delete_none A r._id db h1, expenses_delete_none A r._id db0 h0]
    simp

/-- Witness of C1: user 1 addresses the three sample records of user 2; the database without
them is the empty one. -/
theorem foreign_record_not_found_witness :
    (cars.getOne 1 0 sampleDb = (⟨404, .message "Car not found"⟩, sampleDb) ∧
      cars.put 2025 1 200 0 { make := some "Kia" } sampleDb =
        (⟨404, .message "Car not found"⟩, sampleDb) ∧
      (cars.delete 1 0 Db.empty).1 = (cars.delete 1 0 sampleDb).1) ∧
    (maintenance.put 1 200 1 { cost := some 0 } sampleDb =
        (⟨404, .message "Maintenance record not found"⟩, sampleDb) ∧
      (maintenance.getOne 1 1 Db.empty).1 = (maintenance.getOne 1 1 sampleDb).1) ∧
    (expenses.delete 1 2 sampleDb = (⟨404, .message "Expense not found"⟩, sampleDb) ∧
      (expenses.put 1 200 2 { description := some "x" } Db.empty).1 =
        (expenses.put 1 200 2 { description := some "x" } sampleDb).1) := by
  have h := foreign_record_not_found 2025 1 200 sampleDb Db.empty
  have hc := h.1 sampleCar (by simp [sampleDb]) (by decide) (by simp [sampleDb])
    (by simp [Db.empty]) { make := some "Kia" } (by decide)
  have hm := h.2.1 sampleMaintenance (by simp [sampleDb]) (by decide) (by simp [sampleDb])
    (by simp [Db.empty]) { cost := some 0 } (by decide)
  have he := h.2.2 sampleExpense (by simp [sampleDb]) (by decide) (by simp [sampleDb])
    (by simp [Db.empty]) { description := some "x" } (by decide)
  exact ⟨⟨hc.1.1, hc.2.1.1, hc.2.2.2⟩, ⟨hm.2.1.1, hm.1.2⟩, ⟨he.2.2.1, he.2.1.2⟩⟩

end CarVault

namespace CarVault

/-! ## C2: the referenced car must belong to the caller -/

/-- C2. A `POST /maintenance` or `POST /expenses` request that passes field validation and
whose `car` id is not the id of a car owned by the caller is answered 404 'Car not found'
and the database is unchanged, whoever else may own a car with that id. -/
theorem create_for_unowned_car_not_found (caller : ObjectId) (now : Date) (carId : ObjectId)
    (db : Db) (hcar : ¬ ∃ c ∈ db.cars, c._id = carId ∧ c.user = caller) :
    (∀ body : MaintenanceBody, body.car = some carId → maintenance.postErrors body = [] →
      maintenance.post caller now body db = (⟨404, .message "Car not found"⟩, db)) ∧
    (∀ body : ExpenseBody, body.car = some carId → expenses.postErrors body = [] →
      expenses.post caller now body db = (⟨404, .message "Car not found"⟩, db)) := by
  have hfind := (find?_scoped_eq_none_iff (fun c : Car => c._id) (fun c => c.user) db.cars
    carId caller).2 hcar
  constructor
  · intro body hc hv
    unfold maintenance.post
    simp only [hv, ne_eq, not_true_eq_false, if_false, maintenance.sanitize, hc]
    rw [hfind]
  · intro body hc hv
    unfold expenses.post
    simp only [hv, ne_eq, not_true_eq_false, if_false, expenses.sanitize, hc]
    rw [hfind]

/-- Witness of C2: user 1 posts records for car 0, which exists and belongs to user 2. -/
theorem create_for_unowned_car_not_found_witness :
    (∃ c ∈ sampleDb.cars, c._id = 0 ∧ c.user = 2) ∧
    maintenance.post 1 300
        { car := some 0, type := some "Oil Change", description := some "oil",
          date := some 290, mileage := some 5, cost := some 20 } sampleDb =
      (⟨404, .message "Car not found"⟩, sampleDb) ∧
    expenses.post 1 300
        { car := some 0, category := some "Fuel", description := some "tank",
          amount := some 20, date := some 290 } sampleDb =
      (⟨404, .message "Car not found"⟩, sampleDb) := by
  have h := create_for_unowned_car_not_found 1 300 0 sampleDb (by simp [sampleDb, sampleCar])
  exact ⟨⟨sampleCar, by simp [sampleDb], rfl, rfl⟩,
    h.1 _ rfl (by decide), h.2 _ rfl (by decide)⟩

end CarVault

namespace CarVault

/-! ## Validation of the car body -/

theorem check_eq_nil (ok : Bool) (message : String) : check ok message = [] ↔ ok = true := by
  unfold check; cases ok <;> simp

theorem cars_postErrors_eq_nil (currentYear : Int) (b : CarBody) :
    cars.postErrors currentYear b = [] ↔
      notEmptyTrimmed b.make = true ∧ notEmptyTrimmed b.model = true ∧
      isIntBetween 1900 (currentYear + 1) b.year = true ∧ notEmptyTrimmed b.color = true ∧
      notEmptyTrimmed b.licensePlate = true ∧ optional isIntMin0 b.mileage = true := by
  unfold cars.postErrors
  simp only [List.append_eq_nil, check_eq_nil]
  tauto

theorem cars_putErrors_eq_nil (currentYear : Int) (b : CarBody) :
    cars.putErrors currentYear b = [] ↔
      optional notEmptyTrimmed b.make = true ∧ optional notEmptyTrimmed b.model = true ∧
      optional (isIntBetween 1900 (currentYear + 1)) b.year = true ∧
      optional notEmptyTrimmed b.color = true ∧
      optional notEmptyTrimmed b.licensePlate = true ∧ optional isIntMin0 b.mileage = true := by
  unfold cars.putErrors
  simp only [List.append_eq_nil, check_eq_nil]
  tauto

theorem notEmptyTrimmed_some (s : String) : notEmptyTrimmed (some s) = true ↔ trim s ≠ "" := by
  simp [notEmptyTrimmed]

theorem notEmptyTrimmed_true {v : Option String} (h : notEmptyTrimmed v = true) :
    ∃ s, v = some s ∧ trim s ≠ "" := by
  cases v with
  | none => simp [notEmptyTrimmed] at h
  | some s => exact ⟨s, rfl, (notEmptyTrimmed_some s).1 h⟩

/-! ## The plate pre-check of `POST /cars` -/

theorem cars_post_conflict (currentYear : Int) (caller : ObjectId) (now : Date)
    (body : CarBody) (db : Db) (p : String) (hv : cars.postErrors currentYear body = [])
    (hp : body.licensePlate = some p)
    (hdup : ∃ c ∈ db.cars, c.licensePlate = toUpperCase (trim p)) :
    cars.post currentYear caller now body db =
      (⟨400, .message "A car with this license plate already exists"⟩, db) := by
  unfold cars.post
  simp only [hv, ne_eq, not_true_eq_false, if_false, cars.sanitize, hp, Option.map_some']
  cases hf : db.cars.find? (fun c => decide (c.licensePlate = toUpperCase (trim p))) with
  | some c => rfl
  | none =>
    obtain ⟨c, hc, hcp⟩ := hdup
    have := List.find?_eq_none.1 hf c hc
    simp [hcp] at this

/-! ## C3: a plate held by any car is refused on create -/

/-- C3. A valid `POST /cars` request whose licensePlate equals, up to letter case, the plate
of a stored car (a stored plate is a value of the schema setters: trimmed and upper-cased),
whoever owns that car, is answered 400 'A car with this license plate already exists' and
no car is created. -/
theorem create_duplicate_plate_conflict (currentYear : Int) (caller : ObjectId) (now : Date)
    (body : CarBody) (db : Db) (p : String) (c : Car)
    (hv : cars.postErrors currentYear body = []) (hp : body.licensePlate = some p)
    (hc : c ∈ db.cars) (hstored : setTrimUpper c.licensePlate = c.licensePlate)
    (heq : toUpperCase p = toUpperCase c.licensePlate) :
    cars.post currentYear caller now body db =
      (⟨400, .message "A car with this license plate already exists"⟩, db) := by
  refine cars_post_conflict currentYear caller now body db p hv hp ⟨c, hc, ?_⟩
  rw [← trim_toUpperCase, heq, trim_toUpperCase]
  exact hstored.symm

/-- Witness of C3: user 1 posts plate `abc123` while user 2 holds `ABC123`, and plate `café1`
while user 2 holds `CAFÉ1`. -/
theorem create_duplicate_plate_conflict_witness :
    sampleCar.user ≠ 1 ∧
    cars.post 2025 1 300
        { make := some "Honda", model := some "Civic", year := some 2020,
          color := some "Red", licensePlate := some "abc123" } sampleDb =
      (⟨400, .message "A car with this license plate already exists"⟩, sampleDb) ∧
    cars.post 2025 1 300 accentCarBody accentDb =
      (⟨400, .message "A car with this license plate already exists"⟩, accentDb) :=
  ⟨by decide,
    create_duplicate_plate_conflict 2025 1 300 _ sampleDb "abc123" sampleCar (by decide) rfl
      (by simp [sampleDb]) (by decide) (by decide),
    create_duplicate_plate_conflict 2025 1 300 accentCarBody accentDb "café1" accentCar
      (by decide) rfl (by decide) (by decide) (by decide)⟩

end CarVault

namespace CarVault

/-! ## Writes to a collection -/

theorem mem_replaceFirst {α : Type} (p : α → Bool) (doc : α) :
    ∀ (l : List α) (x : α), x ∈ replaceFirst p doc l → x = doc ∨ x ∈ l
  | [], x, h => by simp [replaceFirst] at h
  | y :: ys, x, h => by
    unfold replaceFirst at h
    split at h
    · rcases List.mem_cons.1 h with h | h
      · exact Or.inl h
      · exact Or.inr (List.mem_cons_of_mem _ h)
    · rcases List.mem_cons.1 h with h | h
      · exact Or.inr (h ▸ List.mem_cons_self _ _)
      · rcases mem_replaceFirst p doc ys x h with h | h
        · exact Or.inl h
        · exact Or.inr (List.mem_cons_of_mem _ h)

theorem pairwise_replaceFirst {α : Type} {R : α → α → Prop} (p : α → Bool) (doc : α) :
    ∀ (l : List α), l.Pairwise R → (∀ x ∈ l, p x = false → R x doc ∧ R doc x) →
      l.Pairwise (fun a b => ¬ (p a = true ∧ p b = true)) →
      (replaceFirst p doc l).Pairwise R
  | [], _, _, _ => by simp [replaceFirst]
  | y :: ys, hR, hdoc, hp => by
    rw [List.pairwise_cons] at hR hp
    unfold replaceFirst
    by_cases hy : p y = true
    · rw [if_pos hy, List.pairwise_cons]
      refine ⟨fun z hz => ?_, hR.2⟩
      have hpz : p z = false := by
        cases hz' : p z with
        | false => rfl
        | true => exact absurd ⟨hy, hz'⟩ (hp.1 z hz)
      exact (hdoc z (List.mem_cons_of_mem _ hz) hpz).2
    · rw [if_neg hy, List.pairwise_cons]
      have hy' : p y = false := by simpa using hy
      refine ⟨fun z hz => ?_, pairwise_replaceFirst p doc ys hR.2
        (fun x hx => hdoc x (List.mem_cons_of_mem _ hx)) hp.2⟩
      rcases mem_replaceFirst p doc ys z hz with h | h
      · exact h ▸ (hdoc y (List.mem_cons_self _ _) hy').1
      · exact hR.1 z h

/-! ## The database after a request to the cars router -/

theorem cars_post_db (currentYear : Int) (caller : ObjectId) (now : Date) (body : CarBody)
    (db : Db) :
    (cars.post currentYear caller now body db).2 = db ∨
    ∃ make model year color lp,
      carInsert currentYear db
        (cars.newCar db.objectIdCounter caller now make model year color lp
          (cars.sanitize body)) = some (cars.post currentYear caller now body db).2 := by
  unfold cars.post
  simp only
  split
  · exact Or.inl rfl
  · split
    · exact Or.inl rfl
    · split
      · exact Or.inl rfl
      · split
        · split
          · next db' h => exact Or.inr ⟨_, _, _, _, _, h⟩
          · exact Or.inl rfl
        · exact Or.inl rfl

theorem cars_put_db (currentYear : Int) (caller : ObjectId) (now : Date) (id : ObjectId)
    (body : CarBody) (db : Db) :
    (cars.put currentYear caller now id body db).2 = db ∨
    ∃ old saved, old ∈ db.cars ∧ old._id = id ∧
      carUpdate currentYear now db old (cars.assign old (cars.sanitize body)) =
        some (saved, (cars.put currentYear caller now id body db).2) := by
  unfold cars.put
  simp only
  split
  · exact Or.inl rfl
  · split
    · exact Or.inl rfl
    · next old hfind =>
      split
      · exact Or.inl rfl
      · split
        · next saved db' h =>
          refine Or.inr ⟨old, saved, List.mem_of_find?_eq_some hfind, ?_, h⟩
          have := List.find?_some hfind
          simp at this
          exact this.1
        · exact Or.inl rfl

theorem cars_delete_db (caller id : ObjectId) (db : Db) :
    (cars.delete caller id db).2 = db ∨
    (cars.delete caller id db).2 =
      { db with cars := db.cars.eraseP (fun c => decide (c._id = id)) } := by
  unfold cars.delete
  split
  · exact Or.inl rfl
  · exact Or.inr rfl

end CarVault

namespace CarVault

/-! ## Preservation of the invariant -/

theorem carDuplicateKey_false {cars : List Car} {c : Car} (h : carDuplicateKey cars c = false) :
    ∀ d ∈ cars, d._id ≠ c._id → d.licensePlate ≠ c.licensePlate := by
  intro d hd hid hpl
  have : carDuplicateKey cars c = true := by
    unfold carDuplicateKey
    rw [List.any_eq_true]
    exact ⟨d, hd, by simp [hid, hpl]⟩
  rw [h] at this
  exact Bool.noConfusion this

theorem CarsInvariant.empty : CarsInvariant Db.empty :=
  ⟨by simp [Db.empty], by simp [Db.empty], by simp [Db.empty], by simp [Db.empty]⟩

theorem carInsert_invariant (currentYear : Int) (db db' : Db) (car : Car)
    (hinv : CarsInvariant db) (hid : car._id = db.objectIdCounter)
    (hnorm : setTrimUpper car.licensePlate = car.licensePlate)
    (h : carInsert currentYear db car = some db') : CarsInvariant db' := by
  unfold carInsert at h
  split at h
  · next hok =>
    simp only [Bool.and_eq_true, Bool.not_eq_true'] at hok
    have hdup := carDuplicateKey_false hok.2
    have hne : ∀ d ∈ db.cars, d._id ≠ car._id := fun d hd => by
      rw [hid]
      exact Nat.ne_of_lt (hinv.idsBelow d hd)
    injection h with h
    subst h
    refine ⟨?_, ?_, ?_, ?_⟩
    · intro c hc
      simp only [List.mem_append, List.mem_singleton] at hc
      rcases hc with hc | hc
      · exact Nat.lt_succ_of_lt (hinv.idsBelow c hc)
      · subst hc
        show c._id < db.objectIdCounter + 1
        rw [hid]
        exact Nat.lt_succ_self _
    · show (db.cars ++ [car]).Pairwise _
      rw [List.pairwise_append]
      refine ⟨hinv.idsDistinct, List.pairwise_singleton _ _, ?_⟩
      intro a ha b hb
      rw [List.mem_singleton] at hb
      subst hb
      exact hne a ha
    · show (db.cars ++ [car]).Pairwise _
      rw [List.pairwise_append]
      refine ⟨hinv.platesDistinct, List.pairwise_singleton _ _, ?_⟩
      intro a ha b hb
      rw [List.mem_singleton] at hb
      subst hb
      exact hdup a ha (hne a ha)
    · intro c hc
      simp only [List.mem_append, List.mem_singleton] at hc
      rcases hc with hc | hc
      · exact hinv.platesNormal c hc
      · subst hc; exact hnorm
  · exact Option.noConfusion h

theorem carUpdate_invariant (currentYear : Int) (now : Date) (db db' : Db)
    (old new saved : Car) (hinv : CarsInvariant db) (hold : old ∈ db.cars)
    (hid : new._id = old._id)
    (hnorm : setTrimUpper new.licensePlate = new.licensePlate)
    (h : carUpdate currentYear now db old new = some (saved, db')) : CarsInvariant db' := by
  unfold carUpdate at h
  split at h
  · injection h with h
    injection h with _ h
    subst h
    exact hinv
  · split at h
    · next hok =>
      simp only [Bool.and_eq_true, Bool.not_eq_true', Bool.and_eq_false_iff,
        decide_eq_false_iff_not, ne_eq, not_not, decide_eq_true_eq] at hok
      injection h with h
      injection h with hs h
      subst h
      have hpair : db.cars.Pairwise
          (fun a b => ¬ ((decide (a._id = old._id)) = true ∧ (decide (b._id = old._id)) = true)) :=
        hinv.idsDistinct.imp (fun {a b} hab hboth => by
          simp only [decide_eq_true_eq] at hboth
          exact hab (hboth.1.trans hboth.2.symm))
      have hplate : ∀ x ∈ db.cars, x._id ≠ old._id → x.licensePlate ≠ new.licensePlate := by
        intro x hx hxid
        rcases hok.2 with hsame | hdup
        · rw [hsame]
          intro hp
          have hxo : x = old := by
            by_contra hne
            exact (hinv.platesDistinct.forall (fun _ _ hxy => Ne.symm hxy) hx hold hne) hp
          exact hxid (hxo ▸ rfl)
        · exact carDuplicateKey_false hdup x hx (by rw [hid]; exact hxid)
      refine ⟨?_, ?_, ?_, ?_⟩
      · intro c hc
        rcases mem_replaceFirst _ _ _ c hc with hc | hc
        · subst hc
          show new._id < db.objectIdCounter
          rw [hid]
          exact hinv.idsBelow old hold
        · exact hinv.idsBelow c hc
      · refine pairwise_replaceFirst _ _ db.cars hinv.idsDistinct ?_ hpair
        intro x hx hpx
        simp only [decide_eq_false_iff_not] at hpx
        have : x._id ≠ new._id := by rw [hid]; exact hpx
        exact ⟨this, Ne.symm this⟩
      · refine pairwise_replaceFirst _ _ db.cars hinv.platesDistinct ?_ hpair
        intro x hx hpx
        simp only [decide_eq_false_iff_not] at hpx
        have := hplate x hx hpx
        exact ⟨this, Ne.symm this⟩
      · intro c hc
        rcases mem_replaceFirst _ _ _ c hc with hc | hc
        · subst hc; exact hnorm
        · exact hinv.platesNormal c hc
    · exact Option.noConfusion h

end CarVault

namespace CarVault

theorem assign_plate_normal (old : Car) (body : CarBody)
    (h : setTrimUpper old.licensePlate = old.licensePlate) :
    setTrimUpper (cars.assign old body).licensePlate = (cars.assign old body).licensePlate := by
  show setTrimUpper (assignIfTruthy body.licensePlate _ old.licensePlate) =
    assignIfTruthy body.licensePlate _ old.licensePlate
  unfold assignIfTruthy
  split
  · split
    · exact setTrimUpper_idem _
    · exact h
  · exact h

theorem cars_post_invariant (currentYear : Int) (caller : ObjectId) (now : Date)
    (body : CarBody) (db : Db) (hinv : CarsInvariant db) :
    CarsInvariant (cars.post currentYear caller now body db).2 := by
  rcases cars_post_db currentYear caller now body db with h | ⟨make, model, year, color, lp, h⟩
  · rw [h]; exact hinv
  · have hid : (cars.newCar db.objectIdCounter caller now make model year color lp
        (cars.sanitize body))._id = db.objectIdCounter := rfl
    have hn : setTrimUpper (cars.newCar db.objectIdCounter caller now make model year color lp
        (cars.sanitize body)).licensePlate = (cars.newCar db.objectIdCounter caller now make
        model year color lp (cars.sanitize body)).licensePlate :=
      setTrimUpper_idem (toUpperCase lp)
    exact carInsert_invariant currentYear db _ _ hinv hid hn h

theorem cars_put_invariant (currentYear : Int) (caller : ObjectId) (now : Date)
    (id : ObjectId) (body : CarBody) (db : Db) (hinv : CarsInvariant db) :
    CarsInvariant (cars.put currentYear caller now id body db).2 := by
  rcases cars_put_db currentYear caller now id body db with h | ⟨old, saved, hold, _, h⟩
  · rw [h]; exact hinv
  · exact carUpdate_invariant currentYear now db _ old
      (cars.assign old (cars.sanitize body)) saved hinv hold rfl
      (assign_plate_normal old _ (hinv.platesNormal old hold)) h

theorem cars_delete_invariant (caller id : ObjectId) (db : Db) (hinv : CarsInvariant db) :
    CarsInvariant (cars.delete caller id db).2 := by
  rcases cars_delete_db caller id db with h | h
  · rw [h]; exact hinv
  · rw [h]
    have hsub : (db.cars.eraseP (fun c => decide (c._id = id))).Sublist db.cars :=
      List.eraseP_sublist _
    exact ⟨fun c hc => hinv.idsBelow c (hsub.subset hc), hinv.idsDistinct.sublist hsub,
      hinv.platesDistinct.sublist hsub, fun c hc => hinv.platesNormal c (hsub.subset hc)⟩

theorem step_invariant (currentYear : Int) (db : Db) (r : CarRequest)
    (hinv : CarsInvariant db) : CarsInvariant (CarRequest.step currentYear db r) := by
  cases r with
  | create caller now body => exact cars_post_invariant currentYear caller now body db hinv
  | update caller now id body => exact cars_put_invariant currentYear caller now id body db hinv
  | delete caller id => exact cars_delete_invariant caller id db hinv

theorem runCars_invariant (currentYear : Int) (requests : List CarRequest) :
    ∀ db, CarsInvariant db → CarsInvariant (runCars currentYear requests db) := by
  induction requests with
  | nil => intro db h; exact h
  | cons r rs ih =>
    intro db h
    exact ih _ (step_invariant currentYear db r h)

/-! ## C4: stored plates are upper-cased and unique -/

/-- C4. In the database reached from the empty one by any sequence of car create, update
and delete requests handled one after the other, every stored licensePlate equals its own
upper-casing and no two cars of the collection hold the same licensePlate. -/
theorem plates_upper_and_unique (currentYear : Int) (requests : List CarRequest) :
    (∀ c ∈ (runCars currentYear requests Db.empty).cars,
      toUpperCase c.licensePlate = c.licensePlate) ∧
    (runCars currentYear requests Db.empty).cars.Pairwise
      (fun a b => a.licensePlate ≠ b.licensePlate) := by
  have hinv := runCars_invariant currentYear requests Db.empty CarsInvariant.empty
  refine ⟨fun c hc => ?_, hinv.platesDistinct⟩
  rw [← hinv.platesNormal c hc]
  exact setTrimUpper_upper _

end CarVault

namespace CarVault

/-! ## Successful saves of a car -/

theorem trim_ne_empty_of_trim (s : String) (h : trim s ≠ "") : trim (trim s) ≠ "" := by
  rw [trim_idem]; exact h

theorem plate_ne_empty (p : String) (h : trim p ≠ "") :
    setTrimUpper (toUpperCase (trim p)) ≠ "" := by
  rw [setTrimUpper_normal]
  exact fun he => h ((toUpperCase_eq_empty _).1 he)

theorem carDuplicateKey_eq_false {cars : List Car} {c : Car}
    (h : ∀ d ∈ cars, d._id ≠ c._id → d.licensePlate ≠ c.licensePlate) :
    carDuplicateKey cars c = false := by
  unfold carDuplicateKey
  rw [List.any_eq_false]
  intro d hd
  simp only [Bool.and_eq_true, decide_eq_true_eq, not_and, ne_eq, decide_not,
    Bool.not_eq_true', decide_eq_false_iff_not]
  exact fun hid => h d hd hid

theorem isIntBetween_true {min max : Int} {v : Option Int} (h : isIntBetween min max v = true) :
    ∃ n, v = some n ∧ min ≤ n ∧ n ≤ max := by
  cases v with
  | none => simp [isIntBetween] at h
  | some n => exact ⟨n, rfl, by simpa [isIntBetween] using h⟩

theorem orZero_nonneg {v : Option Int} (h : optional isIntMin0 v = true) : 0 ≤ orZero v := by
  cases v with
  | none => simp [orZero]
  | some n => simpa [optional, isIntMin0, orZero] using h

/-- A valid `POST /cars` whose plate no stored car holds creates the car. -/
theorem cars_post_ok (currentYear : Int) (caller : ObjectId) (now : Date) (body : CarBody)
    (db : Db) (mk md col p : String) (y : Int)
    (hmk : body.make = some mk) (hmd : body.model = some md) (hy : body.year = some y)
    (hcol : body.color = some col) (hp : body.licensePlate = some p)
    (hv : cars.postErrors currentYear body = [])
    (hfree : ∀ d ∈ db.cars, d.licensePlate ≠ toUpperCase (trim p)) :
    cars.post currentYear caller now body db =
      (⟨201, .car (cars.newCar db.objectIdCounter caller now (trim mk) (trim md) y (trim col)
          (trim p) (cars.sanitize body))⟩,
        { db with
          cars := db.cars ++ [cars.newCar db.objectIdCounter caller now (trim mk) (trim md) y
            (trim col) (trim p) (cars.sanitize body)]
          objectIdCounter := db.objectIdCounter + 1 }) := by
  have hv' := (cars_postErrors_eq_nil currentYear body).1 hv
  rw [hmk, hmd, hy, hcol, hp] at hv'
  obtain ⟨h1, h2, h3, h4, h5, h6⟩ := hv'
  rw [notEmptyTrimmed_some] at h1 h2 h4 h5
  have h3' : 1900 ≤ y ∧ y ≤ currentYear + 1 := by simpa [isIntBetween] using h3
  have hfind : db.cars.find? (fun c => decide (c.licensePlate = toUpperCase (trim p))) = none := by
    rw [List.find?_eq_none]
    intro d hd
    simpa using hfree d hd
  have hins : carInsert currentYear db
      (cars.newCar db.objectIdCounter caller now (trim mk) (trim md) y (trim col) (trim p)
        (cars.sanitize body)) =
      some { db with
        cars := db.cars ++ [cars.newCar db.objectIdCounter caller now (trim mk) (trim md) y
          (trim col) (trim p) (cars.sanitize body)]
        objectIdCounter := db.objectIdCounter + 1 } := by
    unfold carInsert
    rw [if_pos]
    rw [Bool.and_eq_true, Bool.not_eq_true']
    constructor
    · unfold carValidate
      simp only [cars.newCar, Bool.and_eq_true, decide_eq_true_eq, cars.sanitize]
      exact ⟨⟨⟨⟨⟨trim_ne_empty_of_trim _ h1, trim_ne_empty_of_trim _ h2⟩, h3'⟩,
        trim_ne_empty_of_trim _ h4⟩, plate_ne_empty p h5⟩, orZero_nonneg h6⟩
    · apply carDuplicateKey_eq_false
      intro d hd _
      show d.licensePlate ≠ setTrimUpper (toUpperCase (trim p))
      rw [setTrimUpper_normal]
      exact hfree d hd
  unfold cars.post
  simp only [hv, ne_eq, not_true_eq_false, if_false, cars.sanitize, hmk, hmd, hy, hcol, hp,
    Option.map_some', hfind]
  simp only [cars.sanitize, hmk, hmd, hy, hcol, hp, Option.map_some'] at hins
  rw [hins]

end CarVault

namespace CarVault

theorem find?_scoped_of_mem {α : Type} (key owner : α → ObjectId) (l : List α) (r : α)
    (hr : r ∈ l) (huniq : l.Pairwise (fun a b => key a ≠ key b)) :
    l.find? (fun c => decide (key c = key r) && decide (owner c = owner r)) = some r := by
  cases hf : l.find? (fun c => decide (key c = key r) && decide (owner c = owner r)) with
  | none =>
    have := List.find?_eq_none.1 hf r hr
    simp at this
  | some x =>
    have hx := List.find?_some hf
    simp only [Bool.and_eq_true, decide_eq_true_eq] at hx
    rw [eq_of_key_eq huniq (List.mem_of_find?_eq_some hf) hr hx.1]

theorem find?_replaceFirst {α : Type} (p q : α → Bool) (doc : α) (hdoc : p doc = true)
    (hpq : ∀ x, p x = true → q x = true) :
    ∀ l : List α, (∃ x ∈ l, q x = true) → (replaceFirst q doc l).find? p = some doc
  | [], h => by simp at h
  | y :: ys, h => by
    unfold replaceFirst
    by_cases hy : q y = true
    · rw [if_pos hy, List.find?_cons_of_pos _ hdoc]
    · have hpy : ¬ p y = true := fun hp => hy (hpq y hp)
      rw [if_neg hy, List.find?_cons_of_neg _ hpy]
      apply find?_replaceFirst p q doc hdoc hpq ys
      obtain ⟨x, hx, hqx⟩ := h
      rcases List.mem_cons.1 hx with hx | hx
      · exact absurd (hx ▸ hqx) hy
      · exact ⟨x, hx, hqx⟩

theorem optional_notEmptyTrimmed {v : Option String}
    (h : optional notEmptyTrimmed v = true) : ∀ s, v = some s → trim s ≠ "" := by
  intro s hs
  subst hs
  simpa [optional, notEmptyTrimmed] using h

theorem assignIfTruthy_trim_valid (v : Option String) (old : String)
    (h : optional notEmptyTrimmed v = true) :
    assignIfTruthy (v.map trim) trim old = old ∨ assignIfTruthy (v.map trim) trim old ≠ "" := by
  cases v with
  | none => exact Or.inl rfl
  | some s =>
    have hs := optional_notEmptyTrimmed h s rfl
    right
    simp only [assignIfTruthy, Option.map_some', truthy, ne_eq, decide_not, Bool.not_eq_true',
      decide_eq_false_iff_not, hs, not_false_eq_true, if_true]
    exact trim_ne_empty_of_trim s hs

theorem assign_validateModified (currentYear : Int) (old : Car) (body : CarBody)
    (hv : cars.putErrors currentYear body = []) :
    carValidateModified currentYear old (cars.assign old (cars.sanitize body)) = true := by
  obtain ⟨h1, h2, h3, h4, h5, h6⟩ := (cars_putErrors_eq_nil currentYear body).1 hv
  unfold carValidateModified
  simp only [Bool.and_eq_true, Bool.or_eq_true, decide_eq_true_eq]
  refine ⟨⟨⟨⟨⟨?_, ?_⟩, ?_⟩, ?_⟩, ?_⟩, ?_⟩
  · exact assignIfTruthy_trim_valid body.make old.make h1
  · exact assignIfTruthy_trim_valid body.model old.model h2
  · have e : (cars.assign old (cars.sanitize body)).year =
        (match body.year with
        | some y => if y ≠ 0 then y else old.year
        | none => old.year) := rfl
    rw [e]
    cases hy : body.year with
    | none => exact Or.inl rfl
    | some y =>
      rw [hy] at h3
      have : 1900 ≤ y ∧ y ≤ currentYear + 1 := by simpa [optional, isIntBetween] using h3
      right
      have hy0 : y ≠ 0 := by omega
      simp only [hy0, ne_eq, not_false_eq_true, if_true]
      exact this
  · exact assignIfTruthy_trim_valid body.color old.color h4
  · have e : (cars.assign old (cars.sanitize body)).licensePlate =
        assignIfTruthy (body.licensePlate.map trim)
          (fun lp => setTrimUpper (toUpperCase lp)) old.licensePlate := rfl
    rw [e]
    cases hp : body.licensePlate with
    | none => exact Or.inl rfl
    | some p =>
      rw [hp] at h5
      have hs := optional_notEmptyTrimmed h5 p rfl
      right
      simp only [assignIfTruthy, Option.map_some', truthy, ne_eq, decide_not,
        Bool.not_eq_true', decide_eq_false_iff_not, hs, not_false_eq_true, if_true]
      exact plate_ne_empty p hs
  · have e : (cars.assign old (cars.sanitize body)).mileage =
        assignIfDefined body.mileage old.mileage := rfl
    rw [e]
    cases hm : body.mileage with
    | none => exact Or.inl rfl
    | some n =>
      rw [hm] at h6
      right
      simpa [optional, isIntMin0, assignIfDefined] using h6

theorem assign_plate (old : Car) (body : CarBody) (p : String)
    (hp : body.licensePlate = some p) (hne : trim p ≠ "") :
    (cars.assign old (cars.sanitize body)).licensePlate = toUpperCase (trim p) := by
  show assignIfTruthy (body.licensePlate.map trim) _ old.licensePlate = _
  rw [hp]
  simp only [assignIfTruthy, Option.map_some', truthy, ne_eq, decide_not,
    Bool.not_eq_true', decide_eq_false_iff_not, hne, not_false_eq_true, if_true]
  exact setTrimUpper_normal p

theorem assign_plate_none (old : Car) (body : CarBody) (hp : body.licensePlate = none) :
    (cars.assign old (cars.sanitize body)).licensePlate = old.licensePlate := by
  show assignIfTruthy (body.licensePlate.map trim) _ old.licensePlate = _
  rw [hp]; rfl

end CarVault

namespace CarVault

theorem plateTaken_false (id : ObjectId) (old : Car) (body : CarBody) (db : Db)
    (hplate : ∀ p, body.licensePlate = some p →
      (toUpperCase (trim p) = old.licensePlate ∨
        ∀ d ∈ db.cars, d._id ≠ id → d.licensePlate ≠ toUpperCase (trim p))) :
    cars.plateTaken id old (cars.sanitize body).licensePlate db = false := by
  show cars.plateTaken id old (body.licensePlate.map trim) db = false
  cases hp : body.licensePlate with
  | none => rfl
  | some p =>
    simp only [Option.map_some', cars.plateTaken]
    rcases hplate p hp with h | h
    · simp [h]
    · have : db.cars.find?
          (fun c => decide (c.licensePlate = toUpperCase (trim p)) && decide (c._id ≠ id)) =
          none := by
        rw [List.find?_eq_none]
        intro d hd
        simp only [Bool.and_eq_true, decide_eq_true_eq, not_and]
        intro hpl hid
        exact h d hd hid hpl
      rw [this]
      simp

theorem carUpdate_ok (currentYear : Int) (now : Date) (db : Db) (old new : Car)
    (hvalid : carValidateModified currentYear old new = true)
    (hdup : new.licensePlate ≠ old.licensePlate → carDuplicateKey db.cars new = false) :
    (new = old ∧ carUpdate currentYear now db old new = some (old, db)) ∨
    (new ≠ old ∧ carUpdate currentYear now db old new =
      some ({ new with updatedAt := now },
        { db with cars := (replaceFirst (fun c => decide (c._id = old._id))
            { new with updatedAt := now } db.cars) })) := by
  unfold carUpdate
  by_cases h : new = old
  · left
    exact ⟨h, by rw [if_pos h]⟩
  · right
    refine ⟨h, ?_⟩
    rw [if_neg h, if_pos]
    rw [Bool.and_eq_true, Bool.not_eq_true', Bool.and_eq_false_iff]
    refine ⟨hvalid, ?_⟩
    by_cases hpl : new.licensePlate = old.licensePlate
    · left; simp [hpl]
    · right; exact hdup hpl

/-- A valid `PUT /cars/:id` on a car found for the caller, with a plate that is the stored
one or held by no other car, answers 200; the answer carries the assigned fields and a
following `GET /cars/:id` returns the same document. -/
theorem cars_put_ok (currentYear : Int) (caller : ObjectId) (now : Date) (id : ObjectId)
    (body : CarBody) (db : Db) (old : Car) (hv : cars.putErrors currentYear body = [])
    (hfind : db.cars.find? (fun c => decide (c._id = id) && decide (c.user = caller)) =
      some old)
    (hplate : ∀ p, body.licensePlate = some p →
      (toUpperCase (trim p) = old.licensePlate ∨
        ∀ d ∈ db.cars, d._id ≠ id → d.licensePlate ≠ toUpperCase (trim p))) :
    ∃ saved db', cars.put currentYear caller now id body db = (⟨200, .car saved⟩, db') ∧
      (∃ t, saved = { cars.assign old (cars.sanitize body) with updatedAt := t }) ∧
      cars.getOne caller id db' = (⟨200, .car saved⟩, db') := by
  have hold := List.mem_of_find?_eq_some hfind
  have hpo := List.find?_some hfind
  simp only [Bool.and_eq_true, decide_eq_true_eq] at hpo
  obtain ⟨hid, hown⟩ := hpo
  have htaken := plateTaken_false id old body db hplate
  have hput : cars.put currentYear caller now id body db =
      match carUpdate currentYear now db old (cars.assign old (cars.sanitize body)) with
      | some (saved, db') => (⟨200, .car saved⟩, db')
      | none => (serverError, db) := by
    unfold cars.put
    simp only [hv, ne_eq, not_true_eq_false, if_false, hfind, htaken, Bool.false_eq_true]
  have hdup : (cars.assign old (cars.sanitize body)).licensePlate ≠ old.licensePlate →
      carDuplicateKey db.cars (cars.assign old (cars.sanitize body)) = false := by
    intro hne
    cases hp : body.licensePlate with
    | none => exact absurd (assign_plate_none old body hp) hne
    | some p =>
      have hv' := (cars_putErrors_eq_nil currentYear body).1 hv
      have hs := optional_notEmptyTrimmed hv'.2.2.2.2.1 p hp
      have hpl := assign_plate old body p hp hs
      apply carDuplicateKey_eq_false
      intro d hd hdid
      rw [hpl]
      rcases hplate p hp with h | h
      · exact absurd (hpl.trans h) hne
      · exact h d hd (by rw [← hid]; exact hdid)
  rcases carUpdate_ok currentYear now db old _ (assign_validateModified currentYear old body hv)
    hdup with ⟨heq, hu⟩ | ⟨_, hu⟩
  · refine ⟨old, db, ?_, ⟨old.updatedAt, ?_⟩, ?_⟩
    · rw [hput, hu]
    · rw [heq]
    · unfold cars.getOne; rw [hfind]
  · refine ⟨{ cars.assign old (cars.sanitize body) with updatedAt := now },
      { db with cars := (replaceFirst (fun c => decide (c._id = old._id))
          { cars.assign old (cars.sanitize body) with updatedAt := now } db.cars) },
      ?_, ⟨now, rfl⟩, ?_⟩
    · rw [hput, hu]
    · unfold cars.getOne
      have := find?_replaceFirst (fun c : Car => decide (c._id = id) && decide (c.user = caller))
        (fun c : Car => decide (c._id = old._id))
        { cars.assign old (cars.sanitize body) with updatedAt := now }
        (by
          simp only [Bool.and_eq_true, decide_eq_true_eq]
          exact ⟨hid, hown⟩)
        (by
          intro x hx
          simp only [Bool.and_eq_true, decide_eq_true_eq] at hx ⊢
          rw [hid]; exact hx.1)
        db.cars ⟨old, hold, by simp⟩
      simp only [this]

end CarVault

namespace CarVault

/-! ## C5: the plate check of `PUT /cars/:id` -/

/-- C5, as stated, fails on a plate sent with surrounding whitespace: user 1 updates their
car with the plate `" abc123"`. Upper-cased, `" ABC123"` is the plate of no stored car, yet
the update is refused with the duplicate-plate answer; and an update with `" new1 "`
stores `"NEW1"`, which is not the upper-cased value `" NEW1 "`. -/
theorem update_plate_padded_counterexample :
    (∀ d ∈ twoCarsDb.cars, d.licensePlate ≠ toUpperCase " abc123") ∧
    cars.put 2025 1 300 5 { licensePlate := some " abc123" } twoCarsDb =
      (⟨400, .message "A car with this license plate already exists"⟩, twoCarsDb) ∧
    (∀ d ∈ twoCarsDb.cars, d.licensePlate ≠ toUpperCase " new1 ") ∧
    (cars.put 2025 1 300 5 { licensePlate := some " new1 " } twoCarsDb).1 =
      ⟨200, .car { otherCar with licensePlate := "NEW1", updatedAt := 300 }⟩ ∧
    toUpperCase " new1 " ≠ "NEW1" := by
  refine ⟨by decide, by decide, by decide, by decide, by decide⟩

/-- C5, amended. For a `PUT /cars/:id` with a valid body on a car owned by the caller, in a
database in which no two cars share an id or a plate, let `P` be the supplied licensePlate trimmed
and upper-cased. If a different car holds `P`, the answer is 400 'A car with this license
plate already exists' and the database is unchanged. If `P` is the plate of the car itself
or no other car holds `P`, the answer is 200 with a car whose plate is `P`, and a following
`GET /cars/:id` returns that car. -/
theorem update_plate_check (currentYear : Int) (caller : ObjectId) (now : Date)
    (id : ObjectId) (body : CarBody) (db : Db) (old : Car) (p : String)
    (hids : db.cars.Pairwise (fun a b => a._id ≠ b._id))
    (hplates : db.cars.Pairwise (fun a b => a.licensePlate ≠ b.licensePlate))
    (hold : old ∈ db.cars) (hid : old._id = id)
    (hown : old.user = caller) (hv : cars.putErrors currentYear body = [])
    (hp : body.licensePlate = some p) :
    ((∃ d ∈ db.cars, d._id ≠ id ∧ d.licensePlate = toUpperCase (trim p)) →
      cars.put currentYear caller now id body db =
        (⟨400, .message "A car with this license plate already exists"⟩, db)) ∧
    ((toUpperCase (trim p) = old.licensePlate ∨
        ∀ d ∈ db.cars, d._id ≠ id → d.licensePlate ≠ toUpperCase (trim p)) →
      ∃ saved db', cars.put currentYear caller now id body db = (⟨200, .car saved⟩, db') ∧
        saved.licensePlate = toUpperCase (trim p) ∧
        cars.getOne caller id db' = (⟨200, .car saved⟩, db')) := by
  have hfind : db.cars.find? (fun c => decide (c._id = id) && decide (c.user = caller)) =
      some old := by
    have := find?_scoped_of_mem (fun c : Car => c._id) (fun c => c.user) db.cars old hold
      hids
    simp only [hid, hown] at this
    exact this
  have hs : trim p ≠ "" :=
    optional_notEmptyTrimmed ((cars_putErrors_eq_nil currentYear body).1 hv).2.2.2.2.1 p hp
  constructor
  · rintro ⟨d, hd, hdid, hdp⟩
    have hne : toUpperCase (trim p) ≠ old.licensePlate := by
      rw [← hdp]
      have hdo : d ≠ old := fun h => hdid (h ▸ hid)
      exact hplates.forall (fun _ _ hxy => Ne.symm hxy) hd hold hdo
    have hsome : (db.cars.find?
        (fun c => decide (c.licensePlate = toUpperCase (trim p)) && decide (c._id ≠ id))).isSome
        = true := by
      rw [List.find?_isSome]
      exact ⟨d, hd, by simp [hdp, hdid]⟩
    have htaken : cars.plateTaken id old (cars.sanitize body).licensePlate db = true := by
      show cars.plateTaken id old (body.licensePlate.map trim) db = true
      rw [hp]
      simp only [Option.map_some', cars.plateTaken, truthy, hsome, Bool.and_true,
        Bool.and_eq_true, decide_eq_true_eq]
      exact ⟨hs, hne⟩
    unfold cars.put
    simp only [hv, ne_eq, not_true_eq_false, if_false, hfind, htaken, if_true]
  · intro hfree
    obtain ⟨saved, db', hput, ⟨t, hsaved⟩, hget⟩ :=
      cars_put_ok currentYear caller now id body db old hv hfind
        (fun q hq => by
          have : q = p := Option.some.inj (hq.symm.trans hp)
          subst this
          exact hfree)
    refine ⟨saved, db', hput, ?_, hget⟩
    rw [hsaved]
    exact assign_plate old body p hp hs

/-- Witness of C5 (amended): user 1 renames the plate of their car to `" xyz789 "`, their
own plate in lower case with padding; taking `" abc123"` instead is refused, and so is taking
`café1` while car 0 holds `CAFÉ1`. -/
theorem update_plate_check_witness :
    cars.put 2025 1 300 5 { licensePlate := some " abc123" } twoCarsDb =
      (⟨400, .message "A car with this license plate already exists"⟩, twoCarsDb) ∧
    (∃ saved db', cars.put 2025 1 300 5 { licensePlate := some " xyz789 " } twoCarsDb =
        (⟨200, .car saved⟩, db') ∧
      saved.licensePlate = toUpperCase (trim " xyz789 ") ∧
      cars.getOne 1 5 db' = (⟨200, .car saved⟩, db')) ∧
    cars.put 2025 1 300 5 { licensePlate := some "café1" } accentDb =
      (⟨400, .message "A car with this license plate already exists"⟩, accentDb) := by
  exact ⟨(update_plate_check 2025 1 300 5 { licensePlate := some " abc123" } twoCarsDb otherCar
      " abc123" (by decide) (by decide) (by decide) rfl rfl (by decide) rfl).1
      ⟨sampleCar, by decide, by decide, by decide⟩,
    (update_plate_check 2025 1 300 5 { licensePlate := some " xyz789 " } twoCarsDb otherCar
      " xyz789 " (by decide) (by decide) (by decide) rfl rfl (by decide) rfl).2
      (Or.inl (by decide)),
    (update_plate_check 2025 1 300 5 { licensePlate := some "café1" } accentDb otherCar
      "café1" (by decide) (by decide) (by decide) rfl rfl (by decide) rfl).1
      ⟨accentCar, by decide, by decide, by decide⟩⟩

end CarVault

namespace CarVault

/-! ## C6: the bounds of `year` -/

theorem check_true (message : String) : check true message = [] := rfl

theorem check_false (message : String) : check false message = [message] := rfl

theorem isIntBetween_some (min max n : Int) :
    isIntBetween min max (some n) = decide (min ≤ n ∧ n ≤ max) := by
  simp [isIntBetween, Bool.decide_and]

/-- C6. With the other fields valid and the plate held by no car, `POST /cars` with an
integer `year` creates the car when `1900 ≤ year ≤ currentYear + 1` and answers 400 with the
validation error of `year`, creating nothing, otherwise; so it succeeds exactly on that
interval, both ends included. On `PUT /cars/:id` a supplied `year` outside the interval is
answered 400 with the same validation error, and a `year` inside it is stored when the car
is the caller's and the plate check passes. -/
theorem year_bounds (currentYear : Int) (caller : ObjectId) (now : Date) (db : Db) (y : Int) :
    (∀ (body : CarBody) (p : String),
      notEmptyTrimmed body.make = true → notEmptyTrimmed body.model = true →
      notEmptyTrimmed body.color = true → body.licensePlate = some p → trim p ≠ "" →
      optional isIntMin0 body.mileage = true →
      (∀ d ∈ db.cars, d.licensePlate ≠ toUpperCase (trim p)) →
      ((1900 ≤ y ∧ y ≤ currentYear + 1) →
        ∃ car, cars.post currentYear caller now { body with year := some y } db =
            (⟨201, .car car⟩,
              { db with cars := db.cars ++ [car], objectIdCounter := db.objectIdCounter + 1 }) ∧
          car.year = y) ∧
      (¬ (1900 ≤ y ∧ y ≤ currentYear + 1) →
        cars.post currentYear caller now { body with year := some y } db =
          (⟨400, .errors ["Valid year is required"]⟩, db)) ∧
      ((cars.post currentYear caller now { body with year := some y } db).1.status = 201 ↔
        (1900 ≤ y ∧ y ≤ currentYear + 1))) ∧
    (∀ (body : CarBody) (id : ObjectId),
      cars.putErrors currentYear { body with year := none } = [] →
      (¬ (1900 ≤ y ∧ y ≤ currentYear + 1) →
        cars.put currentYear caller now id { body with year := some y } db =
          (⟨400, .errors ["Valid year is required"]⟩, db)) ∧
      ((1900 ≤ y ∧ y ≤ currentYear + 1) →
        ∀ old, db.cars.find? (fun c => decide (c._id = id) && decide (c.user = caller)) =
            some old →
          (∀ p, body.licensePlate = some p →
            (toUpperCase (trim p) = old.licensePlate ∨
              ∀ d ∈ db.cars, d._id ≠ id → d.licensePlate ≠ toUpperCase (trim p))) →
          ∃ saved db', cars.put currentYear caller now id { body with year := some y } db =
              (⟨200, .car saved⟩, db') ∧ saved.year = y)) := by
  constructor
  · intro body p hmk hmd hcol hp hpne hmil hfree
    obtain ⟨mk, hmk', _⟩ := notEmptyTrimmed_true hmk
    obtain ⟨md, hmd', _⟩ := notEmptyTrimmed_true hmd
    obtain ⟨col, hcol', _⟩ := notEmptyTrimmed_true hcol
    have hin : (1900 ≤ y ∧ y ≤ currentYear + 1) →
        ∃ car, cars.post currentYear caller now { body with year := some y } db =
            (⟨201, .car car⟩,
              { db with cars := db.cars ++ [car], objectIdCounter := db.objectIdCounter + 1 }) ∧
          car.year = y := by
      intro hy
      have hv : cars.postErrors currentYear { body with year := some y } = [] := by
        rw [cars_postErrors_eq_nil]
        refine ⟨hmk, hmd, ?_, hcol, ?_, hmil⟩
        · rw [isIntBetween_some]; exact decide_eq_true hy
        · show notEmptyTrimmed body.licensePlate = true
          rw [hp, notEmptyTrimmed_some]; exact hpne
      exact ⟨_, cars_post_ok currentYear caller now { body with year := some y } db mk md col p y
        hmk' hmd' rfl hcol' hp hv hfree, rfl⟩
    have hout : ¬ (1900 ≤ y ∧ y ≤ currentYear + 1) →
        cars.post currentYear caller now { body with year := some y } db =
          (⟨400, .errors ["Valid year is required"]⟩, db) := by
      intro hy
      have hv : cars.postErrors currentYear { body with year := some y } =
          ["Valid year is required"] := by
        unfold cars.postErrors
        have hpl : notEmptyTrimmed body.licensePlate = true := by
          rw [hp, notEmptyTrimmed_some]; exact hpne
        simp only [hmk, hmd, hcol, hpl, hmil, check_true, isIntBetween_some,
          decide_eq_false hy, check_false, List.nil_append, List.append_nil]
      unfold cars.post
      simp only [hv]
      rfl
    refine ⟨hin, hout, ?_⟩
    constructor
    · intro hst
      by_contra hy
      rw [hout hy] at hst
      have h400 : (400 : Nat) = 201 := hst
      exact absurd h400 (by decide)
    · intro hy
      obtain ⟨car, hpost, _⟩ := hin hy
      rw [hpost]
  · intro body id hother
    obtain ⟨h1, h2, _, h4, h5, h6⟩ := (cars_putErrors_eq_nil currentYear _).1 hother
    constructor
    · intro hy
      have hv : cars.putErrors currentYear { body with year := some y } =
          ["Valid year is required"] := by
        unfold cars.putErrors
        have h1' : optional notEmptyTrimmed body.make = true := h1
        have h2' : optional notEmptyTrimmed body.model = true := h2
        have h4' : optional notEmptyTrimmed body.color = true := h4
        have h5' : optional notEmptyTrimmed body.licensePlate = true := h5
        have h6' : optional isIntMin0 body.mileage = true := h6
        have hyr : optional (isIntBetween 1900 (currentYear + 1)) (some y) = false := by
          simp only [optional, Option.isNone_some, Bool.false_or, isIntBetween_some]
          exact decide_eq_false hy
        simp only [h1', h2', h4', h5', h6', hyr, check_true, check_false, List.nil_append,
          List.append_nil]
      unfold cars.put
      simp only [hv]
      rfl
    · intro hy old hfind hplate
      have hv : cars.putErrors currentYear { body with year := some y } = [] := by
        rw [cars_putErrors_eq_nil]
        refine ⟨h1, h2, ?_, h4, h5, h6⟩
        simp only [optional, Option.isNone_some, Bool.false_or, isIntBetween_some]
        exact decide_eq_true hy
      obtain ⟨saved, db', hput, ⟨t, hsaved⟩, _⟩ :=
        cars_put_ok currentYear caller now id { body with year := some y } db old hv hfind hplate
      refine ⟨saved, db', hput, ?_⟩
      rw [hsaved]
      show (if y ≠ 0 then y else old.year) = y
      have hy0 : y ≠ 0 := by omega
      rw [if_pos hy0]

end CarVault

namespace CarVault

/-- Witness of C6 with `currentYear = 2025`: the years 1900 and 2026 are accepted on create,
1899 and 2027 are refused; on update of the car of user 1, 2027 is refused and 2026 is
stored. -/
theorem year_bounds_witness :
    (cars.post 2025 1 300 { sampleCarBody with year := some 1900 } Db.empty).1.status = 201 ∧
    (cars.post 2025 1 300 { sampleCarBody with year := some 2026 } Db.empty).1.status = 201 ∧
    cars.post 2025 1 300 { sampleCarBody with year := some 1899 } Db.empty =
      (⟨400, .errors ["Valid year is required"]⟩, Db.empty) ∧
    cars.post 2025 1 300 { sampleCarBody with year := some 2027 } Db.empty =
      (⟨400, .errors ["Valid year is required"]⟩, Db.empty) ∧
    cars.put 2025 1 300 5 { year := some 2027 } twoCarsDb =
      (⟨400, .errors ["Valid year is required"]⟩, twoCarsDb) ∧
    (∃ saved db', cars.put 2025 1 300 5 { year := some 2026 } twoCarsDb =
      (⟨200, .car saved⟩, db') ∧ saved.year = 2026) := by
  have hc : ∀ y : Int, _ := fun y =>
    (year_bounds 2025 1 300 Db.empty y).1 sampleCarBody "abc123" (by decide) (by decide)
      (by decide) rfl (by decide) (by decide) (by simp [Db.empty])
  have hu : ∀ y : Int, _ := fun y =>
    (year_bounds 2025 1 300 twoCarsDb y).2 {} 5 (by decide)
  exact ⟨(hc 1900).2.2.2 ⟨by decide, by decide⟩, (hc 2026).2.2.2 ⟨by decide, by decide⟩,
    (hc 1899).2.1 (by decide), (hc 2027).2.1 (by decide), (hu 2027).1 (by decide),
    (hu 2026).2 ⟨by decide, by decide⟩ otherCar (by decide)
      (fun p hp => Option.noConfusion hp)⟩

end CarVault

namespace CarVault

/-! ## C7: create, then fetch -/

/-- C7, as stated, fails on values sent with surrounding whitespace: the request with make
`" Toyota"` and plate `" abc123 "` is valid and creates car 0, and the following
`GET /cars/0` returns make `"Toyota"`, which is not the submitted make, and plate
`"ABC123"`, which is not the submitted plate upper-cased. -/
theorem round_trip_padded_counterexample :
    cars.postErrors 2025 paddedCarBody = [] ∧
    (cars.post 2025 1 300 paddedCarBody Db.empty).1.status = 201 ∧
    ∃ c, cars.getOne 1 0 (cars.post 2025 1 300 paddedCarBody Db.empty).2 =
        (⟨200, .car c⟩, (cars.post 2025 1 300 paddedCarBody Db.empty).2) ∧
      some c.make ≠ paddedCarBody.make ∧
      some c.licensePlate ≠ paddedCarBody.licensePlate.map toUpperCase :=
  ⟨by decide, by decide,
    ⟨{ _id := 0, user := 1, make := "Toyota", model := "Camry", year := 2022, color := "Blue",
       licensePlate := "ABC123", vin := none, mileage := 0, image := "", notes := none,
       createdAt := 300, updatedAt := 300 }, by decide, by decide, by decide⟩⟩

/-- C7, amended. A valid `POST /cars` whose plate no stored car holds, on a database whose
car ids lie below the ObjectId counter, answers 201 with a car; a following `GET /cars/:id`
by the same user with the returned id answers 200 with the same car, whose licensePlate is
the submitted plate trimmed and upper-cased, whose make, model and color are the submitted
values trimmed, and whose year is the submitted year. -/
theorem create_then_get (currentYear : Int) (caller : ObjectId) (now : Date) (body : CarBody)
    (db : Db) (mk md col p : String) (y : Int)
    (hmk : body.make = some mk) (hmd : body.model = some md) (hy : body.year = some y)
    (hcol : body.color = some col) (hp : body.licensePlate = some p)
    (hv : cars.postErrors currentYear body = [])
    (hfree : ∀ d ∈ db.cars, d.licensePlate ≠ toUpperCase (trim p))
    (hids : ∀ c ∈ db.cars, c._id < db.objectIdCounter) :
    ∃ car db', cars.post currentYear caller now body db = (⟨201, .car car⟩, db') ∧
      cars.getOne caller car._id db' = (⟨200, .car car⟩, db') ∧
      car.licensePlate = toUpperCase (trim p) ∧ car.make = trim mk ∧ car.model = trim md ∧
      car.year = y ∧ car.color = trim col := by
  refine ⟨_, _, cars_post_ok currentYear caller now body db mk md col p y hmk hmd hy hcol hp hv
    hfree, ?_, setTrimUpper_normal p, trim_idem mk, trim_idem md, rfl, trim_idem col⟩
  have hnone : db.cars.find? (fun c => decide (c._id = db.objectIdCounter) &&
      decide (c.user = caller)) = none := by
    rw [List.find?_eq_none]
    intro c hc
    have := Nat.ne_of_lt (hids c hc)
    simp [this]
  unfold cars.getOne
  simp only [cars.newCar, List.find?_append, hnone, Option.none_or, List.find?_singleton,
    decide_True, Bool.and_self, if_true]

/-- Witness of C7 (amended): the round-trip example of the specification, and the same
request with the plate `café1`, which is stored and returned as `CAFÉ1`. -/
theorem create_then_get_witness :
    (∃ car db', cars.post 2025 1 300 sampleCarBody Db.empty = (⟨201, .car car⟩, db') ∧
      cars.getOne 1 car._id db' = (⟨200, .car car⟩, db') ∧
      car.licensePlate = "ABC123" ∧ car.make = "Toyota" ∧ car.model = "Camry" ∧
      car.year = 2022 ∧ car.color = "Blue") ∧
    (∃ car db', cars.post 2025 1 300 accentCarBody Db.empty = (⟨201, .car car⟩, db') ∧
      cars.getOne 1 car._id db' = (⟨200, .car car⟩, db') ∧
      car.licensePlate = "CAFÉ1" ∧ car.make = "Toyota" ∧ car.model = "Camry" ∧
      car.year = 2022 ∧ car.color = "Blue") :=
  ⟨create_then_get 2025 1 300 sampleCarBody Db.empty "Toyota" "Camry" "Blue" "abc123" 2022
      rfl rfl rfl rfl rfl (by decide) (by simp [Db.empty]) (by simp [Db.empty]),
    create_then_get 2025 1 300 accentCarBody Db.empty "Toyota" "Camry" "Blue" "café1" 2022
      rfl rfl rfl rfl rfl (by decide) (by simp [Db.empty]) (by simp [Db.empty])⟩

end CarVault

namespace CarVault

/-! ## The two outcomes of a create request -/

theorem carInsert_some {currentYear : Int} {db db' : Db} {c : Car}
    (h : carInsert currentYear db c = some db') :
    db' = { db with cars := db.cars ++ [c], objectIdCounter := db.objectIdCounter + 1 } := by
  unfold carInsert at h
  split at h
  · injection h with h; exact h.symm
  · exact Option.noConfusion h

theorem maintenanceInsert_some {db db' : Db} {m : Maintenance}
    (h : maintenanceInsert db m = some db') :
    db' = { db with maintenance := db.maintenance ++ [m],
                    objectIdCounter := db.objectIdCounter + 1 } := by
  unfold maintenanceInsert at h
  split at h
  · injection h with h; exact h.symm
  · exact Option.noConfusion h

theorem expenseInsert_some {db db' : Db} {e : Expense}
    (h : expenseInsert db e = some db') :
    db' = { db with expenses := db.expenses ++ [e],
                    objectIdCounter := db.objectIdCounter + 1 } := by
  unfold expenseInsert at h
  split at h
  · injection h with h; exact h.symm
  · exact Option.noConfusion h

/-- The request `POST /cars` either answers with an error and writes nothing, or answers 201 with a car
of the caller, which is appended to the collection. -/
theorem cars_post_cases (currentYear : Int) (caller : ObjectId) (now : Date) (body : CarBody)
    (db : Db) :
    ((cars.post currentYear caller now body db).1.status ≠ 201 ∧
      (cars.post currentYear caller now body db).2 = db) ∨
    ∃ car, car.user = caller ∧ car._id = db.objectIdCounter ∧
      cars.post currentYear caller now body db =
        (⟨201, .car car⟩,
          { db with cars := db.cars ++ [car], objectIdCounter := db.objectIdCounter + 1 }) := by
  unfold cars.post
  simp only
  split
  · exact Or.inl ⟨by simp [serverError], rfl⟩
  · split
    · exact Or.inl ⟨by simp [serverError], rfl⟩
    · split
      · exact Or.inl ⟨by simp [serverError], rfl⟩
      · split
        · split
          · next db' h =>
            right
            refine ⟨?m, ?h1, ?h2, ?h3⟩
            case h3 => rw [carInsert_some h]; exact rfl
            case h1 => rfl
            case h2 => rfl
          · exact Or.inl ⟨by simp [serverError], rfl⟩
        · exact Or.inl ⟨by simp [serverError], rfl⟩

/-- The request `POST /maintenance` either answers with an error and writes nothing, or answers 201 with
the populated form of a record of the caller, which is appended to the collection. -/
theorem maintenance_post_cases (caller : ObjectId) (now : Date) (body : MaintenanceBody)
    (db : Db) :
    ((maintenance.post caller now body db).1.status ≠ 201 ∧
      (maintenance.post caller now body db).2 = db) ∨
    ∃ m, m.user = caller ∧ m._id = db.objectIdCounter ∧ body.car = some m.car ∧
      (∃ c ∈ db.cars, c._id = m.car ∧ c.user = caller) ∧
      maintenance.post caller now body db =
        (⟨201, .maintenance (populateMaintenance
            { db with maintenance := db.maintenance ++ [m],
                      objectIdCounter := db.objectIdCounter + 1 } m)⟩,
          { db with maintenance := db.maintenance ++ [m],
                    objectIdCounter := db.objectIdCounter + 1 }) := by
  unfold maintenance.post
  simp only
  split
  · exact Or.inl ⟨by simp [serverError], rfl⟩
  · split
    · exact Or.inl ⟨by simp [serverError], rfl⟩
    · next car hcar =>
      split
      · exact Or.inl ⟨by simp [serverError], rfl⟩
      · next c hc =>
        split
        · split
          · next db' h =>
            right
            refine ⟨?m, ?h1, ?h2, ?h3, ⟨c, List.mem_of_find?_eq_some hc, ?h4⟩, ?h5⟩
            case h5 => rw [maintenanceInsert_some h]; exact rfl
            case h1 => rfl
            case h2 => rfl
            case h3 => exact hcar
            case h4 =>
              have := List.find?_some hc
              simpa using this
          · exact Or.inl ⟨by simp [serverError], rfl⟩
        · exact Or.inl ⟨by simp [serverError], rfl⟩

/-- The request `POST /expenses` either answers with an error and writes nothing, or answers 201 with
the populated form of a record of the caller, which is appended to the collection. -/
theorem expenses_post_cases (caller : ObjectId) (now : Date) (body : ExpenseBody) (db : Db) :
    ((expenses.post caller now body db).1.status ≠ 201 ∧
      (expenses.post caller now body db).2 = db) ∨
    ∃ e, e.user = caller ∧ e._id = db.objectIdCounter ∧ body.car = some e.car ∧
      (∃ c ∈ db.cars, c._id = e.car ∧ c.user = caller) ∧
      expenses.post caller now body db =
        (⟨201, .expense (populateExpense
            { db with expenses := db.expenses ++ [e],
                      objectIdCounter := db.objectIdCounter + 1 } e)⟩,
          { db with expenses := db.expenses ++ [e],
                    objectIdCounter := db.objectIdCounter + 1 }) := by
  unfold expenses.post
  simp only
  split
  · exact Or.inl ⟨by simp [serverError], rfl⟩
  · split
    · exact Or.inl ⟨by simp [serverError], rfl⟩
    · next car hcar =>
      split
      · exact Or.inl ⟨by simp [serverError], rfl⟩
      · next c hc =>
        split
        · split
          · next db' h =>
            right
            refine ⟨?m, ?h1, ?h2, ?h3, ⟨c, List.mem_of_find?_eq_some hc, ?h4⟩, ?h5⟩
            case h5 => rw [expenseInsert_some h]; exact rfl
            case h1 => rfl
            case h2 => rfl
            case h3 => exact hcar
            case h4 =>
              have := List.find?_some hc
              simpa using this
          · exact Or.inl ⟨by simp [serverError], rfl⟩
        · exact Or.inl ⟨by simp [serverError], rfl⟩

end CarVault

namespace CarVault

/-! ## C8: the owner of a created record is the caller -/

/-- C8. The outcome of `POST /cars`, `POST /maintenance` and `POST /expenses` does not depend
on a `user` field of the body; and whenever the answer is 201, exactly one record is
appended to the collection, its `user` is the authenticated caller, and the answer carries
that record. -/
theorem owner_is_caller (currentYear : Int) (caller : ObjectId) (now : Date) (db : Db) :
    ((∀ (body : CarBody) (u : Option ObjectId),
        cars.post currentYear caller now { body with user := u } db =
          cars.post currentYear caller now body db) ∧
      (∀ body : CarBody, (cars.post currentYear caller now body db).1.status = 201 →
        ∃ car, car.user = caller ∧
          (cars.post currentYear caller now body db).1 = ⟨201, .car car⟩ ∧
          (cars.post currentYear caller now body db).2.cars = db.cars ++ [car])) ∧
    ((∀ (body : MaintenanceBody) (u : Option ObjectId),
        maintenance.post caller now { body with user := u } db =
          maintenance.post caller now body db) ∧
      (∀ body : MaintenanceBody, (maintenance.post caller now body db).1.status = 201 →
        ∃ m, m.user = caller ∧
          (maintenance.post caller now body db).1 =
            ⟨201, .maintenance (populateMaintenance (maintenance.post caller now body db).2 m)⟩ ∧
          (populateMaintenance (maintenance.post caller now body db).2 m).user = caller ∧
          (maintenance.post caller now body db).2.maintenance = db.maintenance ++ [m])) ∧
    ((∀ (body : ExpenseBody) (u : Option ObjectId),
        expenses.post caller now { body with user := u } db =
          expenses.post caller now body db) ∧
      (∀ body : ExpenseBody, (expenses.post caller now body db).1.status = 201 →
        ∃ e, e.user = caller ∧
          (expenses.post caller now body db).1 =
            ⟨201, .expense (populateExpense (expenses.post caller now body db).2 e)⟩ ∧
          (populateExpense (expenses.post caller now body db).2 e).user = caller ∧
          (expenses.post caller now body db).2.expenses = db.expenses ++ [e])) := by
  refine ⟨⟨?_, ?_⟩, ⟨?_, ?_⟩, ⟨?_, ?_⟩⟩
  · intro body u
    cases body
    rfl
  · intro body hst
    rcases cars_post_cases currentYear caller now body db with ⟨hne, _⟩ | ⟨car, hu, _, hpost⟩
    · exact absurd hst hne
    · exact ⟨car, hu, by rw [hpost], by rw [hpost]⟩
  · intro body u
    cases body
    rfl
  · intro body hst
    rcases maintenance_post_cases caller now body db with ⟨hne, _⟩ | ⟨m, hu, _, _, _, hpost⟩
    · exact absurd hst hne
    · exact ⟨m, hu, by rw [hpost], by rw [hpost]; exact hu, by rw [hpost]⟩
  · intro body u
    cases body
    rfl
  · intro body hst
    rcases expenses_post_cases caller now body db with ⟨hne, _⟩ | ⟨e, hu, _, _, _, hpost⟩
    · exact absurd hst hne
    · exact ⟨e, hu, by rw [hpost], by rw [hpost]; exact hu, by rw [hpost]⟩

/-- Witness of C8: user 1 posts a car, a maintenance record and an expense with and without
`user: 2` in the body; the outcome is the same and the created records belong to user 1. -/
theorem owner_is_caller_witness :
    (cars.post 2025 1 300 { sampleCarBody with user := some 2 } Db.empty =
        cars.post 2025 1 300 sampleCarBody Db.empty ∧
      ∃ car, car.user = 1 ∧
        (cars.post 2025 1 300 { sampleCarBody with user := some 2 } Db.empty).1 =
          ⟨201, .car car⟩ ∧
        (cars.post 2025 1 300 { sampleCarBody with user := some 2 } Db.empty).2.cars =
          Db.empty.cars ++ [car]) ∧
    (∃ m, m.user = 1 ∧
      (maintenance.post 1 300
          { car := some 5, type := some "Other", description := some "wash", date := some 290,
            mileage := some 20, cost := some 15, user := some 2 } twoCarsDb).2.maintenance =
        twoCarsDb.maintenance ++ [m]) ∧
    (∃ e, e.user = 1 ∧
      (expenses.post 1 300
          { car := some 5, category := some "Fuel", description := some "tank",
            amount := some 30, date := some 290, user := some 2 } twoCarsDb).2.expenses =
        twoCarsDb.expenses ++ [e]) := by
  have h0 := owner_is_caller 2025 1 300 Db.empty
  have h2 := owner_is_caller 2025 1 300 twoCarsDb
  refine ⟨⟨h0.1.1 sampleCarBody (some 2), h0.1.2 { sampleCarBody with user := some 2 }
    (by decide)⟩, ?_, ?_⟩
  · obtain ⟨m, hm, _, _, hdb⟩ := h2.2.1.2
      { car := some 5, type := some "Other", description := some "wash", date := some 290,
        mileage := some 20, cost := some 15, user := some 2 } (by decide)
    exact ⟨m, hm, hdb⟩
  · obtain ⟨e, he, _, _, hdb⟩ := h2.2.2.2
      { car := some 5, category := some "Fuel", description := some "tank",
        amount := some 30, date := some 290, user := some 2 } (by decide)
    exact ⟨e, he, hdb⟩

end CarVault

namespace CarVault

/-! ## Sorting by a key, newest first -/

theorem insertionSort_desc_sorted {α : Type} (key : α → Int) (l : List α) :
    (l.insertionSort (fun a b => key a ≥ key b)).Sorted (fun a b => key a ≥ key b) := by
  haveI : IsTotal α (fun a b => key a ≥ key b) := ⟨fun a b => le_total (key b) (key a)⟩
  haveI : IsTrans α (fun a b => key a ≥ key b) := ⟨fun a b c hab hbc => le_trans hbc hab⟩
  exact List.sorted_insertionSort _ l

theorem populateMaintenance_date (db : Db) (m : Maintenance) :
    (populateMaintenance db m).date = m.date := rfl

theorem populateExpense_date (db : Db) (e : Expense) :
    (populateExpense db e).date = e.date := rfl

theorem maintenance_listing_spec (db : Db) (records : List Maintenance) :
    ∃ l : List Maintenance, maintenance.listing db records = l.map (populateMaintenance db) ∧
      l.Perm records ∧ l.Sorted (fun a b => a.date ≥ b.date) ∧
      (maintenance.listing db records).Sorted (fun a b => a.date ≥ b.date) := by
  refine ⟨records.insertionSort (fun a b => a.date ≥ b.date), rfl,
    List.perm_insertionSort _ _, insertionSort_desc_sorted (fun m => m.date) records, ?_⟩
  unfold maintenance.listing List.Sorted
  rw [List.pairwise_map]
  exact insertionSort_desc_sorted (fun m : Maintenance => m.date) records

theorem expenses_listing_spec (db : Db) (records : List Expense) :
    ∃ l : List Expense, expenses.listing db records = l.map (populateExpense db) ∧
      l.Perm records ∧ l.Sorted (fun a b => a.date ≥ b.date) ∧
      (expenses.listing db records).Sorted (fun a b => a.date ≥ b.date) := by
  refine ⟨records.insertionSort (fun a b => a.date ≥ b.date), rfl,
    List.perm_insertionSort _ _, insertionSort_desc_sorted (fun e => e.date) records, ?_⟩
  unfold expenses.listing List.Sorted
  rw [List.pairwise_map]
  exact insertionSort_desc_sorted (fun e : Expense => e.date) records

/-! ## C9: the listings of the caller -/

/-- C9. `GET /cars` answers 200 with a list that is a permutation of the cars whose `user`
is the caller (each such car once, no other car) in non-increasing `createdAt` order.
`GET /maintenance` and `GET /expenses` answer 200 with the populated forms of a list that is
a permutation of the records whose `user` is the caller, in non-increasing `date` order. -/
theorem listings_of_caller (caller : ObjectId) (db : Db) :
    (∃ l : List Car, cars.getAll caller db = (⟨200, .cars l⟩, db) ∧
      l.Perm (db.cars.filter (fun c => c.user = caller)) ∧
      l.Sorted (fun a b => a.createdAt ≥ b.createdAt) ∧
      ∀ c, c ∈ l ↔ c ∈ db.cars ∧ c.user = caller) ∧
    (∃ l : List Maintenance, maintenance.getAll caller db =
        (⟨200, .maintenanceList (l.map (populateMaintenance db))⟩, db) ∧
      l.Perm (db.maintenance.filter (fun m => m.user = caller)) ∧
      l.Sorted (fun a b => a.date ≥ b.date) ∧
      (l.map (populateMaintenance db)).Sorted (fun a b => a.date ≥ b.date) ∧
      ∀ m, m ∈ l ↔ m ∈ db.maintenance ∧ m.user = caller) ∧
    (∃ l : List Expense, expenses.getAll caller db =
        (⟨200, .expenses (l.map (populateExpense db))⟩, db) ∧
      l.Perm (db.expenses.filter (fun e => e.user = caller)) ∧
      l.Sorted (fun a b => a.date ≥ b.date) ∧
      (l.map (populateExpense db)).Sorted (fun a b => a.date ≥ b.date) ∧
      ∀ e, e ∈ l ↔ e ∈ db.expenses ∧ e.user = caller) := by
  refine ⟨?_, ?_, ?_⟩
  · refine ⟨_, rfl, List.perm_insertionSort _ _,
      insertionSort_desc_sorted (fun c : Car => c.createdAt) _, fun c => ?_⟩
    rw [(List.perm_insertionSort _ _).mem_iff]
    simp
  · obtain ⟨l, hl, hperm, hs, hs'⟩ :=
      maintenance_listing_spec db (db.maintenance.filter (fun m => m.user = caller))
    refine ⟨l, ?_, hperm, hs, hl ▸ hs', fun m => ?_⟩
    · unfold maintenance.getAll; rw [hl]
    · rw [hperm.mem_iff]; simp
  · obtain ⟨l, hl, hperm, hs, hs'⟩ :=
      expenses_listing_spec db (db.expenses.filter (fun e => e.user = caller))
    refine ⟨l, ?_, hperm, hs, hl ▸ hs', fun e => ?_⟩
    · unfold expenses.getAll; rw [hl]
    · rw [hperm.mem_iff]; simp

/-! ## C10: the listings of one car -/

/-- C10. `GET /maintenance/car/:carId` and `GET /expenses/car/:carId` answer 404 'Car not
found' when no car with that id belongs to the caller, be the car absent or another
user's; otherwise they answer 200 with the populated forms of a list that is a permutation
of the records whose `car` is `carId`, in non-increasing `date` order. -/
theorem listings_of_car (caller carId : ObjectId) (db : Db) :
    ((¬ ∃ c ∈ db.cars, c._id = carId ∧ c.user = caller) →
      maintenance.getByCar caller carId db = (⟨404, .message "Car not found"⟩, db) ∧
      expenses.getByCar caller carId db = (⟨404, .message "Car not found"⟩, db)) ∧
    ((∃ c ∈ db.cars, c._id = carId ∧ c.user = caller) →
      (∃ l : List Maintenance, maintenance.getByCar caller carId db =
          (⟨200, .maintenanceList (l.map (populateMaintenance db))⟩, db) ∧
        l.Perm (db.maintenance.filter (fun m => m.car = carId)) ∧
        l.Sorted (fun a b => a.date ≥ b.date) ∧
        (l.map (populateMaintenance db)).Sorted (fun a b => a.date ≥ b.date)) ∧
      (∃ l : List Expense, expenses.getByCar caller carId db =
          (⟨200, .expenses (l.map (populateExpense db))⟩, db) ∧
        l.Perm (db.expenses.filter (fun e => e.car = carId)) ∧
        l.Sorted (fun a b => a.date ≥ b.date) ∧
        (l.map (populateExpense db)).Sorted (fun a b => a.date ≥ b.date))) := by
  constructor
  · intro hnone
    have hfind := (find?_scoped_eq_none_iff (fun c : Car => c._id) (fun c => c.user) db.cars
      carId caller).2 hnone
    constructor
    · unfold maintenance.getByCar; rw [hfind]
    · unfold expenses.getByCar; rw [hfind]
  · intro hsome
    have hfind : ∃ c, db.cars.find?
        (fun c => decide (c._id = carId) && decide (c.user = caller)) = some c := by
      cases hf : db.cars.find? (fun c => decide (c._id = carId) && decide (c.user = caller)) with
      | some c => exact ⟨c, rfl⟩
      | none =>
        exact absurd hsome ((find?_scoped_eq_none_iff (fun c : Car => c._id) (fun c => c.user)
          db.cars carId caller).1 hf)
    obtain ⟨c, hc⟩ := hfind
    constructor
    · obtain ⟨l, hl, hperm, hs, hs'⟩ :=
        maintenance_listing_spec db (db.maintenance.filter (fun m => m.car = carId))
      refine ⟨l, ?_, hperm, hs, hl ▸ hs'⟩
      unfold maintenance.getByCar; rw [hc]; simp only; rw [hl]
    · obtain ⟨l, hl, hperm, hs, hs'⟩ :=
        expenses_listing_spec db (db.expenses.filter (fun e => e.car = carId))
      refine ⟨l, ?_, hperm, hs, hl ▸ hs'⟩
      unfold expenses.getByCar; rw [hc]; simp only; rw [hl]

end CarVault

namespace CarVault

/-! ## Instances of C4, C9 and C10 on sample data -/

/-- Witness of C4: two users post the same plate in different letter case, the first user
then takes another plate and the second posts again. And a run in which user 1 posts the
plate `café1` and user 2 then posts `CAFÉ1`: one car is stored, with the plate `CAFÉ1`. -/
theorem plates_upper_and_unique_witness :
    ((∀ c ∈ (runCars 2025
        [.create 1 100 sampleCarBody, .create 2 110 paddedCarBody,
         .update 1 120 0 { licensePlate := some "new1" }, .create 2 130 paddedCarBody,
         .delete 1 0] Db.empty).cars, toUpperCase c.licensePlate = c.licensePlate) ∧
      (runCars 2025
        [.create 1 100 sampleCarBody, .create 2 110 paddedCarBody,
         .update 1 120 0 { licensePlate := some "new1" }, .create 2 130 paddedCarBody,
         .delete 1 0] Db.empty).cars.Pairwise
      (fun a b => a.licensePlate ≠ b.licensePlate)) ∧
    (runCars 2025
        [.create 1 100 accentCarBody,
         .create 2 110 { accentCarBody with licensePlate := some "CAFÉ1" }]
        Db.empty).cars.map (fun c => (c.user, c.licensePlate)) = [(1, "CAFÉ1")] ∧
    (∀ c ∈ (runCars 2025
        [.create 1 100 accentCarBody,
         .create 2 110 { accentCarBody with licensePlate := some "CAFÉ1" }]
        Db.empty).cars, toUpperCase c.licensePlate = c.licensePlate) :=
  ⟨plates_upper_and_unique 2025 _, by decide, (plates_upper_and_unique 2025 _).1⟩

/-- Witness of C9: the listings of user 2 on the sample database. -/
theorem listings_of_caller_witness :
    ∃ l : List Car, cars.getAll 2 sampleDb = (⟨200, .cars l⟩, sampleDb) ∧
      l.Perm (sampleDb.cars.filter (fun c => c.user = 2)) ∧
      l.Sorted (fun a b => a.createdAt ≥ b.createdAt) ∧
      ∀ c, c ∈ l ↔ c ∈ sampleDb.cars ∧ c.user = 2 :=
  (listings_of_caller 2 sampleDb).1

/-- Witness of C10: car 0 belongs to user 2; user 1 is answered 404 as for the absent car 7,
user 2 is answered the records of the car. -/
theorem listings_of_car_witness :
    maintenance.getByCar 1 0 sampleDb = (⟨404, .message "Car not found"⟩, sampleDb) ∧
    expenses.getByCar 1 7 sampleDb = (⟨404, .message "Car not found"⟩, sampleDb) ∧
    ∃ l : List Maintenance, maintenance.getByCar 2 0 sampleDb =
        (⟨200, .maintenanceList (l.map (populateMaintenance sampleDb))⟩, sampleDb) ∧
      l.Perm (sampleDb.maintenance.filter (fun m => m.car = 0)) ∧
      l.Sorted (fun a b => a.date ≥ b.date) ∧
      (l.map (populateMaintenance sampleDb)).Sorted (fun a b => a.date ≥ b.date) :=
  ⟨((listings_of_car 1 0 sampleDb).1 (by decide)).1,
    ((listings_of_car 1 7 sampleDb).1 (by decide)).2,
    ((listings_of_car 2 0 sampleDb).2 ⟨sampleCar, by decide, rfl, rfl⟩).1⟩

end CarVault

namespace CarVault

/-! ## The outcomes of an update request -/

theorem plateTaken_false_elim (currentYear : Int) (id : ObjectId) (old : Car) (body : CarBody)
    (db : Db) (hv : cars.putErrors currentYear body = [])
    (h : cars.plateTaken id old (cars.sanitize body).licensePlate db = false) :
    ∀ p, body.licensePlate = some p →
      (toUpperCase (trim p) = old.licensePlate ∨
        ∀ d ∈ db.cars, d._id ≠ id → d.licensePlate ≠ toUpperCase (trim p)) := by
  intro p hp
  have hs : trim p ≠ "" :=
    optional_notEmptyTrimmed ((cars_putErrors_eq_nil currentYear body).1 hv).2.2.2.2.1 p hp
  have h' : cars.plateTaken id old (some (trim p)) db = false := by
    have e : (cars.sanitize body).licensePlate = some (trim p) := by
      show body.licensePlate.map trim = some (trim p)
      rw [hp]; rfl
    rw [e] at h; exact h
  by_cases heq : toUpperCase (trim p) = old.licensePlate
  · exact Or.inl heq
  · right
    intro d hd hdid hdp
    have hsome : (db.cars.find?
        (fun c => decide (c.licensePlate = toUpperCase (trim p)) && decide (c._id ≠ id))).isSome
        = true := by
      rw [List.find?_isSome]
      exact ⟨d, hd, by simp [hdp, hdid]⟩
    have : cars.plateTaken id old (some (trim p)) db = true := by
      simp only [cars.plateTaken, truthy, hsome, Bool.and_true, Bool.and_eq_true,
        decide_eq_true_eq]
      exact ⟨hs, heq⟩
    rw [h'] at this
    exact Bool.noConfusion this

/-- The five outcomes of `PUT /cars/:id`: validation error, not found, plate conflict,
nothing to write, document written. -/
theorem cars_put_cases (currentYear : Int) (caller : ObjectId) (now : Date) (id : ObjectId)
    (body : CarBody) (db : Db) :
    (cars.putErrors currentYear body ≠ [] ∧
      cars.put currentYear caller now id body db =
        (⟨400, .errors (cars.putErrors currentYear body)⟩, db)) ∨
    (cars.putErrors currentYear body = [] ∧
      ((db.cars.find? (fun c => decide (c._id = id) && decide (c.user = caller)) = none ∧
          cars.put currentYear caller now id body db =
            (⟨404, .message "Car not found"⟩, db)) ∨
        ∃ old, db.cars.find? (fun c => decide (c._id = id) && decide (c.user = caller)) =
            some old ∧
          ((cars.plateTaken id old (cars.sanitize body).licensePlate db = true ∧
              cars.put currentYear caller now id body db =
                (⟨400, .message "A car with this license plate already exists"⟩, db)) ∨
            (cars.plateTaken id old (cars.sanitize body).licensePlate db = false ∧
              cars.assign old (cars.sanitize body) = old ∧
              cars.put currentYear caller now id body db = (⟨200, .car old⟩, db)) ∨
            (cars.plateTaken id old (cars.sanitize body).licensePlate db = false ∧
              cars.assign old (cars.sanitize body) ≠ old ∧
              cars.put currentYear caller now id body db =
                (⟨200, .car { cars.assign old (cars.sanitize body) with updatedAt := now }⟩,
                  { db with cars := (replaceFirst (fun c => decide (c._id = old._id))
                      { cars.assign old (cars.sanitize body) with updatedAt := now }
                      db.cars) }))))) := by
  by_cases hv : cars.putErrors currentYear body = []
  · right
    refine ⟨hv, ?_⟩
    cases hfind : db.cars.find? (fun c => decide (c._id = id) && decide (c.user = caller)) with
    | none => exact Or.inl ⟨rfl, cars_put_none currentYear caller now id body db hv hfind⟩
    | some old =>
      right
      refine ⟨old, rfl, ?_⟩
      have hpo := List.find?_some hfind
      simp only [Bool.and_eq_true, decide_eq_true_eq] at hpo
      cases htaken : cars.plateTaken id old (cars.sanitize body).licensePlate db with
      | true =>
        left
        refine ⟨rfl, ?_⟩
        unfold cars.put
        simp only [hv, ne_eq, not_true_eq_false, if_false, hfind, htaken, if_true]
      | false =>
        right
        have hput : cars.put currentYear caller now id body db =
            match carUpdate currentYear now db old (cars.assign old (cars.sanitize body)) with
            | some (saved, db') => (⟨200, .car saved⟩, db')
            | none => (serverError, db) := by
          unfold cars.put
          simp only [hv, ne_eq, not_true_eq_false, if_false, hfind, htaken, Bool.false_eq_true]
        have hplate := plateTaken_false_elim currentYear id old body db hv htaken
        have hdup : (cars.assign old (cars.sanitize body)).licensePlate ≠ old.licensePlate →
            carDuplicateKey db.cars (cars.assign old (cars.sanitize body)) = false := by
          intro hne
          cases hp : body.licensePlate with
          | none => exact absurd (assign_plate_none old body hp) hne
          | some p =>
            have hv' := (cars_putErrors_eq_nil currentYear body).1 hv
            have hs := optional_notEmptyTrimmed hv'.2.2.2.2.1 p hp
            have hpl := assign_plate old body p hp hs
            apply carDuplicateKey_eq_false
            intro d hd hdid
            rw [hpl]
            rcases hplate p hp with h | h
            · exact absurd (hpl.trans h) hne
            · exact h d hd (by rw [← hpo.1]; exact hdid)
        rcases carUpdate_ok currentYear now db old _
          (assign_validateModified currentYear old body hv) hdup with ⟨heq, hu⟩ | ⟨hne, hu⟩
        · exact Or.inl ⟨rfl, heq, by rw [hput, hu]⟩
        · exact Or.inr ⟨rfl, hne, by rw [hput, hu]⟩
  · left
    refine ⟨hv, ?_⟩
    unfold cars.put
    simp only [ne_eq, hv, not_false_eq_true, if_true]

/-- The outcomes of `PUT /maintenance/:id`: validation error, not found, nothing to write,
document written, schema validation failed on save. -/
theorem maintenance_put_cases (caller : ObjectId) (now : Date) (id : ObjectId)
    (body : MaintenanceBody) (db : Db) :
    (maintenance.putErrors body ≠ [] ∧
      maintenance.put caller now id body db =
        (⟨400, .errors (maintenance.putErrors body)⟩, db)) ∨
    (maintenance.putErrors body = [] ∧
      ((db.maintenance.find? (fun m => decide (m._id = id) && decide (m.user = caller)) = none ∧
          maintenance.put caller now id body db =
            (⟨404, .message "Maintenance record not found"⟩, db)) ∨
        ∃ old, db.maintenance.find?
            (fun m => decide (m._id = id) && decide (m.user = caller)) = some old ∧
          ((maintenance.assign old (maintenance.sanitize body) = old ∧
              maintenance.put caller now id body db =
                (⟨200, .maintenance (populateMaintenance db old)⟩, db)) ∨
            (maintenance.assign old (maintenance.sanitize body) ≠ old ∧
              maintenanceValidateModified old
                (maintenance.assign old (maintenance.sanitize body)) = true ∧
              maintenance.put caller now id body db =
                (⟨200, .maintenance (populateMaintenance db
                    { maintenance.assign old (maintenance.sanitize body) with
                      updatedAt := now })⟩,
                  { db with maintenance := (replaceFirst (fun m => decide (m._id = old._id))
                      { maintenance.assign old (maintenance.sanitize body) with
                        updatedAt := now } db.maintenance) })) ∨
            (maintenance.assign old (maintenance.sanitize body) ≠ old ∧
              maintenanceValidateModified old
                (maintenance.assign old (maintenance.sanitize body)) = false ∧
              maintenance.put caller now id body db = (serverError, db))))) := by
  by_cases hv : maintenance.putErrors body = []
  · right
    refine ⟨hv, ?_⟩
    cases hfind : db.maintenance.find?
        (fun m => decide (m._id = id) && decide (m.user = caller)) with
    | none => exact Or.inl ⟨rfl, maintenance_put_none caller now id body db hv hfind⟩
    | some old =>
      right
      refine ⟨old, rfl, ?_⟩
      have hput : maintenance.put caller now id body db =
          match maintenanceUpdate now db old
            (maintenance.assign old (maintenance.sanitize body)) with
          | some (saved, db') => (⟨200, .maintenance (populateMaintenance db' saved)⟩, db')
          | none => (serverError, db) := by
        unfold maintenance.put
        simp only [hv, ne_eq, not_true_eq_false, if_false, hfind]
      by_cases heq : maintenance.assign old (maintenance.sanitize body) = old
      · left
        refine ⟨heq, ?_⟩
        rw [hput]
        unfold maintenanceUpdate
        rw [if_pos heq]
      · right
        cases hval : maintenanceValidateModified old
            (maintenance.assign old (maintenance.sanitize body)) with
        | true =>
          left
          refine ⟨heq, rfl, ?_⟩
          rw [hput]
          unfold maintenanceUpdate
          rw [if_neg heq, if_pos hval]
          rfl
        | false =>
          right
          refine ⟨heq, rfl, ?_⟩
          rw [hput]
          unfold maintenanceUpdate
          rw [if_neg heq, if_neg (by rw [hval]; exact Bool.false_ne_true)]
  · left
    refine ⟨hv, ?_⟩
    unfold maintenance.put
    simp only [ne_eq, hv, not_false_eq_true, if_true]

/-- The outcomes of `PUT /expenses/:id`: validation error, not found, nothing to write,
document written, schema validation failed on save. -/
theorem expenses_put_cases (caller : ObjectId) (now : Date) (id : ObjectId)
    (body : ExpenseBody) (db : Db) :
    (expenses.putErrors body ≠ [] ∧
      expenses.put caller now id body db = (⟨400, .errors (expenses.putErrors body)⟩, db)) ∨
    (expenses.putErrors body = [] ∧
      ((db.expenses.find? (fun e => decide (e._id = id) && decide (e.user = caller)) = none ∧
          expenses.put caller now id body db = (⟨404, .message "Expense not found"⟩, db)) ∨
        ∃ old, db.expenses.find?
            (fun e => decide (e._id = id) && decide (e.user = caller)) = some old ∧
          ((expenses.assign old (expenses.sanitize body) = old ∧
              expenses.put caller now id body db =
                (⟨200, .expense (populateExpense db old)⟩, db)) ∨
            (expenses.assign old (expenses.sanitize body) ≠ old ∧
              expenseValidateModified old (expenses.assign old (expenses.sanitize body)) = true ∧
              expenses.put caller now id body db =
                (⟨200, .expense (populateExpense db
                    { expenses.assign old (expenses.sanitize body) with updatedAt := now })⟩,
                  { db with expenses := (replaceFirst (fun e => decide (e._id = old._id))
                      { expenses.assign old (expenses.sanitize body) with updatedAt := now }
                      db.expenses) })) ∨
            (expenses.assign old (expenses.sanitize body) ≠ old ∧
              expenseValidateModified old (expenses.assign old (expenses.sanitize body)) =
                false ∧
              expenses.put caller now id body db = (serverError, db))))) := by
  by_cases hv : expenses.putErrors body = []
  · right
    refine ⟨hv, ?_⟩
    cases hfind : db.expenses.find?
        (fun e => decide (e._id = id) && decide (e.user = caller)) with
    | none => exact Or.inl ⟨rfl, expenses_put_none caller now id body db hv hfind⟩
    | some old =>
      right
      refine ⟨old, rfl, ?_⟩
      have hput : expenses.put caller now id body db =
          match expenseUpdate now db old (expenses.assign old (expenses.sanitize body)) with
          | some (saved, db') => (⟨200, .expense (populateExpense db' saved)⟩, db')
          | none => (serverError, db) := by
        unfold expenses.put
        simp only [hv, ne_eq, not_true_eq_false, if_false, hfind]
      by_cases heq : expenses.assign old (expenses.sanitize body) = old
      · left
        refine ⟨heq, ?_⟩
        rw [hput]
        unfold expenseUpdate
        rw [if_pos heq]
      · right
        cases hval : expenseValidateModified old
            (expenses.assign old (expenses.sanitize body)) with
        | true =>
          left
          refine ⟨heq, rfl, ?_⟩
          rw [hput]
          unfold expenseUpdate
          rw [if_neg heq, if_pos hval]
          rfl
        | false =>
          right
          refine ⟨heq, rfl, ?_⟩
          rw [hput]
          unfold expenseUpdate
          rw [if_neg heq, if_neg (by rw [hval]; exact Bool.false_ne_true)]
  · left
    refine ⟨hv, ?_⟩
    unfold expenses.put
    simp only [ne_eq, hv, not_false_eq_true, if_true]

end CarVault

namespace CarVault

/-! ## The assignments of an update agree with the specified merge -/

theorem assignIfTruthy_trim_eq (v : Option String) (old : String)
    (h : optional notEmptyTrimmed v = true) :
    assignIfTruthy (v.map trim) trim old = providedOr v trim old := by
  cases v with
  | none => rfl
  | some s =>
    have hs := optional_notEmptyTrimmed h s rfl
    simp only [assignIfTruthy, Option.map_some', truthy, ne_eq, decide_not, Bool.not_eq_true',
      decide_eq_false_iff_not, hs, not_false_eq_true, if_true, providedOr]
    exact trim_idem s

theorem setTrimUpper_toUpperCase (v : String) :
    setTrimUpper (toUpperCase v) = toUpperCase (trim v) := by
  unfold setTrimUpper
  rw [trim_toUpperCase, toUpperCase_idem]

theorem assignIfTruthy_isIn_eq (values : List String) (hvalues : ∀ s ∈ values, s ≠ "")
    (v : Option String) (old : String) (h : optional (isIn values) v = true) :
    assignIfTruthy v id old = providedOr v id old := by
  cases v with
  | none => rfl
  | some s =>
    have hmem : s ∈ values := by
      simpa [optional, isIn] using h
    have hs := hvalues s hmem
    simp [assignIfTruthy, truthy, hs, providedOr]

theorem assignIfDefined_eq {α : Type} (v : Option α) (old : α) :
    assignIfDefined v old = providedOr v id old := by
  cases v <;> rfl

theorem cars_assign_eq_merged (currentYear : Int) (old : Car) (body : CarBody)
    (hv : cars.putErrors currentYear body = []) :
    cars.assign old (cars.sanitize body) = cars.merged old body old.updatedAt := by
  obtain ⟨h1, h2, h3, h4, h5, _⟩ := (cars_putErrors_eq_nil currentYear body).1 hv
  have eyear : (match body.year with
      | some y => if y ≠ 0 then y else old.year
      | none => old.year) = providedOr body.year id old.year := by
    cases hy : body.year with
    | none => rfl
    | some y =>
      rw [hy] at h3
      have : 1900 ≤ y ∧ y ≤ currentYear + 1 := by simpa [optional, isIntBetween] using h3
      have hy0 : y ≠ 0 := by omega
      simp only [hy0, ne_eq, not_false_eq_true, if_true, providedOr, id]
  have eplate : assignIfTruthy (body.licensePlate.map trim)
      (fun lp => setTrimUpper (toUpperCase lp)) old.licensePlate =
      providedOr body.licensePlate (fun p => toUpperCase (trim p)) old.licensePlate := by
    cases hp : body.licensePlate with
    | none => rfl
    | some p =>
      rw [hp] at h5
      have hs := optional_notEmptyTrimmed h5 p rfl
      simp only [assignIfTruthy, Option.map_some', truthy, ne_eq, decide_not,
        Bool.not_eq_true', decide_eq_false_iff_not, hs, not_false_eq_true, if_true, providedOr]
      exact setTrimUpper_normal p
  have evin : (match body.vin with
      | some v => some (setTrimUpper (toUpperCase v))
      | none => old.vin) = providedOr body.vin (fun v => some (toUpperCase (trim v))) old.vin := by
    cases body.vin with
    | none => rfl
    | some v => simp only [providedOr, setTrimUpper_toUpperCase]
  have enotes : (match body.notes with
      | some n => some (trim n)
      | none => old.notes) = providedOr body.notes (fun n => some (trim n)) old.notes := by
    cases body.notes <;> rfl
  unfold cars.merged
  rw [← assignIfTruthy_trim_eq body.make old.make h1,
    ← assignIfTruthy_trim_eq body.model old.model h2,
    ← assignIfTruthy_trim_eq body.color old.color h4, ← eyear, ← eplate, ← evin, ← enotes,
    ← assignIfDefined_eq, ← assignIfDefined_eq]
  rfl

end CarVault

namespace CarVault

theorem maintenance_putErrors_eq_nil (b : MaintenanceBody) :
    maintenance.putErrors b = [] ↔
      optional (isIn maintenance.putTypeValues) b.type = true ∧
      optional notEmptyTrimmed b.description = true ∧
      optional isIntMin0 b.mileage = true ∧ optional isFloatMin0 b.cost = true := by
  unfold maintenance.putErrors
  simp only [List.append_eq_nil, check_eq_nil]
  constructor
  · rintro ⟨⟨⟨⟨h1, h2⟩, _⟩, h4⟩, h5⟩
    exact ⟨h1, h2, h4, h5⟩
  · rintro ⟨h1, h2, h4, h5⟩
    refine ⟨⟨⟨⟨h1, h2⟩, ?_⟩, h4⟩, h5⟩
    cases b.date <;> rfl

theorem expenses_putErrors_eq_nil (b : ExpenseBody) :
    expenses.putErrors b = [] ↔
      optional (isIn expenses.putCategoryValues) b.category = true ∧
      optional notEmptyTrimmed b.description = true ∧
      optional isFloatMin0 b.amount = true := by
  unfold expenses.putErrors
  simp only [List.append_eq_nil, check_eq_nil]
  constructor
  · rintro ⟨⟨⟨h1, h2⟩, h3⟩, _⟩
    exact ⟨h1, h2, h3⟩
  · rintro ⟨h1, h2, h3⟩
    refine ⟨⟨⟨h1, h2⟩, h3⟩, ?_⟩
    cases b.date <;> rfl

theorem maintenance_assign_eq_merged (old : Maintenance) (body : MaintenanceBody)
    (hv : maintenance.putErrors body = []) :
    maintenance.assign old (maintenance.sanitize body) =
      maintenance.merged old body old.updatedAt := by
  obtain ⟨h1, h2, _, _⟩ := (maintenance_putErrors_eq_nil body).1 hv
  unfold maintenance.merged maintenance.assign maintenance.sanitize
  simp only
  rw [Maintenance.mk.injEq]
  refine ⟨rfl, rfl, rfl,
    assignIfTruthy_isIn_eq maintenance.putTypeValues (by decide) body.type old.type h1,
    assignIfTruthy_trim_eq body.description old.description h2,
    assignIfDefined_eq _ _, assignIfDefined_eq _ _, assignIfDefined_eq _ _, ?_, ?_, ?_,
    assignIfDefined_eq _ _, ?_, rfl, rfl⟩
  · cases body.location <;> rfl
  · cases body.nextServiceDate <;> rfl
  · cases body.nextServiceMileage <;> rfl
  · cases body.notes <;> rfl

theorem expenses_assign_eq_merged (old : Expense) (body : ExpenseBody)
    (hv : expenses.putErrors body = []) :
    expenses.assign old (expenses.sanitize body) = expenses.merged old body old.updatedAt := by
  obtain ⟨h1, h2, _⟩ := (expenses_putErrors_eq_nil body).1 hv
  unfold expenses.merged expenses.assign expenses.sanitize
  simp only
  rw [Expense.mk.injEq]
  refine ⟨rfl, rfl, rfl,
    assignIfTruthy_isIn_eq expenses.putCategoryValues (by decide) body.category old.category h1,
    assignIfTruthy_trim_eq body.description old.description h2,
    assignIfDefined_eq _ _, assignIfDefined_eq _ _, ?_, ?_, assignIfDefined_eq _ _, ?_,
    rfl, rfl⟩
  · cases body.mileage <;> rfl
  · cases body.location <;> rfl
  · cases body.notes <;> rfl

theorem find?_replaceFirst_id {α : Type} (key owner : α → ObjectId) (l : List α)
    (old saved : α) (id caller : ObjectId) (hold : old ∈ l) (hkey : key old = id)
    (hsk : key saved = id) (hso : owner saved = caller) :
    (replaceFirst (fun c => decide (key c = key old)) saved l).find?
      (fun c => decide (key c = id) && decide (owner c = caller)) = some saved :=
  find?_replaceFirst (fun c => decide (key c = id) && decide (owner c = caller))
    (fun c => decide (key c = key old)) saved
    (by simp only [Bool.and_eq_true, decide_eq_true_eq]; exact ⟨hsk, hso⟩)
    (by
      intro x hx
      simp only [Bool.and_eq_true, decide_eq_true_eq] at hx ⊢
      rw [hkey]; exact hx.1)
    l ⟨old, hold, by simp⟩

end CarVault

namespace CarVault

/-! ## C11: partial update -/

/-- C11, as stated, fails twice on one request: user 1 sends `PUT /cars/5` with the valid
body `{ make: " Kia " }`. The answer is 200; the stored make is `"Kia"`, not the provided
value, and `updatedAt`, which the body does not carry, changes from 200 to 300. -/
theorem partial_update_counterexample :
    cars.putErrors 2025 { make := some " Kia " } = [] ∧
    (cars.put 2025 1 300 5 { make := some " Kia " } twoCarsDb).1 =
      ⟨200, .car { otherCar with make := "Kia", updatedAt := 300 }⟩ ∧
    cars.getOne 1 5 (cars.put 2025 1 300 5 { make := some " Kia " } twoCarsDb).2 =
      (⟨200, .car { otherCar with make := "Kia", updatedAt := 300 }⟩,
        (cars.put 2025 1 300 5 { make := some " Kia " } twoCarsDb).2) ∧
    "Kia" ≠ " Kia " ∧ otherCar.updatedAt ≠ 300 := by
  refine ⟨by decide, by decide, by decide, by decide, by decide⟩

theorem status_ne_of_eq {r : Response × Db} {n m : Nat} {p : Payload} {db : Db}
    (h : r = (⟨n, p⟩, db)) (hnm : n ≠ m) : r.1.status ≠ m := by
  rw [h]; exact hnm

/-- C11, amended. Whenever `PUT /cars/:id`, `PUT /maintenance/:id` or `PUT /expenses/:id`
answers 200, the record `old` found for the caller is stored as the specified merge of `old`
and the body: a field absent from the body keeps its stored value, as do the id, the owner,
the car reference and `createdAt`; a provided field takes the provided value, with
surrounding whitespace removed from make, model, color, description, location and notes,
and with licensePlate and vin trimmed and upper-cased; `updatedAt` is the time of the request
when the merge differs from `old` in a field and keeps its stored value otherwise. The answer
carries that record and a following `GET /:id` returns it. -/
theorem partial_update (currentYear : Int) (caller : ObjectId) (now : Date) (id : ObjectId)
    (db : Db) :
    (∀ body : CarBody, (cars.put currentYear caller now id body db).1.status = 200 →
      ∃ old t, db.cars.find? (fun c => decide (c._id = id) && decide (c.user = caller)) =
          some old ∧
        t = (if cars.merged old body old.updatedAt = old then old.updatedAt else now) ∧
        (cars.put currentYear caller now id body db).1 =
          ⟨200, .car (cars.merged old body t)⟩ ∧
        cars.getOne caller id (cars.put currentYear caller now id body db).2 =
          (⟨200, .car (cars.merged old body t)⟩,
            (cars.put currentYear caller now id body db).2)) ∧
    (∀ body : MaintenanceBody, (maintenance.put caller now id body db).1.status = 200 →
      ∃ old t, db.maintenance.find?
          (fun m => decide (m._id = id) && decide (m.user = caller)) = some old ∧
        t = (if maintenance.merged old body old.updatedAt = old then old.updatedAt
          else now) ∧
        (maintenance.put caller now id body db).1 =
          ⟨200, .maintenance (populateMaintenance db (maintenance.merged old body t))⟩ ∧
        maintenance.getOne caller id (maintenance.put caller now id body db).2 =
          (⟨200, .maintenance (populateMaintenance db (maintenance.merged old body t))⟩,
            (maintenance.put caller now id body db).2)) ∧
    (∀ body : ExpenseBody, (expenses.put caller now id body db).1.status = 200 →
      ∃ old t, db.expenses.find?
          (fun e => decide (e._id = id) && decide (e.user = caller)) = some old ∧
        t = (if expenses.merged old body old.updatedAt = old then old.updatedAt else now) ∧
        (expenses.put caller now id body db).1 =
          ⟨200, .expense (populateExpense db (expenses.merged old body t))⟩ ∧
        expenses.getOne caller id (expenses.put caller now id body db).2 =
          (⟨200, .expense (populateExpense db (expenses.merged old body t))⟩,
            (expenses.put caller now id body db).2)) := by
  refine ⟨?_, ?_, ?_⟩
  · intro body hst
    rcases cars_put_cases currentYear caller now id body db with
      ⟨_, h⟩ | ⟨hv, ⟨_, h⟩ | ⟨old, hfind, ⟨_, h⟩ | ⟨_, heq, h⟩ | ⟨_, hne, h⟩⟩⟩
    · exact absurd hst (status_ne_of_eq h (by decide))
    · exact absurd hst (status_ne_of_eq h (by decide))
    · exact absurd hst (status_ne_of_eq h (by decide))
    · have hm : cars.merged old body old.updatedAt = old := by
        rw [← cars_assign_eq_merged currentYear old body hv]; exact heq
      refine ⟨old, old.updatedAt, hfind, (if_pos hm).symm, ?_, ?_⟩
      · rw [h, hm]
      · rw [h, hm]
        unfold cars.getOne; rw [hfind]
    · have hpo := List.find?_some hfind
      simp only [Bool.and_eq_true, decide_eq_true_eq] at hpo
      have hm : ({ cars.assign old (cars.sanitize body) with updatedAt := now } : Car) =
          cars.merged old body now := by
        rw [cars_assign_eq_merged currentYear old body hv]; rfl
      rw [cars_assign_eq_merged currentYear old body hv] at hne
      rw [hm] at h
      refine ⟨old, now, hfind, (if_neg hne).symm, ?_, ?_⟩
      · rw [h]
      · rw [h]
        unfold cars.getOne
        have := find?_replaceFirst_id (fun c : Car => c._id) (fun c => c.user) db.cars old
          (cars.merged old body now) id caller (List.mem_of_find?_eq_some hfind) hpo.1 hpo.1
          hpo.2
        simp only [this]
  · intro body hst
    rcases maintenance_put_cases caller now id body db with
      ⟨_, h⟩ | ⟨hv, ⟨_, h⟩ | ⟨old, hfind, ⟨heq, h⟩ | ⟨hne, _, h⟩ | ⟨_, _, h⟩⟩⟩
    · exact absurd hst (status_ne_of_eq h (by decide))
    · exact absurd hst (status_ne_of_eq h (by decide))
    · have hm : maintenance.merged old body old.updatedAt = old := by
        rw [← maintenance_assign_eq_merged old body hv]; exact heq
      refine ⟨old, old.updatedAt, hfind, (if_pos hm).symm, ?_, ?_⟩
      · rw [h, hm]
      · rw [h, hm]
        unfold maintenance.getOne; rw [hfind]
    · have hpo := List.find?_some hfind
      simp only [Bool.and_eq_true, decide_eq_true_eq] at hpo
      have hm : ({ maintenance.assign old (maintenance.sanitize body) with
          updatedAt := now } : Maintenance) = maintenance.merged old body now := by
        rw [maintenance_assign_eq_merged old body hv]; rfl
      rw [maintenance_assign_eq_merged old body hv] at hne
      rw [hm] at h
      refine ⟨old, now, hfind, (if_neg hne).symm, ?_, ?_⟩
      · rw [h]
      · rw [h]
        unfold maintenance.getOne
        have := find?_replaceFirst_id (fun c : Maintenance => c._id) (fun c => c.user)
          db.maintenance old (maintenance.merged old body now) id caller
          (List.mem_of_find?_eq_some hfind) hpo.1 hpo.1 hpo.2
        simp only [this]
        rfl
    · exact absurd hst (status_ne_of_eq h (by decide))
  · intro body hst
    rcases expenses_put_cases caller now id body db with
      ⟨_, h⟩ | ⟨hv, ⟨_, h⟩ | ⟨old, hfind, ⟨heq, h⟩ | ⟨hne, _, h⟩ | ⟨_, _, h⟩⟩⟩
    · exact absurd hst (status_ne_of_eq h (by decide))
    · exact absurd hst (status_ne_of_eq h (by decide))
    · have hm : expenses.merged old body old.updatedAt = old := by
        rw [← expenses_assign_eq_merged old body hv]; exact heq
      refine ⟨old, old.updatedAt, hfind, (if_pos hm).symm, ?_, ?_⟩
      · rw [h, hm]
      · rw [h, hm]
        unfold expenses.getOne; rw [hfind]
    · have hpo := List.find?_some hfind
      simp only [Bool.and_eq_true, decide_eq_true_eq] at hpo
      have hm : ({ expenses.assign old (expenses.sanitize body) with
          updatedAt := now } : Expense) = expenses.merged old body now := by
        rw [expenses_assign_eq_merged old body hv]; rfl
      rw [expenses_assign_eq_merged old body hv] at hne
      rw [hm] at h
      refine ⟨old, now, hfind, (if_neg hne).symm, ?_, ?_⟩
      · rw [h]
      · rw [h]
        unfold expenses.getOne
        have := find?_replaceFirst_id (fun c : Expense => c._id) (fun c => c.user)
          db.expenses old (expenses.merged old body now) id caller
          (List.mem_of_find?_eq_some hfind) hpo.1 hpo.1 hpo.2
        simp only [this]
        rfl
    · exact absurd hst (status_ne_of_eq h (by decide))

end CarVault

namespace CarVault

/-- Witness of C11 (amended): user 2 updates the sample car, maintenance record and expense
with bodies that carry one or two fields; each update changes a field, and `updatedAt` becomes
300. A body that carries the stored make changes nothing, and `updatedAt` stays 100. -/
theorem partial_update_witness :
    (∃ old t, sampleDb.cars.find? (fun c => decide (c._id = 0) && decide (c.user = 2)) =
        some old ∧
      t = (if cars.merged old { make := some " Kia ", vin := some "wvw 1" } old.updatedAt = old
        then old.updatedAt else 300) ∧
      (cars.put 2025 2 300 0 { make := some " Kia ", vin := some "wvw 1" } sampleDb).1 =
        ⟨200, .car (cars.merged old { make := some " Kia ", vin := some "wvw 1" } t)⟩ ∧
      cars.getOne 2 0
          (cars.put 2025 2 300 0 { make := some " Kia ", vin := some "wvw 1" } sampleDb).2 =
        (⟨200, .car (cars.merged old { make := some " Kia ", vin := some "wvw 1" } t)⟩,
          (cars.put 2025 2 300 0 { make := some " Kia ", vin := some "wvw 1" } sampleDb).2)) ∧
    (∃ old t, sampleDb.maintenance.find?
        (fun m => decide (m._id = 1) && decide (m.user = 2)) = some old ∧
      t = (if maintenance.merged old { cost := some 60, location := some " Garage " }
        old.updatedAt = old then old.updatedAt else 300) ∧
      (maintenance.put 2 300 1 { cost := some 60, location := some " Garage " } sampleDb).1 =
        ⟨200, .maintenance (populateMaintenance sampleDb
          (maintenance.merged old { cost := some 60, location := some " Garage " } t))⟩ ∧
      maintenance.getOne 2 1
          (maintenance.put 2 300 1 { cost := some 60, location := some " Garage " }
            sampleDb).2 =
        (⟨200, .maintenance (populateMaintenance sampleDb
            (maintenance.merged old { cost := some 60, location := some " Garage " } t))⟩,
          (maintenance.put 2 300 1 { cost := some 60, location := some " Garage " }
            sampleDb).2)) ∧
    (∃ old t, sampleDb.expenses.find?
        (fun e => decide (e._id = 2) && decide (e.user = 2)) = some old ∧
      t = (if expenses.merged old { amount := some 45 } old.updatedAt = old
        then old.updatedAt else 300) ∧
      (expenses.put 2 300 2 { amount := some 45 } sampleDb).1 =
        ⟨200, .expense (populateExpense sampleDb
          (expenses.merged old { amount := some 45 } t))⟩ ∧
      expenses.getOne 2 2 (expenses.put 2 300 2 { amount := some 45 } sampleDb).2 =
        (⟨200, .expense (populateExpense sampleDb
            (expenses.merged old { amount := some 45 } t))⟩,
          (expenses.put 2 300 2 { amount := some 45 } sampleDb).2)) ∧
    (cars.put 2025 2 300 0 { make := some " Kia ", vin := some "wvw 1" } sampleDb).1 =
      ⟨200, .car { sampleCar with make := "Kia", vin := some "WVW 1", updatedAt := 300 }⟩ ∧
    cars.put 2025 2 300 0 { make := some "Toyota" } sampleDb = (⟨200, .car sampleCar⟩, sampleDb) ∧
    sampleCar.updatedAt = 100 :=
  ⟨(partial_update 2025 2 300 0 sampleDb).1 { make := some " Kia ", vin := some "wvw 1" }
      (by decide),
    (partial_update 2025 2 300 1 sampleDb).2.1 { cost := some 60, location := some " Garage " }
      (by decide),
    (partial_update 2025 2 300 2 sampleDb).2.2 { amount := some 45 } (by decide),
    by decide, by decide, by decide⟩

end CarVault

namespace CarVault

/-! ## C12: validation and lookup on update -/

/-- C12, as stated, fails: user 1 sends `PUT /cars/0` (a car of user 2) and `PUT /cars/7`
(no such car) with the body `{ make: "  " }`. No car with those ids belongs to user 1, yet
the answer is the validation error 400, not 404. -/
theorem update_lookup_first_counterexample :
    (¬ ∃ c ∈ sampleDb.cars, c._id = 0 ∧ c.user = 1) ∧
    (¬ ∃ c ∈ sampleDb.cars, c._id = 7 ∧ c.user = 1) ∧
    cars.put 2025 1 300 0 { make := some "  " } sampleDb =
      (⟨400, .errors ["Make cannot be empty"]⟩, sampleDb) ∧
    cars.put 2025 1 300 7 { make := some "  " } sampleDb =
      (⟨400, .errors ["Make cannot be empty"]⟩, sampleDb) ∧
    (cars.put 2025 1 300 0 { make := some "  " } sampleDb).1.status ≠ 404 := by
  refine ⟨by decide, by decide, by decide, by decide, by decide⟩

/-- C12, amended. On `PUT /cars/:id`, `PUT /maintenance/:id` and `PUT /expenses/:id` field
validation comes first: a body that fails it is answered 400 with the validation errors,
whatever the id and the database; a body that passes it, with an id that is not the id of a
record owned by the caller, is answered 404 with the not-found message. Nothing is written
in either case. -/
theorem update_validation_first (currentYear : Int) (caller : ObjectId) (now : Date)
    (id : ObjectId) (db : Db) :
    (∀ body : CarBody,
      (cars.putErrors currentYear body ≠ [] →
        cars.put currentYear caller now id body db =
          (⟨400, .errors (cars.putErrors currentYear body)⟩, db)) ∧
      (cars.putErrors currentYear body = [] →
        (¬ ∃ c ∈ db.cars, c._id = id ∧ c.user = caller) →
        cars.put currentYear caller now id body db =
          (⟨404, .message "Car not found"⟩, db))) ∧
    (∀ body : MaintenanceBody,
      (maintenance.putErrors body ≠ [] →
        maintenance.put caller now id body db =
          (⟨400, .errors (maintenance.putErrors body)⟩, db)) ∧
      (maintenance.putErrors body = [] →
        (¬ ∃ m ∈ db.maintenance, m._id = id ∧ m.user = caller) →
        maintenance.put caller now id body db =
          (⟨404, .message "Maintenance record not found"⟩, db))) ∧
    (∀ body : ExpenseBody,
      (expenses.putErrors body ≠ [] →
        expenses.put caller now id body db =
          (⟨400, .errors (expenses.putErrors body)⟩, db)) ∧
      (expenses.putErrors body = [] →
        (¬ ∃ e ∈ db.expenses, e._id = id ∧ e.user = caller) →
        expenses.put caller now id body db =
          (⟨404, .message "Expense not found"⟩, db))) := by
  refine ⟨fun body => ⟨?_, ?_⟩, fun body => ⟨?_, ?_⟩, fun body => ⟨?_, ?_⟩⟩
  · intro hv
    unfold cars.put
    simp only [ne_eq, hv, not_false_eq_true, if_true]
  · intro hv hnone
    exact cars_put_none currentYear caller now id body db hv
      ((find?_scoped_eq_none_iff (fun c : Car => c._id) (fun c => c.user) db.cars id caller).2
        hnone)
  · intro hv
    unfold maintenance.put
    simp only [ne_eq, hv, not_false_eq_true, if_true]
  · intro hv hnone
    exact maintenance_put_none caller now id body db hv
      ((find?_scoped_eq_none_iff (fun c : Maintenance => c._id) (fun c => c.user)
        db.maintenance id caller).2 hnone)
  · intro hv
    unfold expenses.put
    simp only [ne_eq, hv, not_false_eq_true, if_true]
  · intro hv hnone
    exact expenses_put_none caller now id body db hv
      ((find?_scoped_eq_none_iff (fun c : Expense => c._id) (fun c => c.user)
        db.expenses id caller).2 hnone)

/-- Witness of C12 (amended): user 1 addresses records of user 2, first with bodies that
fail validation, then with valid ones. -/
theorem update_validation_first_witness :
    maintenance.put 1 300 1 { cost := some (-1) } sampleDb =
      (⟨400, .errors ["Cost must be a positive number"]⟩, sampleDb) ∧
    expenses.put 1 300 2 { category := some "Snacks" } sampleDb =
      (⟨400, .errors ["Valid expense category is required"]⟩, sampleDb) ∧
    cars.put 2025 1 300 0 { make := some "Kia" } sampleDb =
      (⟨404, .message "Car not found"⟩, sampleDb) ∧
    maintenance.put 1 300 1 { cost := some 1 } sampleDb =
      (⟨404, .message "Maintenance record not found"⟩, sampleDb) := by
  have h := update_validation_first 2025 1 300
  exact ⟨((h 1 sampleDb).2.1 { cost := some (-1) }).1 (by decide),
    ((h 2 sampleDb).2.2 { category := some "Snacks" }).1 (by decide),
    ((h 0 sampleDb).1 { make := some "Kia" }).2 (by decide) (by decide),
    ((h 1 sampleDb).2.1 { cost := some 1 }).2 (by decide) (by decide)⟩

/-! ## C13: validation comes first on create -/

/-- C13. A `POST /maintenance`, `POST /expenses` or `POST /cars` request whose body fails
field validation is answered 400 with the validation errors and writes nothing, in every
database: whether or not the referenced car exists or belongs to the caller, and whether or
not the plate is held by a stored car. -/
theorem create_validation_first (currentYear : Int) (caller : ObjectId) (now : Date)
    (db : Db) :
    (∀ body : MaintenanceBody, maintenance.postErrors body ≠ [] →
      maintenance.post caller now body db =
        (⟨400, .errors (maintenance.postErrors body)⟩, db)) ∧
    (∀ body : ExpenseBody, expenses.postErrors body ≠ [] →
      expenses.post caller now body db = (⟨400, .errors (expenses.postErrors body)⟩, db)) ∧
    (∀ body : CarBody, cars.postErrors currentYear body ≠ [] →
      cars.post currentYear caller now body db =
        (⟨400, .errors (cars.postErrors currentYear body)⟩, db)) := by
  refine ⟨fun body hv => ?_, fun body hv => ?_, fun body hv => ?_⟩
  · unfold maintenance.post
    simp only [ne_eq, hv, not_false_eq_true, if_true]
  · unfold expenses.post
    simp only [ne_eq, hv, not_false_eq_true, if_true]
  · unfold cars.post
    simp only [ne_eq, hv, not_false_eq_true, if_true]

/-- Witness of C13: a maintenance body with a negative cost for the car of another user, for
an absent car and for the own car of the caller; a car body with year 1800 and the plate of
a stored car. -/
theorem create_validation_first_witness :
    maintenance.post 1 300
        { car := some 0, type := some "Other", description := some "x", date := some 1,
          mileage := some 1, cost := some (-5) } twoCarsDb =
      (⟨400, .errors ["Cost must be a positive number"]⟩, twoCarsDb) ∧
    maintenance.post 1 300
        { car := some 9, type := some "Other", description := some "x", date := some 1,
          mileage := some 1, cost := some (-5) } twoCarsDb =
      (⟨400, .errors ["Cost must be a positive number"]⟩, twoCarsDb) ∧
    maintenance.post 1 300
        { car := some 5, type := some "Other", description := some "x", date := some 1,
          mileage := some 1, cost := some (-5) } twoCarsDb =
      (⟨400, .errors ["Cost must be a positive number"]⟩, twoCarsDb) ∧
    cars.post 2025 1 300 { sampleCarBody with year := some 1800 } twoCarsDb =
      (⟨400, .errors ["Valid year is required"]⟩, twoCarsDb) := by
  have h := create_validation_first 2025 1 300 twoCarsDb
  exact ⟨h.1 _ (by decide), h.1 _ (by decide), h.1 _ (by decide), h.2.2 _ (by decide)⟩

end CarVault

namespace CarVault

/-! ## C14: nothing is written on an error -/

theorem status_eq_of_eq {r : Response × Db} {n : Nat} {p : Payload} {db : Db}
    (h : r = (⟨n, p⟩, db)) : r.1.status = n := by
  rw [h]

theorem snd_eq_of_eq {r : Response × Db} {q : Response} {db : Db} (h : r = (q, db)) :
    r.2 = db := by
  rw [h]

/-- C14. A create or update request on a Car, Maintenance or Expense that is answered 400 or
404 returns the database it was given: the three collections are as they were. -/
theorem errors_write_nothing (currentYear : Int) (caller : ObjectId) (now : Date) (db : Db) :
    (∀ body : CarBody,
      (cars.post currentYear caller now body db).1.status = 400 ∨
        (cars.post currentYear caller now body db).1.status = 404 →
      (cars.post currentYear caller now body db).2 = db) ∧
    (∀ body : MaintenanceBody,
      (maintenance.post caller now body db).1.status = 400 ∨
        (maintenance.post caller now body db).1.status = 404 →
      (maintenance.post caller now body db).2 = db) ∧
    (∀ body : ExpenseBody,
      (expenses.post caller now body db).1.status = 400 ∨
        (expenses.post caller now body db).1.status = 404 →
      (expenses.post caller now body db).2 = db) ∧
    (∀ (id : ObjectId) (body : CarBody),
      (cars.put currentYear caller now id body db).1.status = 400 ∨
        (cars.put currentYear caller now id body db).1.status = 404 →
      (cars.put currentYear caller now id body db).2 = db) ∧
    (∀ (id : ObjectId) (body : MaintenanceBody),
      (maintenance.put caller now id body db).1.status = 400 ∨
        (maintenance.put caller now id body db).1.status = 404 →
      (maintenance.put caller now id body db).2 = db) ∧
    (∀ (id : ObjectId) (body : ExpenseBody),
      (expenses.put caller now id body db).1.status = 400 ∨
        (expenses.put caller now id body db).1.status = 404 →
      (expenses.put caller now id body db).2 = db) := by
  refine ⟨?_, ?_, ?_, ?_, ?_, ?_⟩
  · intro body hst
    rcases cars_post_cases currentYear caller now body db with ⟨_, h⟩ | ⟨car, _, _, h⟩
    · exact h
    · have := status_eq_of_eq h
      omega
  · intro body hst
    rcases maintenance_post_cases caller now body db with ⟨_, h⟩ | ⟨m, _, _, _, _, h⟩
    · exact h
    · have := status_eq_of_eq h
      omega
  · intro body hst
    rcases expenses_post_cases caller now body db with ⟨_, h⟩ | ⟨e, _, _, _, _, h⟩
    · exact h
    · have := status_eq_of_eq h
      omega
  · intro id body hst
    rcases cars_put_cases currentYear caller now id body db with
      ⟨_, h⟩ | ⟨_, ⟨_, h⟩ | ⟨old, _, ⟨_, h⟩ | ⟨_, _, h⟩ | ⟨_, _, h⟩⟩⟩
    · exact snd_eq_of_eq h
    · exact snd_eq_of_eq h
    · exact snd_eq_of_eq h
    · exact snd_eq_of_eq h
    · have := status_eq_of_eq h
      omega
  · intro id body hst
    rcases maintenance_put_cases caller now id body db with
      ⟨_, h⟩ | ⟨_, ⟨_, h⟩ | ⟨old, _, ⟨_, h⟩ | ⟨_, _, h⟩ | ⟨_, _, h⟩⟩⟩
    · exact snd_eq_of_eq h
    · exact snd_eq_of_eq h
    · exact snd_eq_of_eq h
    · have := status_eq_of_eq h
      omega
    · exact snd_eq_of_eq h
  · intro id body hst
    rcases expenses_put_cases caller now id body db with
      ⟨_, h⟩ | ⟨_, ⟨_, h⟩ | ⟨old, _, ⟨_, h⟩ | ⟨_, _, h⟩ | ⟨_, _, h⟩⟩⟩
    · exact snd_eq_of_eq h
    · exact snd_eq_of_eq h
    · exact snd_eq_of_eq h
    · have := status_eq_of_eq h
      omega
    · exact snd_eq_of_eq h

/-- Witness of C14: a duplicate plate on create, a foreign car on a maintenance create and a
plate conflict on update leave the database as it was. -/
theorem errors_write_nothing_witness :
    (cars.post 2025 1 300 sampleCarBody twoCarsDb).2 = twoCarsDb ∧
    (maintenance.post 1 300
      { car := some 0, type := some "Other", description := some "x", date := some 1,
        mileage := some 1, cost := some 5 } twoCarsDb).2 = twoCarsDb ∧
    (cars.put 2025 1 300 5 { licensePlate := some "abc123" } twoCarsDb).2 = twoCarsDb := by
  have h := errors_write_nothing 2025 1 300 twoCarsDb
  exact ⟨h.1 sampleCarBody (Or.inl (by decide)), h.2.1 _ (Or.inr (by decide)),
    h.2.2.2.1 5 { licensePlate := some "abc123" } (Or.inl (by decide))⟩

end CarVault

namespace CarVault

/-! ## C15: deleting a car -/

theorem eraseP_eq_filter {α : Type} (p : α → Bool) :
    ∀ l : List α, l.Pairwise (fun a b => ¬ (p a = true ∧ p b = true)) →
      l.eraseP p = l.filter (fun x => !p x)
  | [], _ => rfl
  | x :: xs, h => by
    rw [List.pairwise_cons] at h
    by_cases hx : p x = true
    · rw [List.eraseP_cons_of_pos hx, List.filter_cons_of_neg (by simp [hx])]
      symm
      rw [List.filter_eq_self]
      intro y hy
      cases hpy : p y with
      | false => rfl
      | true => exact absurd ⟨hx, hpy⟩ (h.1 y hy)
    · rw [List.eraseP_cons_of_neg hx, List.filter_cons_of_pos (by simpa using hx),
        eraseP_eq_filter p xs h.2]

theorem cars_delete_found (caller id : ObjectId) (db : Db)
    (h : ∃ c ∈ db.cars, c._id = id ∧ c.user = caller) :
    cars.delete caller id db =
      (⟨200, .message "Car deleted successfully"⟩,
        { db with cars := db.cars.eraseP (fun c => decide (c._id = id)) }) := by
  cases hf : db.cars.find? (fun c => decide (c._id = id) && decide (c.user = caller)) with
  | none =>
    exact absurd h ((find?_scoped_eq_none_iff (fun c : Car => c._id) (fun c => c.user)
      db.cars id caller).1 hf)
  | some c =>
    unfold cars.delete
    rw [hf]

theorem delete_car_aux (caller id : ObjectId) (db : Db)
    (hown : ∃ c ∈ db.cars, c._id = id ∧ c.user = caller)
    (hids : db.cars.Pairwise (fun a b => a._id ≠ b._id)) :
    (cars.delete caller id db).1 = ⟨200, .message "Car deleted successfully"⟩ ∧
    (cars.delete caller id db).2.cars = db.cars.filter (fun c => c._id ≠ id) ∧
    (∀ c, c ∈ (cars.delete caller id db).2.cars ↔ c ∈ db.cars ∧ c._id ≠ id) ∧
    (cars.delete caller id db).2.maintenance = db.maintenance ∧
    (cars.delete caller id db).2.expenses = db.expenses := by
  have hpair : db.cars.Pairwise
      (fun a b => ¬ ((decide (a._id = id)) = true ∧ (decide (b._id = id)) = true)) :=
    hids.imp (fun {a b} hab hboth => by
      simp only [decide_eq_true_eq] at hboth
      exact hab (hboth.1.trans hboth.2.symm))
  have hcars : (cars.delete caller id db).2.cars = db.cars.filter (fun c => c._id ≠ id) := by
    rw [cars_delete_found caller id db hown]
    show db.cars.eraseP (fun c => decide (c._id = id)) = _
    rw [eraseP_eq_filter _ db.cars hpair]
    congr 1
    funext c
    simp
  refine ⟨by rw [cars_delete_found caller id db hown], hcars, fun c => ?_,
    by rw [cars_delete_found caller id db hown], by rw [cars_delete_found caller id db hown]⟩
  rw [hcars]
  simp

/-- C15. A `DELETE /cars/:id` on a car owned by the caller, in a database whose car ids are
unique, answers 200 and removes exactly the cars with that id: the cars collection becomes
the stored cars with another id, in their order, and the maintenance and expense collections
are the same lists as before. On an id that is not the id of a car of the caller the answer
is 404 'Car not found' and the database is unchanged. -/
theorem delete_car (caller id : ObjectId) (db : Db) :
    ((∃ c ∈ db.cars, c._id = id ∧ c.user = caller) →
      db.cars.Pairwise (fun a b => a._id ≠ b._id) →
      (cars.delete caller id db).1 = ⟨200, .message "Car deleted successfully"⟩ ∧
      (cars.delete caller id db).2.cars = db.cars.filter (fun c => c._id ≠ id) ∧
      (∀ c, c ∈ (cars.delete caller id db).2.cars ↔ c ∈ db.cars ∧ c._id ≠ id) ∧
      (cars.delete caller id db).2.maintenance = db.maintenance ∧
      (cars.delete caller id db).2.expenses = db.expenses) ∧
    ((¬ ∃ c ∈ db.cars, c._id = id ∧ c.user = caller) →
      cars.delete caller id db = (⟨404, .message "Car not found"⟩, db)) := by
  constructor
  · intro hown hids
    exact delete_car_aux caller id db hown hids
  · intro hnone
    exact cars_delete_none caller id db
      ((find?_scoped_eq_none_iff (fun c : Car => c._id) (fun c => c.user) db.cars id caller).2
        hnone)

/-- Witness of C15: user 2 deletes car 0 of the sample database, whose maintenance record
and expense stay; user 1 is answered 404 for the same car. -/
theorem delete_car_witness :
    ((cars.delete 2 0 sampleDb).1 = ⟨200, .message "Car deleted successfully"⟩ ∧
      (cars.delete 2 0 sampleDb).2.cars = sampleDb.cars.filter (fun c => c._id ≠ 0) ∧
      (∀ c, c ∈ (cars.delete 2 0 sampleDb).2.cars ↔ c ∈ sampleDb.cars ∧ c._id ≠ 0) ∧
      (cars.delete 2 0 sampleDb).2.maintenance = [sampleMaintenance] ∧
      (cars.delete 2 0 sampleDb).2.expenses = [sampleExpense]) ∧
    cars.delete 1 0 sampleDb = (⟨404, .message "Car not found"⟩, sampleDb) :=
  ⟨(delete_car 2 0 sampleDb).1 ⟨sampleCar, by decide, rfl, rfl⟩ (by decide),
    (delete_car 1 0 sampleDb).2 (by decide)⟩

end CarVault

namespace CarVault

/-! ## C16: records of a deleted car -/

/-- C16, as stated, fails on its last part: user 2 owns car 0 and maintenance record 1 on
it. After `DELETE /cars/0`, `GET /maintenance/1` answers 200 with a record whose `car` is
null: the populated path no longer resolves, so the response does not carry the id of the
deleted car, which only the stored record keeps. -/
theorem orphan_response_counterexample :
    (cars.delete 2 0 sampleDb).1.status = 200 ∧
    ∃ r, maintenance.getOne 2 1 (cars.delete 2 0 sampleDb).2 =
        (⟨200, .maintenance r⟩, (cars.delete 2 0 sampleDb).2) ∧
      r.car = none ∧
      ∃ m ∈ (cars.delete 2 0 sampleDb).2.maintenance, m._id = 1 ∧ m.car = 0 :=
  ⟨by decide, populateMaintenance (cars.delete 2 0 sampleDb).2 sampleMaintenance, by decide,
    by decide, sampleMaintenance, by decide, by decide, by decide⟩

theorem populateCar_eq_none (db : Db) (id : ObjectId) (h : ∀ c ∈ db.cars, c._id ≠ id) :
    populateCar db id = none := by
  unfold populateCar
  have : db.cars.find? (fun c => decide (c._id = id)) = none := by
    rw [List.find?_eq_none]
    intro c hc
    simpa using h c hc
  rw [this]
  rfl

/-- C16, amended. Let the caller own a car `c1` and a maintenance record `m1` on it, ids
being unique in both collections. `GET /maintenance/car/:c1` answers 200 with a list that
contains `m1` in populated form. After the caller deletes `c1`, `GET /maintenance/car/:c1`
answers 404 'Car not found', while `GET /maintenance/:m1` still answers 200 with the record
in populated form, whose `car` is null; the stored record is unchanged and keeps the id of
the deleted car. -/
theorem orphaned_maintenance (caller : ObjectId) (db : Db) (c1 : Car) (m1 : Maintenance)
    (hc : c1 ∈ db.cars) (hcu : c1.user = caller)
    (hcids : db.cars.Pairwise (fun a b => a._id ≠ b._id))
    (hm : m1 ∈ db.maintenance) (hmc : m1.car = c1._id) (hmu : m1.user = caller)
    (hmids : db.maintenance.Pairwise (fun a b => a._id ≠ b._id)) :
    (∃ l, maintenance.getByCar caller c1._id db = (⟨200, .maintenanceList l⟩, db) ∧
      populateMaintenance db m1 ∈ l) ∧
    (cars.delete caller c1._id db).1 = ⟨200, .message "Car deleted successfully"⟩ ∧
    maintenance.getByCar caller c1._id (cars.delete caller c1._id db).2 =
      (⟨404, .message "Car not found"⟩, (cars.delete caller c1._id db).2) ∧
    maintenance.getOne caller m1._id (cars.delete caller c1._id db).2 =
      (⟨200, .maintenance (populateMaintenance (cars.delete caller c1._id db).2 m1)⟩,
        (cars.delete caller c1._id db).2) ∧
    (populateMaintenance (cars.delete caller c1._id db).2 m1).car = none ∧
    m1 ∈ (cars.delete caller c1._id db).2.maintenance ∧ m1.car = c1._id := by
  have hown : ∃ c ∈ db.cars, c._id = c1._id ∧ c.user = caller := ⟨c1, hc, rfl, hcu⟩
  obtain ⟨hresp, _, hmem, hmaint, _⟩ := (delete_car_aux caller c1._id db hown hcids)
  have hgone : ∀ c ∈ (cars.delete caller c1._id db).2.cars, c._id ≠ c1._id :=
    fun c hcm => ((hmem c).1 hcm).2
  refine ⟨?_, hresp, ?_, ?_, ?_, ?_, hmc⟩
  · obtain ⟨l, hl, hperm, _, _⟩ :=
      maintenance_listing_spec db (db.maintenance.filter (fun m => m.car = c1._id))
    have hfind := find?_scoped_of_mem (fun c : Car => c._id) (fun c => c.user) db.cars c1 hc
      hcids
    simp only [hcu] at hfind
    refine ⟨l.map (populateMaintenance db), ?_, ?_⟩
    · unfold maintenance.getByCar
      rw [hfind]
      simp only
      rw [hl]
    · apply List.mem_map_of_mem
      rw [hperm.mem_iff]
      simp [hm, hmc]
  · unfold maintenance.getByCar
    have : (cars.delete caller c1._id db).2.cars.find?
        (fun c => decide (c._id = c1._id) && decide (c.user = caller)) = none :=
      find?_scoped_absent (fun c : Car => c._id) (fun c => c.user) _ c1._id caller hgone
    rw [this]
  · unfold maintenance.getOne
    have hfind := find?_scoped_of_mem (fun c : Maintenance => c._id) (fun c => c.user)
      db.maintenance m1 hm hmids
    simp only [hmu] at hfind
    rw [hmaint, hfind]
  · show populateCar (cars.delete caller c1._id db).2 m1.car = none
    rw [hmc]
    exact populateCar_eq_none _ _ hgone
  · rw [hmaint]; exact hm

end CarVault

namespace CarVault

/-- Witness of C16 (amended): user 2, car 0 and maintenance record 1 of the sample
database. -/
theorem orphaned_maintenance_witness :
    (∃ l, maintenance.getByCar 2 0 sampleDb = (⟨200, .maintenanceList l⟩, sampleDb) ∧
      populateMaintenance sampleDb sampleMaintenance ∈ l) ∧
    (cars.delete 2 0 sampleDb).1 = ⟨200, .message "Car deleted successfully"⟩ ∧
    maintenance.getByCar 2 0 (cars.delete 2 0 sampleDb).2 =
      (⟨404, .message "Car not found"⟩, (cars.delete 2 0 sampleDb).2) ∧
    maintenance.getOne 2 1 (cars.delete 2 0 sampleDb).2 =
      (⟨200, .maintenance (populateMaintenance (cars.delete 2 0 sampleDb).2
          sampleMaintenance)⟩, (cars.delete 2 0 sampleDb).2) ∧
    (populateMaintenance (cars.delete 2 0 sampleDb).2 sampleMaintenance).car = none ∧
    sampleMaintenance ∈ (cars.delete 2 0 sampleDb).2.maintenance ∧
    sampleMaintenance.car = sampleCar._id :=
  orphaned_maintenance 2 sampleDb sampleCar sampleMaintenance (by decide) rfl (by decide)
    (by decide) rfl rfl (by decide)

end CarVault

namespace CarVault

/-! ## C17: the totals of the pages -/

theorem foldl_add_eq_sum {α : Type} (f : α → ℚ) :
    ∀ (l : List α) (a : ℚ), l.foldl (fun sum r => sum + f r) a = a + (l.map f).sum
  | [], a => by simp
  | x :: xs, a => by
    rw [List.foldl_cons, foldl_add_eq_sum f xs, List.map_cons, List.sum_cons, add_assoc]

/-- C17. The totals `totalMaintenanceCost` and `totalExpenses` of `CarDetail` and
`totalExpenses` of `Expenses` are 0 on the empty list, equal the sum of `cost` (of `amount`)
over the list, and have the same value on every permutation of a list. -/
theorem cost_totals :
    (CarDetail.totalMaintenanceCost [] = 0 ∧
      (∀ l, CarDetail.totalMaintenanceCost l = (l.map (fun r => r.cost)).sum) ∧
      ∀ l₁ l₂, l₁.Perm l₂ →
        CarDetail.totalMaintenanceCost l₁ = CarDetail.totalMaintenanceCost l₂) ∧
    (CarDetail.totalExpenses [] = 0 ∧
      (∀ l, CarDetail.totalExpenses l = (l.map (fun e => e.amount)).sum) ∧
      ∀ l₁ l₂, l₁.Perm l₂ → CarDetail.totalExpenses l₁ = CarDetail.totalExpenses l₂) ∧
    (Expenses.totalExpenses [] = 0 ∧
      (∀ l, Expenses.totalExpenses l = (l.map (fun e => e.amount)).sum) ∧
      ∀ l₁ l₂, l₁.Perm l₂ → Expenses.totalExpenses l₁ = Expenses.totalExpenses l₂) := by
  have hm : ∀ l : List PopulatedMaintenance,
      CarDetail.totalMaintenanceCost l = (l.map (fun r => r.cost)).sum := by
    intro l
    unfold CarDetail.totalMaintenanceCost
    rw [foldl_add_eq_sum (fun r : PopulatedMaintenance => r.cost), zero_add]
  have he : ∀ l : List PopulatedExpense,
      CarDetail.totalExpenses l = (l.map (fun e => e.amount)).sum := by
    intro l
    unfold CarDetail.totalExpenses
    rw [foldl_add_eq_sum (fun e : PopulatedExpense => e.amount), zero_add]
  have hx : ∀ l : List PopulatedExpense,
      Expenses.totalExpenses l = (l.map (fun e => e.amount)).sum := by
    intro l
    unfold Expenses.totalExpenses
    rw [foldl_add_eq_sum (fun e : PopulatedExpense => e.amount), zero_add]
  refine ⟨⟨rfl, hm, fun l₁ l₂ hp => ?_⟩, ⟨rfl, he, fun l₁ l₂ hp => ?_⟩,
    ⟨rfl, hx, fun l₁ l₂ hp => ?_⟩⟩
  · rw [hm, hm]; exact (hp.map _).sum_eq
  · rw [he, he]; exact (hp.map _).sum_eq
  · rw [hx, hx]; exact (hp.map _).sum_eq

/-- Witness of C17: two maintenance records of the sample car in both orders. -/
theorem cost_totals_witness :
    CarDetail.totalMaintenanceCost
        [populateMaintenance sampleDb sampleMaintenance,
         populateMaintenance sampleDb { sampleMaintenance with _id := 8, cost := 1 / 2 }] =
      CarDetail.totalMaintenanceCost
        [populateMaintenance sampleDb { sampleMaintenance with _id := 8, cost := 1 / 2 },
         populateMaintenance sampleDb sampleMaintenance] :=
  cost_totals.1.2.2 _ _ (List.Perm.swap _ _ _)

end CarVault

namespace CarVault

/-! ## C18: the summary by category -/

theorem insertionSort_desc_sorted_rat {α : Type} (key : α → ℚ) (l : List α) :
    (l.insertionSort (fun a b => key a ≥ key b)).Sorted (fun a b => key a ≥ key b) := by
  haveI : IsTotal α (fun a b => key a ≥ key b) := ⟨fun a b => le_total (key b) (key a)⟩
  haveI : IsTrans α (fun a b => key a ≥ key b) := ⟨fun a b c hab hbc => le_trans hbc hab⟩
  exact List.sorted_insertionSort _ l

theorem sum_map_ite_of_nodup {β : Type} [AddCommMonoid β] (k0 : String) (b : β) :
    ∀ ks : List String, ks.Nodup → k0 ∈ ks →
      (ks.map (fun k => if k0 = k then b else 0)).sum = b
  | [], _, h => by simp at h
  | k :: ks, hnd, hmem => by
    rw [List.nodup_cons] at hnd
    rw [List.map_cons, List.sum_cons]
    by_cases hk : k0 = k
    · subst hk
      have hzero : (ks.map (fun k => if k0 = k then b else 0)).sum = 0 := by
        apply List.sum_eq_zero
        intro x hx
        obtain ⟨k, hk, rfl⟩ := List.mem_map.1 hx
        have : k0 ≠ k := fun h => hnd.1 (h ▸ hk)
        simp [this]
      rw [if_pos rfl, hzero, add_zero]
    · have hmem' : k0 ∈ ks := by
        rcases List.mem_cons.1 hmem with h | h
        · exact absurd h hk
        · exact h
      rw [if_neg hk, zero_add, sum_map_ite_of_nodup k0 b ks hnd.2 hmem']

/-- Summing a quantity group by group gives the sum over the whole list, when the keys are
distinct and every element falls in one of the groups. -/
theorem sum_by_group {α β : Type} [AddCommMonoid β] (cat : α → String) (f : α → β)
    (ks : List String) (hnd : ks.Nodup) :
    ∀ es : List α, (∀ e ∈ es, cat e ∈ ks) →
      (ks.map (fun k => ((es.filter (fun e => decide (cat e = k))).map f).sum)).sum =
        (es.map f).sum
  | [], _ => by simp
  | e :: es, hall => by
    have ih := sum_by_group cat f ks hnd es (fun x hx => hall x (List.mem_cons_of_mem _ hx))
    have hsplit : ∀ k, (((e :: es).filter (fun e => decide (cat e = k))).map f).sum =
        (if cat e = k then f e else 0) +
          ((es.filter (fun e => decide (cat e = k))).map f).sum := by
      intro k
      by_cases hk : cat e = k
      · rw [List.filter_cons_of_pos (by simpa using hk), List.map_cons, List.sum_cons,
          if_pos hk]
      · rw [List.filter_cons_of_neg (by simpa using hk), if_neg hk, zero_add]
    simp only [hsplit]
    rw [List.sum_map_add, ih, sum_map_ite_of_nodup (cat e) (f e) ks hnd
      (hall e (List.mem_cons_self _ _)), List.map_cons, List.sum_cons]

theorem length_eq_sum_ones {α : Type} (l : List α) : l.length = (l.map (fun _ => 1)).sum := by
  induction l with
  | nil => rfl
  | cons x xs ih => rw [List.length_cons, List.map_cons, List.sum_cons, ← ih, Nat.add_comm]

theorem groupByCategory_perm (es : List Expense) :
    (expenses.groupByCategory es).Perm
      (((es.map (fun e => e.category)).dedup).map (fun k =>
        { _id := k
          total := ((es.filter (fun e => e.category = k)).map (fun e => e.amount)).sum
          count := (es.filter (fun e => e.category = k)).length : CategorySummary })) :=
  List.perm_insertionSort _ _

/-- C18, amended. `GET /expenses/summary/categories` answers 200 with a list of groups such
that: the categories of the groups are pairwise distinct and are exactly the categories that
occur among the expenses of the caller; over exact numbers the `total` of a group is the sum
of `amount`, and its `count` is the number of the expenses of the caller in that category;
the groups are in non-increasing order of `total`; the counts add up to the number of
expenses of the caller and, over exact numbers, the totals to the sum of their amounts. -/
theorem summary_by_category (caller : ObjectId) (db : Db) :
    ∃ groups, expenses.getSummary caller db = (⟨200, .summary groups⟩, db) ∧
      (groups.map (fun g => g._id)).Nodup ∧
      (∀ k, k ∈ groups.map (fun g => g._id) ↔
        ∃ e ∈ db.expenses, e.user = caller ∧ e.category = k) ∧
      (∀ g ∈ groups,
        g.total = ((db.expenses.filter
            (fun e => e.category = g._id && e.user = caller)).map (fun e => e.amount)).sum ∧
        g.count = (db.expenses.filter
            (fun e => e.category = g._id && e.user = caller)).length) ∧
      groups.Sorted (fun a b => a.total ≥ b.total) ∧
      (groups.map (fun g => g.count)).sum =
        (db.expenses.filter (fun e => e.user = caller)).length ∧
      (groups.map (fun g => g.total)).sum =
        ((db.expenses.filter (fun e => e.user = caller)).map (fun e => e.amount)).sum := by
  refine ⟨expenses.groupByCategory (db.expenses.filter (fun e => e.user = caller)), rfl, ?_⟩
  have hperm := groupByCategory_perm (db.expenses.filter (fun e => e.user = caller))
  have hkeys : ((((db.expenses.filter (fun e => e.user = caller)).map
      (fun e => e.category)).dedup).map (fun k =>
        ({ _id := k
           total := (((db.expenses.filter (fun e => e.user = caller)).filter
             (fun e => e.category = k)).map (fun e => e.amount)).sum
           count := ((db.expenses.filter (fun e => e.user = caller)).filter
             (fun e => e.category = k)).length } : CategorySummary))).map (fun g => g._id) =
      ((db.expenses.filter (fun e => e.user = caller)).map (fun e => e.category)).dedup := by
    rw [List.map_map]
    exact List.map_id _
  have hmemk : ∀ k, k ∈ ((db.expenses.filter (fun e => e.user = caller)).map
      (fun e => e.category)).dedup ↔ ∃ e ∈ db.expenses, e.user = caller ∧ e.category = k := by
    intro k
    rw [List.mem_dedup, List.mem_map]
    constructor
    · rintro ⟨e, he, hk⟩
      rw [List.mem_filter] at he
      exact ⟨e, he.1, by simpa using he.2, hk⟩
    · rintro ⟨e, he, hu, hk⟩
      exact ⟨e, List.mem_filter.2 ⟨he, by simpa using hu⟩, hk⟩
  have hall : ∀ e ∈ db.expenses.filter (fun e => e.user = caller),
      e.category ∈ ((db.expenses.filter (fun e => e.user = caller)).map
        (fun e => e.category)).dedup := by
    intro e he
    rw [List.mem_dedup]
    exact List.mem_map_of_mem _ he
  refine ⟨?_, ?_, ?_, ?_, ?_, ?_⟩
  · rw [(hperm.map (fun g => g._id)).nodup_iff, hkeys]
    exact List.nodup_dedup _
  · intro k
    rw [(hperm.map (fun g => g._id)).mem_iff, hkeys]
    exact hmemk k
  · intro g hg
    rw [hperm.mem_iff, List.mem_map] at hg
    obtain ⟨k, _, rfl⟩ := hg
    constructor
    · show ((List.filter _ (List.filter _ db.expenses)).map _).sum = _
      rw [List.filter_filter]
    · show (List.filter _ (List.filter _ db.expenses)).length = _
      rw [List.filter_filter]
  · exact insertionSort_desc_sorted_rat (fun g : CategorySummary => g.total) _
  · rw [(hperm.map (fun g => g.count)).sum_eq, List.map_map]
    have := sum_by_group (fun e : Expense => e.category) (fun _ => (1 : Nat)) _
      (List.nodup_dedup _) (db.expenses.filter (fun e => e.user = caller)) hall
    rw [← length_eq_sum_ones] at this
    rw [← this]
    congr 1
    apply List.map_congr_left
    intro k _
    exact length_eq_sum_ones _
  · rw [(hperm.map (fun g => g.total)).sum_eq, List.map_map]
    exact sum_by_group (fun e : Expense => e.category) (fun e => e.amount) _
      (List.nodup_dedup _) (db.expenses.filter (fun e => e.user = caller)) hall

end CarVault

namespace CarVault

/-- Witness of C18: user 2 has two Fuel expenses (40 and 10) and one Parts expense (70);
the Fuel expense of user 1 (99) does not count. -/
theorem summary_by_category_witness :
    expenses.getSummary 2 expensesDb =
      (⟨200, .summary [⟨"Parts", 70, 1⟩, ⟨"Fuel", 50, 2⟩]⟩, expensesDb) ∧
    ∃ groups, expenses.getSummary 2 expensesDb = (⟨200, .summary groups⟩, expensesDb) ∧
      (groups.map (fun g => g._id)).Nodup ∧
      groups.Sorted (fun a b => a.total ≥ b.total) ∧
      (groups.map (fun g => g.count)).sum =
        (expensesDb.expenses.filter (fun e => e.user = 2)).length := by
  refine ⟨?_, ?_⟩
  · simp [expenses.getSummary, expenses.groupByCategory, expensesDb, sampleExpense, List.dedup,
      List.pwFilter, List.filter]
    norm_num [List.insertionSort, List.orderedInsert]
  · obtain ⟨groups, h1, h2, _, _, h5, h6, _⟩ := summary_by_category 2 expensesDb
    exact ⟨groups, h1, h2, h5, h6⟩

end CarVault

namespace CarVault

/-! ## C19: closed enums -/

theorem mem_check_false (message : String) : message ∈ check false message := by
  simp [check]

theorem isIn_some (values : List String) (t : String) :
    isIn values (some t) = true ↔ t ∈ values := by
  simp [isIn]

theorem isIn_true {values : List String} {v : Option String} (h : isIn values v = true) :
    ∃ t, v = some t ∧ t ∈ values := by
  cases v with
  | none => simp [isIn] at h
  | some t => exact ⟨t, rfl, (isIn_some values t).1 h⟩

theorem maintenance_postErrors_type (b : MaintenanceBody) :
    (maintenance.postErrors b = [] → isIn maintenance.postTypeValues b.type = true) ∧
    (isIn maintenance.postTypeValues b.type = false →
      "Valid maintenance type is required" ∈ maintenance.postErrors b) := by
  unfold maintenance.postErrors
  constructor
  · intro h
    simp only [List.append_eq_nil, check_eq_nil] at h
    exact h.1.1.1.1.2
  · intro h
    rw [h]
    simp only [List.mem_append]
    exact Or.inl (Or.inl (Or.inl (Or.inl (Or.inr (mem_check_false _)))))

theorem maintenance_putErrors_type (b : MaintenanceBody) (t : String)
    (ht : b.type = some t) (hnot : t ∉ maintenance.putTypeValues) :
    "Valid maintenance type is required" ∈ maintenance.putErrors b := by
  unfold maintenance.putErrors
  have : optional (isIn maintenance.putTypeValues) b.type = false := by
    rw [ht]
    simp only [optional, Option.isNone_some, Bool.false_or]
    cases h : isIn maintenance.putTypeValues (some t) with
    | false => rfl
    | true => exact absurd ((isIn_some _ t).1 h) hnot
  rw [this]
  simp only [List.mem_append]
  exact Or.inl (Or.inl (Or.inl (Or.inl (mem_check_false _))))

theorem expenses_postErrors_category (b : ExpenseBody) :
    (expenses.postErrors b = [] → isIn expenses.postCategoryValues b.category = true) ∧
    (isIn expenses.postCategoryValues b.category = false →
      "Valid expense category is required" ∈ expenses.postErrors b) := by
  unfold expenses.postErrors
  constructor
  · intro h
    simp only [List.append_eq_nil, check_eq_nil] at h
    exact h.1.1.1.2
  · intro h
    rw [h]
    simp only [List.mem_append]
    exact Or.inl (Or.inl (Or.inl (Or.inr (mem_check_false _))))

theorem expenses_putErrors_category (b : ExpenseBody) (t : String)
    (ht : b.category = some t) (hnot : t ∉ expenses.putCategoryValues) :
    "Valid expense category is required" ∈ expenses.putErrors b := by
  unfold expenses.putErrors
  have : optional (isIn expenses.putCategoryValues) b.category = false := by
    rw [ht]
    simp only [optional, Option.isNone_some, Bool.false_or]
    cases h : isIn expenses.putCategoryValues (some t) with
    | false => rfl
    | true => exact absurd ((isIn_some _ t).1 h) hnot
  rw [this]
  simp only [List.mem_append]
  exact Or.inl (Or.inl (Or.inl (mem_check_false _)))

/-- C19. The values accepted by the `type` validators of `POST` and `PUT /maintenance` are
the six values of the schema enum, and those of the `category` validators of `POST` and
`PUT /expenses` the seven values of the schema enum, so a value that passes the route
validator passes the schema validator. A create is answered 201 only if `type` (`category`)
is supplied and is one of these values; a create or an update that supplies another value
is answered 400 with the validation error of the field, and nothing is written. -/
theorem closed_enums (caller : ObjectId) (now : Date) (db : Db) :
    (maintenance.postTypeValues = maintenanceTypes ∧
      maintenance.putTypeValues = maintenanceTypes ∧ maintenanceTypes.length = 6 ∧
      expenses.postCategoryValues = expenseCategories ∧
      expenses.putCategoryValues = expenseCategories ∧ expenseCategories.length = 7) ∧
    (∀ t, (isIn maintenance.postTypeValues (some t) = true → maintenanceTypes.contains t) ∧
      (isIn maintenance.putTypeValues (some t) = true → maintenanceTypes.contains t) ∧
      (isIn expenses.postCategoryValues (some t) = true → expenseCategories.contains t) ∧
      (isIn expenses.putCategoryValues (some t) = true → expenseCategories.contains t)) ∧
    (∀ body : MaintenanceBody,
      ((maintenance.post caller now body db).1.status = 201 →
        ∃ t, body.type = some t ∧ t ∈ maintenanceTypes) ∧
      (∀ t, body.type = some t → t ∉ maintenanceTypes →
        (∃ errors, maintenance.post caller now body db = (⟨400, .errors errors⟩, db) ∧
          "Valid maintenance type is required" ∈ errors) ∧
        ∀ id, ∃ errors, maintenance.put caller now id body db = (⟨400, .errors errors⟩, db) ∧
          "Valid maintenance type is required" ∈ errors)) ∧
    (∀ body : ExpenseBody,
      ((expenses.post caller now body db).1.status = 201 →
        ∃ t, body.category = some t ∧ t ∈ expenseCategories) ∧
      (∀ t, body.category = some t → t ∉ expenseCategories →
        (∃ errors, expenses.post caller now body db = (⟨400, .errors errors⟩, db) ∧
          "Valid expense category is required" ∈ errors) ∧
        ∀ id, ∃ errors, expenses.put caller now id body db = (⟨400, .errors errors⟩, db) ∧
          "Valid expense category is required" ∈ errors)) := by
  refine ⟨⟨rfl, rfl, rfl, rfl, rfl, rfl⟩, fun t => ⟨?_, ?_, ?_, ?_⟩, fun body => ⟨?_, ?_⟩,
    fun body => ⟨?_, ?_⟩⟩
  · intro h; simpa [isIn] using h
  · intro h; simpa [isIn] using h
  · intro h; simpa [isIn] using h
  · intro h; simpa [isIn] using h
  · intro hst
    by_cases hv : maintenance.postErrors body = []
    · exact isIn_true ((maintenance_postErrors_type body).1 hv)
    · have : maintenance.post caller now body db =
          (⟨400, .errors (maintenance.postErrors body)⟩, db) := by
        unfold maintenance.post
        simp only [ne_eq, hv, not_false_eq_true, if_true]
      exact absurd hst (status_ne_of_eq this (by decide))
  · intro t ht hnot
    constructor
    · have hin : isIn maintenance.postTypeValues body.type = false := by
        rw [ht]
        cases h : isIn maintenance.postTypeValues (some t) with
        | false => rfl
        | true => exact absurd ((isIn_some _ t).1 h) hnot
      have hmem := (maintenance_postErrors_type body).2 hin
      have hv : maintenance.postErrors body ≠ [] := List.ne_nil_of_mem hmem
      refine ⟨maintenance.postErrors body, ?_, hmem⟩
      unfold maintenance.post
      simp only [ne_eq, hv, not_false_eq_true, if_true]
    · intro id
      have hmem := maintenance_putErrors_type body t ht hnot
      have hv : maintenance.putErrors body ≠ [] := List.ne_nil_of_mem hmem
      refine ⟨maintenance.putErrors body, ?_, hmem⟩
      unfold maintenance.put
      simp only [ne_eq, hv, not_false_eq_true, if_true]
  · intro hst
    by_cases hv : expenses.postErrors body = []
    · exact isIn_true ((expenses_postErrors_category body).1 hv)
    · have : expenses.post caller now body db =
          (⟨400, .errors (expenses.postErrors body)⟩, db) := by
        unfold expenses.post
        simp only [ne_eq, hv, not_false_eq_true, if_true]
      exact absurd hst (status_ne_of_eq this (by decide))
  · intro t ht hnot
    constructor
    · have hin : isIn expenses.postCategoryValues body.category = false := by
        rw [ht]
        cases h : isIn expenses.postCategoryValues (some t) with
        | false => rfl
        | true => exact absurd ((isIn_some _ t).1 h) hnot
      have hmem := (expenses_postErrors_category body).2 hin
      have hv : expenses.postErrors body ≠ [] := List.ne_nil_of_mem hmem
      refine ⟨expenses.postErrors body, ?_, hmem⟩
      unfold expenses.post
      simp only [ne_eq, hv, not_false_eq_true, if_true]
    · intro id
      have hmem := expenses_putErrors_category body t ht hnot
      have hv : expenses.putErrors body ≠ [] := List.ne_nil_of_mem hmem
      refine ⟨expenses.putErrors body, ?_, hmem⟩
      unfold expenses.put
      simp only [ne_eq, hv, not_false_eq_true, if_true]

/-- Witness of C19: the type `"Wash"` and the category `"Snacks"` are refused on create and
on update; the type `"Other"` is accepted on create. -/
theorem closed_enums_witness :
    (∃ errors, maintenance.post 1 300
        { car := some 5, type := some "Wash", description := some "x", date := some 1,
          mileage := some 1, cost := some 5 } twoCarsDb = (⟨400, .errors errors⟩, twoCarsDb) ∧
      "Valid maintenance type is required" ∈ errors) ∧
    (∃ errors, expenses.put 2 300 2 { category := some "Snacks" } sampleDb =
        (⟨400, .errors errors⟩, sampleDb) ∧
      "Valid expense category is required" ∈ errors) ∧
    ∃ t, (some "Other" : Option String) = some t ∧ t ∈ maintenanceTypes := by
  refine ⟨(((closed_enums 1 300 twoCarsDb).2.2.1
      { car := some 5, type := some "Wash", description := some "x", date := some 1,
        mileage := some 1, cost := some 5 }).2 "Wash" rfl (by decide)).1,
    (((closed_enums 2 300 sampleDb).2.2.2 { category := some "Snacks" }).2 "Snacks" rfl
      (by decide)).2 2,
    ((closed_enums 1 300 twoCarsDb).2.2.1
      { car := some 5, type := some "Other", description := some "x", date := some 1,
        mileage := some 1, cost := some 5 }).1 (by decide)⟩

end CarVault

namespace CarVault

/-! ## C20: required strings -/

theorem trimChars_eq_nil_iff (l : List Char) :
    trimChars l = [] ↔ ∀ c ∈ l, isJsWhitespace c = true := by
  rw [trimChars_eq, List.rdropWhile_eq_nil_iff]
  constructor
  · intro h
    have hnil : l.dropWhile isJsWhitespace = [] := by
      cases hd : l.dropWhile isJsWhitespace with
      | nil => rfl
      | cons a t =>
        have hne : l.dropWhile isJsWhitespace ≠ [] := by rw [hd]; exact List.cons_ne_nil _ _
        have h1 := List.head_dropWhile_not isJsWhitespace l hne
        have h2 := h _ (List.head_mem hne)
        rw [h1] at h2
        exact Bool.noConfusion h2
    exact List.dropWhile_eq_nil_iff.1 hnil
  · intro h x hx
    exact h x ((List.dropWhile_suffix isJsWhitespace).subset hx)

theorem trim_eq_empty_iff (s : String) : trim s = "" ↔ BlankValue s := by
  unfold BlankValue
  rw [← trimChars_eq_nil_iff]
  unfold trim
  constructor
  · intro h
    have h2 : (String.mk (trimChars s.data)).data = "".data := by rw [h]
    exact h2
  · intro h
    rw [h]

theorem notEmptyTrimmed_eq_false_iff (v : Option String) :
    notEmptyTrimmed v = false ↔ Blank v := by
  unfold Blank
  cases v with
  | none => simp [notEmptyTrimmed]
  | some s =>
    simp only [notEmptyTrimmed, ne_eq, decide_not, Bool.not_eq_false', decide_eq_true_eq,
      false_or, Option.some.injEq, exists_eq_left', reduceCtorEq]
    exact trim_eq_empty_iff s

theorem optional_notEmptyTrimmed_eq_false (s : String) (h : BlankValue s) :
    optional notEmptyTrimmed (some s) = false := by
  have := (notEmptyTrimmed_eq_false_iff (some s)).2 (Or.inr ⟨s, rfl, h⟩)
  simp only [optional, Option.isNone_some, Bool.false_or, this]

theorem errors_ne_nil_post_car (currentYear : Int) (caller : ObjectId) (now : Date)
    (body : CarBody) (db : Db) (message : String)
    (h : message ∈ cars.postErrors currentYear body) :
    ∃ errors, cars.post currentYear caller now body db = (⟨400, .errors errors⟩, db) ∧
      message ∈ errors := by
  have hv : cars.postErrors currentYear body ≠ [] := List.ne_nil_of_mem h
  refine ⟨_, ?_, h⟩
  unfold cars.post
  simp only [ne_eq, hv, not_false_eq_true, if_true]

theorem errors_ne_nil_put_car (currentYear : Int) (caller : ObjectId) (now : Date)
    (id : ObjectId) (body : CarBody) (db : Db) (message : String)
    (h : message ∈ cars.putErrors currentYear body) :
    ∃ errors, cars.put currentYear caller now id body db = (⟨400, .errors errors⟩, db) ∧
      message ∈ errors := by
  have hv : cars.putErrors currentYear body ≠ [] := List.ne_nil_of_mem h
  refine ⟨_, ?_, h⟩
  unfold cars.put
  simp only [ne_eq, hv, not_false_eq_true, if_true]

theorem errors_ne_nil_post_maintenance (caller : ObjectId) (now : Date)
    (body : MaintenanceBody) (db : Db) (message : String)
    (h : message ∈ maintenance.postErrors body) :
    ∃ errors, maintenance.post caller now body db = (⟨400, .errors errors⟩, db) ∧
      message ∈ errors := by
  have hv : maintenance.postErrors body ≠ [] := List.ne_nil_of_mem h
  refine ⟨_, ?_, h⟩
  unfold maintenance.post
  simp only [ne_eq, hv, not_false_eq_true, if_true]

theorem errors_ne_nil_put_maintenance (caller : ObjectId) (now : Date) (id : ObjectId)
    (body : MaintenanceBody) (db : Db) (message : String)
    (h : message ∈ maintenance.putErrors body) :
    ∃ errors, maintenance.put caller now id body db = (⟨400, .errors errors⟩, db) ∧
      message ∈ errors := by
  have hv : maintenance.putErrors body ≠ [] := List.ne_nil_of_mem h
  refine ⟨_, ?_, h⟩
  unfold maintenance.put
  simp only [ne_eq, hv, not_false_eq_true, if_true]

theorem errors_ne_nil_post_expense (caller : ObjectId) (now : Date)
    (body : ExpenseBody) (db : Db) (message : String)
    (h : message ∈ expenses.postErrors body) :
    ∃ errors, expenses.post caller now body db = (⟨400, .errors errors⟩, db) ∧
      message ∈ errors := by
  have hv : expenses.postErrors body ≠ [] := List.ne_nil_of_mem h
  refine ⟨_, ?_, h⟩
  unfold expenses.post
  simp only [ne_eq, hv, not_false_eq_true, if_true]

theorem errors_ne_nil_put_expense (caller : ObjectId) (now : Date) (id : ObjectId)
    (body : ExpenseBody) (db : Db) (message : String)
    (h : message ∈ expenses.putErrors body) :
    ∃ errors, expenses.put caller now id body db = (⟨400, .errors errors⟩, db) ∧
      message ∈ errors := by
  have hv : expenses.putErrors body ≠ [] := List.ne_nil_of_mem h
  refine ⟨_, ?_, h⟩
  unfold expenses.put
  simp only [ne_eq, hv, not_false_eq_true, if_true]

end CarVault

namespace CarVault

theorem cars_put_keeps_strings (currentYear : Int) (caller : ObjectId) (now : Date)
    (id : ObjectId) (body : CarBody) (db : Db)
    (h : ∀ c ∈ db.cars, c.make ≠ "" ∧ c.model ≠ "" ∧ c.color ≠ "" ∧ c.licensePlate ≠ "") :
    ∀ c ∈ (cars.put currentYear caller now id body db).2.cars,
      c.make ≠ "" ∧ c.model ≠ "" ∧ c.color ≠ "" ∧ c.licensePlate ≠ "" := by
  rcases cars_put_cases currentYear caller now id body db with
    ⟨_, hp⟩ | ⟨hv, ⟨_, hp⟩ | ⟨old, hfind, ⟨_, hp⟩ | ⟨_, _, hp⟩ | ⟨_, _, hp⟩⟩⟩
  · rw [hp]; exact h
  · rw [hp]; exact h
  · rw [hp]; exact h
  · rw [hp]; exact h
  · rw [hp]
    intro c hc
    rcases mem_replaceFirst _ _ _ c hc with hc | hc
    · subst hc
      have hold := h old (List.mem_of_find?_eq_some hfind)
      have hval := assign_validateModified currentYear old body hv
      simp only [carValidateModified, Bool.and_eq_true, Bool.or_eq_true,
        decide_eq_true_eq] at hval
      obtain ⟨⟨⟨⟨⟨hmk, hmd⟩, _⟩, hcol⟩, hpl⟩, _⟩ := hval
      refine ⟨?_, ?_, ?_, ?_⟩
      · rcases hmk with e | e
        · exact e ▸ hold.1
        · simpa using e
      · rcases hmd with e | e
        · exact e ▸ hold.2.1
        · simpa using e
      · rcases hcol with e | e
        · exact e ▸ hold.2.2.1
        · simpa using e
      · rcases hpl with e | e
        · exact e ▸ hold.2.2.2
        · simpa using e
    · exact h c hc

theorem maintenance_put_keeps_description (caller : ObjectId) (now : Date) (id : ObjectId)
    (body : MaintenanceBody) (db : Db) (h : ∀ m ∈ db.maintenance, m.description ≠ "") :
    ∀ m ∈ (maintenance.put caller now id body db).2.maintenance, m.description ≠ "" := by
  rcases maintenance_put_cases caller now id body db with
    ⟨_, hp⟩ | ⟨_, ⟨_, hp⟩ | ⟨old, hfind, ⟨_, hp⟩ | ⟨_, hval, hp⟩ | ⟨_, _, hp⟩⟩⟩
  · rw [hp]; exact h
  · rw [hp]; exact h
  · rw [hp]; exact h
  · rw [hp]
    intro m hm
    rcases mem_replaceFirst _ _ _ m hm with hm | hm
    · subst hm
      have hold := h old (List.mem_of_find?_eq_some hfind)
      simp only [maintenanceValidateModified, Bool.and_eq_true, Bool.or_eq_true,
        decide_eq_true_eq] at hval
      rcases hval.1.1.1.2 with e | e
      · exact e ▸ hold
      · simpa using e
    · exact h m hm
  · rw [hp]; exact h

theorem expenses_put_keeps_description (caller : ObjectId) (now : Date) (id : ObjectId)
    (body : ExpenseBody) (db : Db) (h : ∀ e ∈ db.expenses, e.description ≠ "") :
    ∀ e ∈ (expenses.put caller now id body db).2.expenses, e.description ≠ "" := by
  rcases expenses_put_cases caller now id body db with
    ⟨_, hp⟩ | ⟨_, ⟨_, hp⟩ | ⟨old, hfind, ⟨_, hp⟩ | ⟨_, hval, hp⟩ | ⟨_, _, hp⟩⟩⟩
  · rw [hp]; exact h
  · rw [hp]; exact h
  · rw [hp]; exact h
  · rw [hp]
    intro m hm
    rcases mem_replaceFirst _ _ _ m hm with hm | hm
    · subst hm
      have hold := h old (List.mem_of_find?_eq_some hfind)
      simp only [expenseValidateModified, Bool.and_eq_true, Bool.or_eq_true,
        decide_eq_true_eq] at hval
      rcases hval.1.1.2 with e | e
      · exact e ▸ hold
      · simpa using e
    · exact h m hm
  · rw [hp]; exact h

/-- C20. A create request in which a required string field (make, model, color,
licensePlate of a car; description of a maintenance record or an expense) is missing, empty
or made of whitespace only is answered 400 with the validation error of that field and
writes nothing. An update request that supplies a blank value for such a field is answered
400 with the validation error of that field and writes nothing; and no update, whatever its
body, leaves an empty string in such a field of a stored record when none was there before. -/
theorem required_strings (currentYear : Int) (caller : ObjectId) (now : Date) (db : Db) :
    (∀ body : CarBody,
      (Blank body.make → ∃ errors, cars.post currentYear caller now body db =
        (⟨400, .errors errors⟩, db) ∧ "Make is required" ∈ errors) ∧
      (Blank body.model → ∃ errors, cars.post currentYear caller now body db =
        (⟨400, .errors errors⟩, db) ∧ "Model is required" ∈ errors) ∧
      (Blank body.color → ∃ errors, cars.post currentYear caller now body db =
        (⟨400, .errors errors⟩, db) ∧ "Color is required" ∈ errors) ∧
      (Blank body.licensePlate → ∃ errors, cars.post currentYear caller now body db =
        (⟨400, .errors errors⟩, db) ∧ "License plate is required" ∈ errors)) ∧
    (∀ body : MaintenanceBody, Blank body.description →
      ∃ errors, maintenance.post caller now body db = (⟨400, .errors errors⟩, db) ∧
        "Description is required" ∈ errors) ∧
    (∀ body : ExpenseBody, Blank body.description →
      ∃ errors, expenses.post caller now body db = (⟨400, .errors errors⟩, db) ∧
        "Description is required" ∈ errors) ∧
    (∀ (id : ObjectId) (body : CarBody) (s : String), BlankValue s →
      (body.make = some s → ∃ errors, cars.put currentYear caller now id body db =
        (⟨400, .errors errors⟩, db) ∧ "Make cannot be empty" ∈ errors) ∧
      (body.model = some s → ∃ errors, cars.put currentYear caller now id body db =
        (⟨400, .errors errors⟩, db) ∧ "Model cannot be empty" ∈ errors) ∧
      (body.color = some s → ∃ errors, cars.put currentYear caller now id body db =
        (⟨400, .errors errors⟩, db) ∧ "Color cannot be empty" ∈ errors) ∧
      (body.licensePlate = some s → ∃ errors, cars.put currentYear caller now id body db =
        (⟨400, .errors errors⟩, db) ∧ "License plate cannot be empty" ∈ errors)) ∧
    (∀ (id : ObjectId) (body : MaintenanceBody) (s : String), BlankValue s →
      body.description = some s →
      ∃ errors, maintenance.put caller now id body db = (⟨400, .errors errors⟩, db) ∧
        "Description cannot be empty" ∈ errors) ∧
    (∀ (id : ObjectId) (body : ExpenseBody) (s : String), BlankValue s →
      body.description = some s →
      ∃ errors, expenses.put caller now id body db = (⟨400, .errors errors⟩, db) ∧
        "Description cannot be empty" ∈ errors) ∧
    (∀ (id : ObjectId) (body : CarBody),
      (∀ c ∈ db.cars, c.make ≠ "" ∧ c.model ≠ "" ∧ c.color ≠ "" ∧ c.licensePlate ≠ "") →
      ∀ c ∈ (cars.put currentYear caller now id body db).2.cars,
        c.make ≠ "" ∧ c.model ≠ "" ∧ c.color ≠ "" ∧ c.licensePlate ≠ "") ∧
    (∀ (id : ObjectId) (body : MaintenanceBody),
      (∀ m ∈ db.maintenance, m.description ≠ "") →
      ∀ m ∈ (maintenance.put caller now id body db).2.maintenance, m.description ≠ "") ∧
    (∀ (id : ObjectId) (body : ExpenseBody),
      (∀ e ∈ db.expenses, e.description ≠ "") →
      ∀ e ∈ (expenses.put caller now id body db).2.expenses, e.description ≠ "") := by
  refine ⟨fun body => ⟨fun hb => ?_, fun hb => ?_, fun hb => ?_, fun hb => ?_⟩,
    fun body hb => ?_, fun body hb => ?_,
    fun id body s hs => ⟨fun hb => ?_, fun hb => ?_, fun hb => ?_, fun hb => ?_⟩,
    fun id body s hs hb => ?_, fun id body s hs hb => ?_,
    fun id body => cars_put_keeps_strings currentYear caller now id body db,
    fun id body => maintenance_put_keeps_description caller now id body db,
    fun id body => expenses_put_keeps_description caller now id body db⟩
  · apply errors_ne_nil_post_car
    have := (notEmptyTrimmed_eq_false_iff _).2 hb
    simp [cars.postErrors, this, check]
  · apply errors_ne_nil_post_car
    have := (notEmptyTrimmed_eq_false_iff _).2 hb
    simp [cars.postErrors, this, check]
  · apply errors_ne_nil_post_car
    have := (notEmptyTrimmed_eq_false_iff _).2 hb
    simp [cars.postErrors, this, check]
  · apply errors_ne_nil_post_car
    have := (notEmptyTrimmed_eq_false_iff _).2 hb
    simp [cars.postErrors, this, check]
  · apply errors_ne_nil_post_maintenance
    have := (notEmptyTrimmed_eq_false_iff _).2 hb
    simp [maintenance.postErrors, this, check]
  · apply errors_ne_nil_post_expense
    have := (notEmptyTrimmed_eq_false_iff _).2 hb
    simp [expenses.postErrors, this, check]
  · apply errors_ne_nil_put_car
    have := optional_notEmptyTrimmed_eq_false s hs
    simp [cars.putErrors, hb, this, check]
  · apply errors_ne_nil_put_car
    have := optional_notEmptyTrimmed_eq_false s hs
    simp [cars.putErrors, hb, this, check]
  · apply errors_ne_nil_put_car
    have := optional_notEmptyTrimmed_eq_false s hs
    simp [cars.putErrors, hb, this, check]
  · apply errors_ne_nil_put_car
    have := optional_notEmptyTrimmed_eq_false s hs
    simp [cars.putErrors, hb, this, check]
  · apply errors_ne_nil_put_maintenance
    have := optional_notEmptyTrimmed_eq_false s hs
    simp [maintenance.putErrors, hb, this, check]
  · apply errors_ne_nil_put_expense
    have := optional_notEmptyTrimmed_eq_false s hs
    simp [expenses.putErrors, hb, this, check]

end CarVault

namespace CarVault

/-- Witness of C20: a create with a make of two spaces, a create without description, an
update with a description of a space and a tab, and an update of the car of user 1. -/
theorem required_strings_witness :
    (∃ errors, cars.post 2025 1 300 { sampleCarBody with make := some "  " } Db.empty =
        (⟨400, .errors errors⟩, Db.empty) ∧ "Make is required" ∈ errors) ∧
    (∃ errors, expenses.post 1 300
        { car := some 5, category := some "Fuel", amount := some 3, date := some 1 }
        twoCarsDb = (⟨400, .errors errors⟩, twoCarsDb) ∧
      "Description is required" ∈ errors) ∧
    (∃ errors, maintenance.put 2 300 1 { description := some " \t" } sampleDb =
        (⟨400, .errors errors⟩, sampleDb) ∧ "Description cannot be empty" ∈ errors) ∧
    ∀ c ∈ (cars.put 2025 1 300 5 { make := some "Kia" } twoCarsDb).2.cars,
      c.make ≠ "" ∧ c.model ≠ "" ∧ c.color ≠ "" ∧ c.licensePlate ≠ "" := by
  have hblank2 : BlankValue "  " := by unfold BlankValue; decide
  have hblank : BlankValue " \t" := by unfold BlankValue; decide
  exact ⟨((required_strings 2025 1 300 Db.empty).1 { sampleCarBody with make := some "  " }).1
      (Or.inr ⟨"  ", rfl, hblank2⟩),
    (required_strings 2025 1 300 twoCarsDb).2.2.1
      { car := some 5, category := some "Fuel", amount := some 3, date := some 1 }
      (Or.inl rfl),
    (required_strings 2025 2 300 sampleDb).2.2.2.2.1 1 { description := some " \t" } " \t"
      hblank rfl,
    (required_strings 2025 1 300 twoCarsDb).2.2.2.2.2.2.1 5 { make := some "Kia" }
      (by decide)⟩

end CarVault

namespace CarVault

/-! ## Valid create requests of maintenance records and expenses -/

theorem isSome_true {α : Type} {v : Option α} (h : v.isSome = true) : ∃ a, v = some a := by
  cases v with
  | none => exact Bool.noConfusion h
  | some a => exact ⟨a, rfl⟩

theorem isIntMin0_true {v : Option Int} (h : isIntMin0 v = true) : ∃ n, v = some n ∧ 0 ≤ n := by
  cases v with
  | none => simp [isIntMin0] at h
  | some n => exact ⟨n, rfl, by simpa [isIntMin0] using h⟩

theorem isFloatMin0_true {v : Option ℚ} (h : isFloatMin0 v = true) :
    ∃ x, v = some x ∧ 0 ≤ x := by
  cases v with
  | none => simp [isFloatMin0] at h
  | some x => exact ⟨x, rfl, by simpa [isFloatMin0] using h⟩

theorem maintenance_postErrors_eq_nil (b : MaintenanceBody) :
    maintenance.postErrors b = [] ↔
      b.car.isSome = true ∧ isIn maintenance.postTypeValues b.type = true ∧
      notEmptyTrimmed b.description = true ∧ b.date.isSome = true ∧
      isIntMin0 b.mileage = true ∧ isFloatMin0 b.cost = true := by
  unfold maintenance.postErrors
  simp only [List.append_eq_nil, check_eq_nil]
  tauto

theorem expenses_postErrors_eq_nil (b : ExpenseBody) :
    expenses.postErrors b = [] ↔
      b.car.isSome = true ∧ isIn expenses.postCategoryValues b.category = true ∧
      notEmptyTrimmed b.description = true ∧ isFloatMin0 b.amount = true ∧
      b.date.isSome = true := by
  unfold expenses.postErrors
  simp only [List.append_eq_nil, check_eq_nil]
  tauto

/-- A `POST /maintenance` that passes the route validators for a car of the caller is
answered by the outcome of `save`. -/
theorem maintenance_post_valid (caller : ObjectId) (now : Date) (body : MaintenanceBody)
    (db : Db) (car : ObjectId) (hv : maintenance.postErrors body = [])
    (hcar : body.car = some car) (hown : ∃ c ∈ db.cars, c._id = car ∧ c.user = caller) :
    ∃ ty desc d n x, body.type = some ty ∧ ty ∈ maintenanceTypes ∧
      body.description = some desc ∧ trim desc ≠ "" ∧ body.date = some d ∧
      body.mileage = some n ∧ 0 ≤ n ∧ body.cost = some x ∧ 0 ≤ x ∧
      maintenance.post caller now body db =
        match maintenanceInsert db (maintenance.newMaintenance db.objectIdCounter caller now
            car ty (trim desc) d n x (maintenance.sanitize body)) with
        | some db' =>
          (⟨201, .maintenance (populateMaintenance db' (maintenance.newMaintenance
            db.objectIdCounter caller now car ty (trim desc) d n x
            (maintenance.sanitize body)))⟩, db')
        | none => (serverError, db) := by
  obtain ⟨_, h2, h3, h4, h5, h6⟩ := (maintenance_postErrors_eq_nil body).1 hv
  obtain ⟨ty, hty, htyin⟩ := isIn_true h2
  obtain ⟨desc, hdesc, hdne⟩ := notEmptyTrimmed_true h3
  obtain ⟨d, hd⟩ := isSome_true h4
  obtain ⟨n, hn, hn0⟩ := isIntMin0_true h5
  obtain ⟨x, hx, hx0⟩ := isFloatMin0_true h6
  refine ⟨ty, desc, d, n, x, hty, htyin, hdesc, hdne, hd, hn, hn0, hx, hx0, ?_⟩
  cases hf : db.cars.find? (fun c => decide (c._id = car) && decide (c.user = caller)) with
  | none =>
    exact absurd hown ((find?_scoped_eq_none_iff (fun c : Car => c._id) (fun c => c.user)
      db.cars car caller).1 hf)
  | some c =>
    unfold maintenance.post
    simp only [hv, ne_eq, not_true_eq_false, if_false, maintenance.sanitize, hcar, hf, hty,
      hdesc, hd, hn, hx, Option.map_some']

/-- A `POST /expenses` that passes the route validators for a car of the caller is answered
by the outcome of `save`. -/
theorem expenses_post_valid (caller : ObjectId) (now : Date) (body : ExpenseBody)
    (db : Db) (car : ObjectId) (hv : expenses.postErrors body = [])
    (hcar : body.car = some car) (hown : ∃ c ∈ db.cars, c._id = car ∧ c.user = caller) :
    ∃ cat desc x d, body.category = some cat ∧ cat ∈ expenseCategories ∧
      body.description = some desc ∧ trim desc ≠ "" ∧ body.amount = some x ∧ 0 ≤ x ∧
      body.date = some d ∧
      expenses.post caller now body db =
        match expenseInsert db (expenses.newExpense db.objectIdCounter caller now
            car cat (trim desc) x d (expenses.sanitize body)) with
        | some db' =>
          (⟨201, .expense (populateExpense db' (expenses.newExpense
            db.objectIdCounter caller now car cat (trim desc) x d
            (expenses.sanitize body)))⟩, db')
        | none => (serverError, db) := by
  obtain ⟨_, h2, h3, h4, h5⟩ := (expenses_postErrors_eq_nil body).1 hv
  obtain ⟨cat, hcat, hcatin⟩ := isIn_true h2
  obtain ⟨desc, hdesc, hdne⟩ := notEmptyTrimmed_true h3
  obtain ⟨x, hx, hx0⟩ := isFloatMin0_true h4
  obtain ⟨d, hd⟩ := isSome_true h5
  refine ⟨cat, desc, x, d, hcat, hcatin, hdesc, hdne, hx, hx0, hd, ?_⟩
  cases hf : db.cars.find? (fun c => decide (c._id = car) && decide (c.user = caller)) with
  | none =>
    exact absurd hown ((find?_scoped_eq_none_iff (fun c : Car => c._id) (fun c => c.user)
      db.cars car caller).1 hf)
  | some c =>
    unfold expenses.post
    simp only [hv, ne_eq, not_true_eq_false, if_false, expenses.sanitize, hcar, hf, hcat,
      hdesc, hx, hd, Option.map_some']

/-! ## C21: numeric ranges that only the schema checks -/

/-- A valid `POST /expenses` for a car of the caller with a negative `mileage` passes the
route validators, which do not look at `mileage`, fails the `min: 0` validator of the schema
on `save` and is answered by the `catch` block. -/
theorem expenses_post_negative_mileage (caller : ObjectId) (now : Date) (body : ExpenseBody)
    (db : Db) (car : ObjectId) (n : Int) (hv : expenses.postErrors body = [])
    (hcar : body.car = some car) (hown : ∃ c ∈ db.cars, c._id = car ∧ c.user = caller)
    (hm : body.mileage = some n) (hneg : n < 0) :
    expenses.post caller now body db = (serverError, db) := by
  obtain ⟨cat, desc, x, d, _, _, _, _, _, _, _, hpost⟩ :=
    expenses_post_valid caller now body db car hv hcar hown
  rw [hpost]
  have : expenseInsert db (expenses.newExpense db.objectIdCounter caller now car cat
      (trim desc) x d (expenses.sanitize body)) = none := by
    unfold expenseInsert
    rw [if_neg]
    intro hok
    simp only [expenseValidate, Bool.and_eq_true] at hok
    have h4 : optMin0 (body.mileage) = true := hok.2
    rw [hm] at h4
    simp only [optMin0, decide_eq_true_eq] at h4
    omega
  rw [this]

/-- A valid `POST /maintenance` for a car of the caller with a negative
`nextServiceMileage` is answered by the `catch` block. -/
theorem maintenance_post_negative_next (caller : ObjectId) (now : Date)
    (body : MaintenanceBody) (db : Db) (car : ObjectId) (n : Int)
    (hv : maintenance.postErrors body = []) (hcar : body.car = some car)
    (hown : ∃ c ∈ db.cars, c._id = car ∧ c.user = caller)
    (hm : body.nextServiceMileage = some n) (hneg : n < 0) :
    maintenance.post caller now body db = (serverError, db) := by
  obtain ⟨ty, desc, d, k, x, _, _, _, _, _, _, _, _, _, hpost⟩ :=
    maintenance_post_valid caller now body db car hv hcar hown
  rw [hpost]
  have : maintenanceInsert db (maintenance.newMaintenance db.objectIdCounter caller now car ty
      (trim desc) d k x (maintenance.sanitize body)) = none := by
    unfold maintenanceInsert
    rw [if_neg]
    intro hok
    simp only [maintenanceValidate, Bool.and_eq_true] at hok
    have h4 : optMin0 (body.nextServiceMileage) = true := hok.2
    rw [hm] at h4
    simp only [optMin0, decide_eq_true_eq] at h4
    omega
  rw [this]

/-- C21, evaluated at the failing inputs. User 1 owns car 5. A create of an expense with
`mileage: -5`, a create of a maintenance record with `nextServiceMileage: -1`, and the
updates of user 2 that set these fields to negative values pass the route validators and
are answered 500 'Server error', not 400; nothing is written. -/
theorem schema_only_ranges_server_error :
    expenses.postErrors
      { car := some 5, category := some "Fuel", description := some "tank",
        amount := some 30, date := some 290, mileage := some (-5) } = [] ∧
    expenses.post 1 300
        { car := some 5, category := some "Fuel", description := some "tank",
          amount := some 30, date := some 290, mileage := some (-5) } twoCarsDb =
      (⟨500, .message "Server error"⟩, twoCarsDb) ∧
    maintenance.post 1 300
        { car := some 5, type := some "Other", description := some "wash", date := some 290,
          mileage := some 20, cost := some 15, nextServiceMileage := some (-1) } twoCarsDb =
      (⟨500, .message "Server error"⟩, twoCarsDb) ∧
    expenses.put 2 300 2 { mileage := some (-5) } sampleDb =
      (⟨500, .message "Server error"⟩, sampleDb) ∧
    maintenance.put 2 300 1 { nextServiceMileage := some (-1) } sampleDb =
      (⟨500, .message "Server error"⟩, sampleDb) := by
  refine ⟨by decide, by decide, by decide, by decide, by decide⟩

end CarVault

namespace CarVault

/-! ## C22: the date of a created record -/

/-- C22, as stated, fails: user 1 owns car 5 and posts a maintenance record and an expense
whose fields are valid and which omit `date`. Both requests are answered 400 with 'Valid
date is required' and nothing is stored. -/
theorem create_without_date_counterexample :
    (∃ c ∈ twoCarsDb.cars, c._id = 5 ∧ c.user = 1) ∧
    maintenance.post 1 300
        { car := some 5, type := some "Other", description := some "wash",
          mileage := some 20, cost := some 15 } twoCarsDb =
      (⟨400, .errors ["Valid date is required"]⟩, twoCarsDb) ∧
    expenses.post 1 300
        { car := some 5, category := some "Fuel", description := some "tank",
          amount := some 30 } twoCarsDb =
      (⟨400, .errors ["Valid date is required"]⟩, twoCarsDb) :=
  ⟨⟨otherCar, by decide, rfl, rfl⟩, by decide, by decide⟩

/-- C22, amended. A `POST /maintenance` or `POST /expenses` request that omits `date` is
answered 400 with the validation error 'Valid date is required' and stores nothing. A
request that carries a date, passes the route validators, names a car of the caller and
carries no negative `nextServiceMileage` (`mileage` for an expense) is answered 201 and
stores one record, whose date is the supplied date. -/
theorem create_date (caller : ObjectId) (now : Date) (db : Db) :
    (∀ body : MaintenanceBody, body.date = none →
      ∃ errors, maintenance.post caller now body db = (⟨400, .errors errors⟩, db) ∧
        "Valid date is required" ∈ errors) ∧
    (∀ body : ExpenseBody, body.date = none →
      ∃ errors, expenses.post caller now body db = (⟨400, .errors errors⟩, db) ∧
        "Valid date is required" ∈ errors) ∧
    (∀ (body : MaintenanceBody) (car : ObjectId) (d : Date), body.date = some d →
      maintenance.postErrors body = [] → body.car = some car →
      (∃ c ∈ db.cars, c._id = car ∧ c.user = caller) →
      optMin0 body.nextServiceMileage = true →
      ∃ m, m.date = d ∧
        maintenance.post caller now body db =
          (⟨201, .maintenance (populateMaintenance db m)⟩,
            { db with maintenance := db.maintenance ++ [m],
                      objectIdCounter := db.objectIdCounter + 1 })) ∧
    (∀ (body : ExpenseBody) (car : ObjectId) (d : Date), body.date = some d →
      expenses.postErrors body = [] → body.car = some car →
      (∃ c ∈ db.cars, c._id = car ∧ c.user = caller) →
      optMin0 body.mileage = true →
      ∃ e, e.date = d ∧
        expenses.post caller now body db =
          (⟨201, .expense (populateExpense db e)⟩,
            { db with expenses := db.expenses ++ [e],
                      objectIdCounter := db.objectIdCounter + 1 })) := by
  refine ⟨?_, ?_, ?_, ?_⟩
  · intro body hd
    apply errors_ne_nil_post_maintenance
    simp [maintenance.postErrors, hd, check]
  · intro body hd
    apply errors_ne_nil_post_expense
    simp [expenses.postErrors, hd, check]
  · intro body car d hd hv hcar hown hnext
    obtain ⟨ty, desc, d', n, x, _, htyin, _, hdne, hd', _, hn0, _, hx0, hpost⟩ :=
      maintenance_post_valid caller now body db car hv hcar hown
    have hdd : d' = d := Option.some.inj (hd'.symm.trans hd)
    subst hdd
    refine ⟨maintenance.newMaintenance db.objectIdCounter caller now car ty (trim desc) d' n x
      (maintenance.sanitize body), rfl, ?_⟩
    rw [hpost]
    have : maintenanceInsert db (maintenance.newMaintenance db.objectIdCounter caller now car
        ty (trim desc) d' n x (maintenance.sanitize body)) =
        some { db with
          maintenance := db.maintenance ++ [maintenance.newMaintenance db.objectIdCounter
            caller now car ty (trim desc) d' n x (maintenance.sanitize body)]
          objectIdCounter := db.objectIdCounter + 1 } := by
      unfold maintenanceInsert
      rw [if_pos]
      simp only [maintenanceValidate, maintenance.newMaintenance, Bool.and_eq_true,
        decide_eq_true_eq, maintenance.sanitize]
      exact ⟨⟨⟨⟨by simpa using htyin, trim_ne_empty_of_trim _ hdne⟩, hn0⟩, hx0⟩, hnext⟩
    rw [this]
    rfl
  · intro body car d hd hv hcar hown hmil
    obtain ⟨cat, desc, x, d', _, hcatin, _, hdne, _, hx0, hd', hpost⟩ :=
      expenses_post_valid caller now body db car hv hcar hown
    have hdd : d' = d := Option.some.inj (hd'.symm.trans hd)
    subst hdd
    refine ⟨expenses.newExpense db.objectIdCounter caller now car cat (trim desc) x d'
      (expenses.sanitize body), rfl, ?_⟩
    rw [hpost]
    have : expenseInsert db (expenses.newExpense db.objectIdCounter caller now car cat
        (trim desc) x d' (expenses.sanitize body)) =
        some { db with
          expenses := db.expenses ++ [expenses.newExpense db.objectIdCounter caller now car
            cat (trim desc) x d' (expenses.sanitize body)]
          objectIdCounter := db.objectIdCounter + 1 } := by
      unfold expenseInsert
      rw [if_pos]
      simp only [expenseValidate, expenses.newExpense, Bool.and_eq_true,
        decide_eq_true_eq, expenses.sanitize]
      exact ⟨⟨⟨by simpa using hcatin, trim_ne_empty_of_trim _ hdne⟩, hx0⟩, hmil⟩
    rw [this]
    rfl

/-- Witness of C22 (amended): user 1 posts a maintenance record for car 5 without and with
a date. -/
theorem create_date_witness :
    (∃ errors, maintenance.post 1 300
        { car := some 5, type := some "Other", description := some "wash",
          mileage := some 20, cost := some 15 } twoCarsDb =
        (⟨400, .errors errors⟩, twoCarsDb) ∧ "Valid date is required" ∈ errors) ∧
    ∃ m, m.date = 290 ∧
      maintenance.post 1 300
          { car := some 5, type := some "Other", description := some "wash",
            date := some 290, mileage := some 20, cost := some 15 } twoCarsDb =
        (⟨201, .maintenance (populateMaintenance twoCarsDb m)⟩,
          { twoCarsDb with maintenance := twoCarsDb.maintenance ++ [m],
                           objectIdCounter := twoCarsDb.objectIdCounter + 1 }) :=
  ⟨(create_date 1 300 twoCarsDb).1 _ rfl,
    (create_date 1 300 twoCarsDb).2.2.1 _ 5 290 rfl (by decide) rfl
      ⟨otherCar, by decide, rfl, rfl⟩ rfl⟩

end CarVault

namespace CarVault

/-! ## C23: updates keep the owner and the car reference -/

theorem map_replaceFirst {α β : Type} (f : α → β) (p : α → Bool) (doc : α) :
    ∀ l : List α, (∀ x ∈ l, p x = true → f x = f doc) →
      (replaceFirst p doc l).map f = l.map f
  | [], _ => rfl
  | x :: xs, h => by
    unfold replaceFirst
    by_cases hx : p x = true
    · rw [if_pos hx, List.map_cons, List.map_cons, h x (List.mem_cons_self _ _) hx]
    · rw [if_neg hx, List.map_cons, List.map_cons,
        map_replaceFirst f p doc xs (fun y hy => h y (List.mem_cons_of_mem _ hy))]

theorem map_replaceFirst_of_unique {α β : Type} (key : α → ObjectId) (f : α → β)
    (l : List α) (old saved : α) (hold : old ∈ l)
    (huniq : l.Pairwise (fun a b => key a ≠ key b)) (hf : f old = f saved) :
    (replaceFirst (fun c => decide (key c = key old)) saved l).map f = l.map f := by
  apply map_replaceFirst
  intro x hx hpx
  simp only [decide_eq_true_eq] at hpx
  rw [eq_of_key_eq huniq hx hold hpx]
  exact hf

/-- C23. In a database whose ids are unique within each collection, no `PUT` changes an
owner or a car reference, whatever the id and the body (the bodies may carry `user` and
`car` fields): after `PUT /cars/:id` the list of (id, owner) of the cars is the same, and
after `PUT /maintenance/:id` and `PUT /expenses/:id` the list of (id, owner, car) of the
records is the same; the other collections are not written. -/
theorem update_keeps_owner_and_car (currentYear : Int) (caller : ObjectId) (now : Date)
    (id : ObjectId) (db : Db) :
    (∀ body : CarBody, db.cars.Pairwise (fun a b => a._id ≠ b._id) →
      (cars.put currentYear caller now id body db).2.cars.map (fun c => (c._id, c.user)) =
        db.cars.map (fun c => (c._id, c.user)) ∧
      (cars.put currentYear caller now id body db).2.maintenance = db.maintenance ∧
      (cars.put currentYear caller now id body db).2.expenses = db.expenses) ∧
    (∀ body : MaintenanceBody, db.maintenance.Pairwise (fun a b => a._id ≠ b._id) →
      (maintenance.put caller now id body db).2.maintenance.map
          (fun m => (m._id, m.user, m.car)) =
        db.maintenance.map (fun m => (m._id, m.user, m.car)) ∧
      (maintenance.put caller now id body db).2.cars = db.cars ∧
      (maintenance.put caller now id body db).2.expenses = db.expenses) ∧
    (∀ body : ExpenseBody, db.expenses.Pairwise (fun a b => a._id ≠ b._id) →
      (expenses.put caller now id body db).2.expenses.map
          (fun e => (e._id, e.user, e.car)) =
        db.expenses.map (fun e => (e._id, e.user, e.car)) ∧
      (expenses.put caller now id body db).2.cars = db.cars ∧
      (expenses.put caller now id body db).2.maintenance = db.maintenance) := by
  refine ⟨?_, ?_, ?_⟩
  · intro body huniq
    rcases cars_put_cases currentYear caller now id body db with
      ⟨_, hp⟩ | ⟨_, ⟨_, hp⟩ | ⟨old, hfind, ⟨_, hp⟩ | ⟨_, _, hp⟩ | ⟨_, _, hp⟩⟩⟩
    · rw [hp]; exact ⟨rfl, rfl, rfl⟩
    · rw [hp]; exact ⟨rfl, rfl, rfl⟩
    · rw [hp]; exact ⟨rfl, rfl, rfl⟩
    · rw [hp]; exact ⟨rfl, rfl, rfl⟩
    · rw [hp]
      exact ⟨map_replaceFirst_of_unique (fun c : Car => c._id) (fun c => (c._id, c.user))
        db.cars old _ (List.mem_of_find?_eq_some hfind) huniq rfl, rfl, rfl⟩
  · intro body huniq
    rcases maintenance_put_cases caller now id body db with
      ⟨_, hp⟩ | ⟨_, ⟨_, hp⟩ | ⟨old, hfind, ⟨_, hp⟩ | ⟨_, _, hp⟩ | ⟨_, _, hp⟩⟩⟩
    · rw [hp]; exact ⟨rfl, rfl, rfl⟩
    · rw [hp]; exact ⟨rfl, rfl, rfl⟩
    · rw [hp]; exact ⟨rfl, rfl, rfl⟩
    · rw [hp]
      exact ⟨map_replaceFirst_of_unique (fun m : Maintenance => m._id)
        (fun m => (m._id, m.user, m.car)) db.maintenance old _
        (List.mem_of_find?_eq_some hfind) huniq rfl, rfl, rfl⟩
    · rw [hp]; exact ⟨rfl, rfl, rfl⟩
  · intro body huniq
    rcases expenses_put_cases caller now id body db with
      ⟨_, hp⟩ | ⟨_, ⟨_, hp⟩ | ⟨old, hfind, ⟨_, hp⟩ | ⟨_, _, hp⟩ | ⟨_, _, hp⟩⟩⟩
    · rw [hp]; exact ⟨rfl, rfl, rfl⟩
    · rw [hp]; exact ⟨rfl, rfl, rfl⟩
    · rw [hp]; exact ⟨rfl, rfl, rfl⟩
    · rw [hp]
      exact ⟨map_replaceFirst_of_unique (fun e : Expense => e._id)
        (fun e => (e._id, e.user, e.car)) db.expenses old _
        (List.mem_of_find?_eq_some hfind) huniq rfl, rfl, rfl⟩
    · rw [hp]; exact ⟨rfl, rfl, rfl⟩

/-- Witness of C23: user 2 updates maintenance record 1 with a body that carries
`user: 1` and `car: 5`; the record stays with user 2 and car 0. -/
theorem update_keeps_owner_and_car_witness :
    (maintenance.put 2 300 1 { cost := some 60, user := some 1, car := some 5 }
        sampleDb).1.status = 200 ∧
    (maintenance.put 2 300 1 { cost := some 60, user := some 1, car := some 5 }
        sampleDb).2.maintenance.map (fun m => (m._id, m.user, m.car)) = [(1, 2, 0)] ∧
    (maintenance.put 2 300 1 { cost := some 60, user := some 1, car := some 5 }
        sampleDb).2.cars = sampleDb.cars ∧
    (maintenance.put 2 300 1 { cost := some 60, user := some 1, car := some 5 }
        sampleDb).2.expenses = sampleDb.expenses :=
  ⟨by decide,
    (update_keeps_owner_and_car 2025 2 300 1 sampleDb).2.1
      { cost := some 60, user := some 1, car := some 5 } (by decide)⟩

end CarVault

namespace CarVault

/-! ## C24: every endpoint is behind `auth` -/

/-- C24. A request to any endpoint of the cars, maintenance and expenses routers whose
bearer token is missing or does not verify is answered 401 by `auth`: the answer is the same
for every endpoint, path id, body and database, and the database is returned as it was. A
request whose token verifies is handled for the user of the token. -/
theorem endpoints_require_token (currentYear : Int) (verify : String → Option ObjectId)
    (now : Date) (token : Option String) (endpoint : Endpoint) (db : Db) :
    ((token = none ∨ ∃ t, token = some t ∧ verify t = none) →
      serve currentYear verify now token endpoint db = (unauthorized, db) ∧
      (serve currentYear verify now token endpoint db).1.status = 401) ∧
    (∀ t caller, token = some t → verify t = some caller →
      serve currentYear verify now token endpoint db =
        endpoint.handle currentYear caller now db) := by
  constructor
  · intro h
    have hauth : auth verify token = none := by
      rcases h with h | ⟨t, ht, hv⟩
      · rw [h]; rfl
      · rw [ht]; exact hv
    unfold serve
    rw [hauth]
    exact ⟨rfl, rfl⟩
  · intro t caller ht hv
    have hauth : auth verify token = some caller := by
      rw [ht]; exact hv
    unfold serve
    rw [hauth]

/-- Witness of C24: without a token and with the invalid token `"mallory"`, a create with an
invalid body, a read of a stored car and a delete are answered 401 and nothing changes;
with the token of user 2 the delete is carried out. -/
theorem endpoints_require_token_witness :
    serve 2025 sampleVerify 300 none (.carsPost { make := some "" }) sampleDb =
      (⟨401, .message "Unauthorized"⟩, sampleDb) ∧
    serve 2025 sampleVerify 300 (some "mallory") (.carsGetOne 0) sampleDb =
      (⟨401, .message "Unauthorized"⟩, sampleDb) ∧
    serve 2025 sampleVerify 300 (some "mallory") (.carsDelete 0) sampleDb =
      (⟨401, .message "Unauthorized"⟩, sampleDb) ∧
    serve 2025 sampleVerify 300 (some "bob") (.carsDelete 0) sampleDb =
      cars.delete 2 0 sampleDb :=
  ⟨((endpoints_require_token 2025 sampleVerify 300 none (.carsPost { make := some "" })
      sampleDb).1 (Or.inl rfl)).1,
    ((endpoints_require_token 2025 sampleVerify 300 (some "mallory") (.carsGetOne 0)
      sampleDb).1 (Or.inr ⟨"mallory", rfl, by decide⟩)).1,
    ((endpoints_require_token 2025 sampleVerify 300 (some "mallory") (.carsDelete 0)
      sampleDb).1 (Or.inr ⟨"mallory", rfl, by decide⟩)).1,
    (endpoints_require_token 2025 sampleVerify 300 (some "bob") (.carsDelete 0) sampleDb).2
      "bob" 2 rfl (by decide)⟩

end CarVault

namespace CarVault

/-! ## The invariant of the API -/

theorem apiInvariant_empty : ApiInvariant Db.empty :=
  ⟨CarsInvariant.empty, by simp [Db.empty], by simp [Db.empty], by simp [Db.empty],
    by simp [Db.empty]⟩

theorem CarsInvariant.of_same_cars {db db' : Db} (hinv : CarsInvariant db)
    (hcars : db'.cars = db.cars) (hctr : db.objectIdCounter ≤ db'.objectIdCounter) :
    CarsInvariant db' :=
  ⟨fun c hc => Nat.lt_of_lt_of_le (hinv.idsBelow c (hcars ▸ hc)) hctr,
    hcars ▸ hinv.idsDistinct, hcars ▸ hinv.platesDistinct,
    fun c hc => hinv.platesNormal c (hcars ▸ hc)⟩

/-- The invariant survives a write to the maintenance and expense collections in which
every record is a stored one or refers to a car below the counter and agrees with the
owner of that car. -/
theorem ApiInvariant.of_records {db db' : Db} (hinv : ApiInvariant db)
    (hcars : db'.cars = db.cars) (hctr : db.objectIdCounter ≤ db'.objectIdCounter)
    (hm : ∀ m ∈ db'.maintenance, m ∈ db.maintenance ∨
      (m.car < db.objectIdCounter ∧ ∀ c ∈ db.cars, c._id = m.car → c.user = m.user))
    (he : ∀ e ∈ db'.expenses, e ∈ db.expenses ∨
      (e.car < db.objectIdCounter ∧ ∀ c ∈ db.cars, c._id = e.car → c.user = e.user)) :
    ApiInvariant db' := by
  refine ⟨hinv.cars.of_same_cars hcars hctr, ?_, ?_, ?_, ?_⟩
  · intro m hmem
    rcases hm m hmem with h | h
    · exact Nat.lt_of_lt_of_le (hinv.maintenanceRefsBelow m h) hctr
    · exact Nat.lt_of_lt_of_le h.1 hctr
  · intro e hmem
    rcases he e hmem with h | h
    · exact Nat.lt_of_lt_of_le (hinv.expenseRefsBelow e h) hctr
    · exact Nat.lt_of_lt_of_le h.1 hctr
  · intro m hmem c hc hid
    rw [hcars] at hc
    rcases hm m hmem with h | h
    · exact hinv.maintenanceOwner m h c hc hid
    · exact h.2 c hc hid
  · intro e hmem c hc hid
    rw [hcars] at hc
    rcases he e hmem with h | h
    · exact hinv.expenseOwner e h c hc hid
    · exact h.2 c hc hid

/-- The invariant survives a write to the cars collection in which every car keeps the id
and owner of a stored car or has an id that is not below the counter. -/
theorem ApiInvariant.of_cars {db db' : Db} (hinv : ApiInvariant db) (hci : CarsInvariant db')
    (hm : db'.maintenance = db.maintenance) (he : db'.expenses = db.expenses)
    (hctr : db.objectIdCounter ≤ db'.objectIdCounter)
    (hc : ∀ c ∈ db'.cars, (∃ c0 ∈ db.cars, c0._id = c._id ∧ c0.user = c.user) ∨
      db.objectIdCounter ≤ c._id) :
    ApiInvariant db' := by
  refine ⟨hci, ?_, ?_, ?_, ?_⟩
  · intro m hmem
    rw [hm] at hmem
    exact Nat.lt_of_lt_of_le (hinv.maintenanceRefsBelow m hmem) hctr
  · intro e hmem
    rw [he] at hmem
    exact Nat.lt_of_lt_of_le (hinv.expenseRefsBelow e hmem) hctr
  · intro m hmem c hcm hid
    rw [hm] at hmem
    rcases hc c hcm with ⟨c0, hc0, hid0, hu0⟩ | hge
    · rw [← hu0]
      exact hinv.maintenanceOwner m hmem c0 hc0 (hid0.trans hid)
    · have hlt := hinv.maintenanceRefsBelow m hmem
      rw [← hid] at hlt
      exact absurd hlt (Nat.not_lt.2 hge)
  · intro e hmem c hcm hid
    rw [he] at hmem
    rcases hc c hcm with ⟨c0, hc0, hid0, hu0⟩ | hge
    · rw [← hu0]
      exact hinv.expenseOwner e hmem c0 hc0 (hid0.trans hid)
    · have hlt := hinv.expenseRefsBelow e hmem
      rw [← hid] at hlt
      exact absurd hlt (Nat.not_lt.2 hge)

theorem cars_post_api (currentYear : Int) (caller : ObjectId) (now : Date) (body : CarBody)
    (db : Db) (hinv : ApiInvariant db) :
    ApiInvariant (cars.post currentYear caller now body db).2 := by
  have hci := cars_post_invariant currentYear caller now body db hinv.cars
  rcases cars_post_cases currentYear caller now body db with ⟨_, h⟩ | ⟨car, _, hid, h⟩
  · rw [h]; exact hinv
  · rw [h] at hci ⊢
    refine hinv.of_cars hci rfl rfl (Nat.le_succ _) ?_
    intro c hc
    rcases List.mem_append.1 hc with hc | hc
    · exact Or.inl ⟨c, hc, rfl, rfl⟩
    · rw [List.mem_singleton] at hc
      subst hc
      exact Or.inr (Nat.le_of_eq hid.symm)

theorem cars_put_api (currentYear : Int) (caller : ObjectId) (now : Date) (id : ObjectId)
    (body : CarBody) (db : Db) (hinv : ApiInvariant db) :
    ApiInvariant (cars.put currentYear caller now id body db).2 := by
  have hci := cars_put_invariant currentYear caller now id body db hinv.cars
  rcases cars_put_cases currentYear caller now id body db with
    ⟨_, hp⟩ | ⟨_, ⟨_, hp⟩ | ⟨old, hfind, ⟨_, hp⟩ | ⟨_, _, hp⟩ | ⟨_, _, hp⟩⟩⟩
  · rw [hp]; exact hinv
  · rw [hp]; exact hinv
  · rw [hp]; exact hinv
  · rw [hp]; exact hinv
  · rw [hp] at hci ⊢
    refine hinv.of_cars hci rfl rfl (Nat.le_refl _) ?_
    intro c hc
    rcases mem_replaceFirst _ _ _ c hc with hc | hc
    · subst hc
      exact Or.inl ⟨old, List.mem_of_find?_eq_some hfind, rfl, rfl⟩
    · exact Or.inl ⟨c, hc, rfl, rfl⟩

theorem cars_delete_api (caller id : ObjectId) (db : Db) (hinv : ApiInvariant db) :
    ApiInvariant (cars.delete caller id db).2 := by
  have hci := cars_delete_invariant caller id db hinv.cars
  rcases cars_delete_db caller id db with h | h
  · rw [h]; exact hinv
  · rw [h] at hci ⊢
    refine hinv.of_cars hci rfl rfl (Nat.le_refl _) ?_
    intro c hc
    exact Or.inl ⟨c, (List.eraseP_sublist _).subset hc, rfl, rfl⟩

theorem maintenance_post_api (caller : ObjectId) (now : Date) (body : MaintenanceBody)
    (db : Db) (hinv : ApiInvariant db) :
    ApiInvariant (maintenance.post caller now body db).2 := by
  rcases maintenance_post_cases caller now body db with
    ⟨_, h⟩ | ⟨m, hu, _, _, ⟨c0, hc0, hid0, hu0⟩, h⟩
  · rw [h]; exact hinv
  · rw [h]
    refine hinv.of_records rfl (Nat.le_succ _) ?_ (fun e he => Or.inl he)
    intro x hx
    rcases List.mem_append.1 hx with hx | hx
    · exact Or.inl hx
    · rw [List.mem_singleton] at hx
      subst hx
      right
      refine ⟨?_, ?_⟩
      · rw [← hid0]; exact hinv.cars.idsBelow c0 hc0
      · intro c hc hid
        rw [eq_of_key_eq hinv.cars.idsDistinct hc hc0 (hid.trans hid0.symm), hu0, hu]

theorem maintenance_put_api (caller : ObjectId) (now : Date) (id : ObjectId)
    (body : MaintenanceBody) (db : Db) (hinv : ApiInvariant db) :
    ApiInvariant (maintenance.put caller now id body db).2 := by
  rcases maintenance_put_cases caller now id body db with
    ⟨_, hp⟩ | ⟨_, ⟨_, hp⟩ | ⟨old, hfind, ⟨_, hp⟩ | ⟨_, _, hp⟩ | ⟨_, _, hp⟩⟩⟩
  · rw [hp]; exact hinv
  · rw [hp]; exact hinv
  · rw [hp]; exact hinv
  · rw [hp]
    refine hinv.of_records rfl (Nat.le_refl _) ?_ (fun e he => Or.inl he)
    intro x hx
    rcases mem_replaceFirst _ _ _ x hx with hx | hx
    · subst hx
      have hold := List.mem_of_find?_eq_some hfind
      exact Or.inr ⟨hinv.maintenanceRefsBelow old hold, hinv.maintenanceOwner old hold⟩
    · exact Or.inl hx
  · rw [hp]; exact hinv

theorem maintenance_delete_api (caller id : ObjectId) (db : Db) (hinv : ApiInvariant db) :
    ApiInvariant (maintenance.delete caller id db).2 := by
  unfold maintenance.delete
  split
  · exact hinv
  · exact hinv.of_records rfl (Nat.le_refl _)
      (fun m hm => Or.inl ((List.eraseP_sublist _).subset hm)) (fun e he => Or.inl he)

theorem expenses_post_api (caller : ObjectId) (now : Date) (body : ExpenseBody)
    (db : Db) (hinv : ApiInvariant db) :
    ApiInvariant (expenses.post caller now body db).2 := by
  rcases expenses_post_cases caller now body db with
    ⟨_, h⟩ | ⟨e, hu, _, _, ⟨c0, hc0, hid0, hu0⟩, h⟩
  · rw [h]; exact hinv
  · rw [h]
    refine hinv.of_records rfl (Nat.le_succ _) (fun m hm => Or.inl hm) ?_
    intro x hx
    rcases List.mem_append.1 hx with hx | hx
    · exact Or.inl hx
    · rw [List.mem_singleton] at hx
      subst hx
      right
      refine ⟨?_, ?_⟩
      · rw [← hid0]; exact hinv.cars.idsBelow c0 hc0
      · intro c hc hid
        rw [eq_of_key_eq hinv.cars.idsDistinct hc hc0 (hid.trans hid0.symm), hu0, hu]

theorem expenses_put_api (caller : ObjectId) (now : Date) (id : ObjectId)
    (body : ExpenseBody) (db : Db) (hinv : ApiInvariant db) :
    ApiInvariant (expenses.put caller now id body db).2 := by
  rcases expenses_put_cases caller now id body db with
    ⟨_, hp⟩ | ⟨_, ⟨_, hp⟩ | ⟨old, hfind, ⟨_, hp⟩ | ⟨_, _, hp⟩ | ⟨_, _, hp⟩⟩⟩
  · rw [hp]; exact hinv
  · rw [hp]; exact hinv
  · rw [hp]; exact hinv
  · rw [hp]
    refine hinv.of_records rfl (Nat.le_refl _) (fun m hm => Or.inl hm) ?_
    intro x hx
    rcases mem_replaceFirst _ _ _ x hx with hx | hx
    · subst hx
      have hold := List.mem_of_find?_eq_some hfind
      exact Or.inr ⟨hinv.expenseRefsBelow old hold, hinv.expenseOwner old hold⟩
    · exact Or.inl hx
  · rw [hp]; exact hinv

theorem expenses_delete_api (caller id : ObjectId) (db : Db) (hinv : ApiInvariant db) :
    ApiInvariant (expenses.delete caller id db).2 := by
  unfold expenses.delete
  split
  · exact hinv
  · exact hinv.of_records rfl (Nat.le_refl _) (fun m hm => Or.inl hm)
      (fun e he => Or.inl ((List.eraseP_sublist _).subset he))

end CarVault

namespace CarVault

/-! ## C25: records and their cars have one owner -/

theorem handle_api (currentYear : Int) (caller : ObjectId) (now : Date) (endpoint : Endpoint)
    (db : Db) (hinv : ApiInvariant db) :
    ApiInvariant (endpoint.handle currentYear caller now db).2 := by
  cases endpoint with
  | carsGetAll => exact hinv
  | carsGetOne id =>
    show ApiInvariant (cars.getOne caller id db).2
    unfold cars.getOne; split <;> exact hinv
  | carsPost body => exact cars_post_api currentYear caller now body db hinv
  | carsPut id body => exact cars_put_api currentYear caller now id body db hinv
  | carsDelete id => exact cars_delete_api caller id db hinv
  | maintenanceGetAll => exact hinv
  | maintenanceGetByCar carId =>
    show ApiInvariant (maintenance.getByCar caller carId db).2
    unfold maintenance.getByCar; split <;> exact hinv
  | maintenanceGetOne id =>
    show ApiInvariant (maintenance.getOne caller id db).2
    unfold maintenance.getOne; split <;> exact hinv
  | maintenancePost body => exact maintenance_post_api caller now body db hinv
  | maintenancePut id body => exact maintenance_put_api caller now id body db hinv
  | maintenanceDelete id => exact maintenance_delete_api caller id db hinv
  | expensesGetAll => exact hinv
  | expensesGetByCar carId =>
    show ApiInvariant (expenses.getByCar caller carId db).2
    unfold expenses.getByCar; split <;> exact hinv
  | expensesGetOne id =>
    show ApiInvariant (expenses.getOne caller id db).2
    unfold expenses.getOne; split <;> exact hinv
  | expensesPost body => exact expenses_post_api caller now body db hinv
  | expensesPut id body => exact expenses_put_api caller now id body db hinv
  | expensesDelete id => exact expenses_delete_api caller id db hinv
  | expensesGetSummary => exact hinv

theorem runApi_api (currentYear : Int) (requests : List ApiRequest) (db : Db)
    (hinv : ApiInvariant db) : ApiInvariant (runApi currentYear requests db) := by
  induction requests generalizing db with
  | nil => exact hinv
  | cons r rs ih =>
    exact ih _ (handle_api currentYear r.caller r.now r.endpoint db hinv)

/-- In a database with the invariant, the records of a 200 answer of
`GET /maintenance/car/:carId` belong to the caller. -/
theorem maintenance_getByCar_owner (caller carId : ObjectId) (db : Db)
    (hinv : ApiInvariant db) (records : List PopulatedMaintenance)
    (h : (maintenance.getByCar caller carId db).1 = ⟨200, .maintenanceList records⟩) :
    ∀ r ∈ records, r.user = caller := by
  unfold maintenance.getByCar at h
  split at h
  · have h404 : (404 : Nat) = 200 := congrArg Response.status h
    exact absurd h404 (by decide)
  · rename_i c hfind
    have hc := List.mem_of_find?_eq_some hfind
    have hp := List.find?_some hfind
    simp only [Bool.and_eq_true, decide_eq_true_eq] at hp
    have hrec : maintenance.listing db (db.maintenance.filter (fun m => m.car = carId)) =
        records := by
      have := congrArg Response.json h
      simpa using this
    intro r hr
    rw [← hrec] at hr
    unfold maintenance.listing at hr
    obtain ⟨m, hm, rfl⟩ := List.mem_map.1 hr
    have hm' := (List.perm_insertionSort _ _).subset hm
    obtain ⟨hmem, hcar⟩ := List.mem_filter.1 hm'
    simp only [decide_eq_true_eq] at hcar
    show m.user = caller
    rw [← hinv.maintenanceOwner m hmem c hc (hp.1.trans hcar.symm)]
    exact hp.2

/-- In a database with the invariant, the records of a 200 answer of
`GET /expenses/car/:carId` belong to the caller. -/
theorem expenses_getByCar_owner (caller carId : ObjectId) (db : Db)
    (hinv : ApiInvariant db) (records : List PopulatedExpense)
    (h : (expenses.getByCar caller carId db).1 = ⟨200, .expenses records⟩) :
    ∀ r ∈ records, r.user = caller := by
  unfold expenses.getByCar at h
  split at h
  · have h404 : (404 : Nat) = 200 := congrArg Response.status h
    exact absurd h404 (by decide)
  · rename_i c hfind
    have hc := List.mem_of_find?_eq_some hfind
    have hp := List.find?_some hfind
    simp only [Bool.and_eq_true, decide_eq_true_eq] at hp
    have hrec : expenses.listing db (db.expenses.filter (fun e => e.car = carId)) =
        records := by
      have := congrArg Response.json h
      simpa using this
    intro r hr
    rw [← hrec] at hr
    unfold expenses.listing at hr
    obtain ⟨e, he, rfl⟩ := List.mem_map.1 hr
    have he' := (List.perm_insertionSort _ _).subset he
    obtain ⟨hmem, hcar⟩ := List.mem_filter.1 he'
    simp only [decide_eq_true_eq] at hcar
    show e.user = caller
    rw [← hinv.expenseOwner e hmem c hc (hp.1.trans hcar.symm)]
    exact hp.2

/-- C25. In the database reached from the empty one by any sequence of API requests, of any
callers to any of the endpoints, every maintenance record and every expense whose car is still
stored has the owner of that car; and every record of a 200 answer of
`GET /maintenance/car/:carId` or `GET /expenses/car/:carId`, which select by car only, has the
caller as its owner. -/
theorem records_share_car_owner (currentYear : Int) (requests : List ApiRequest) :
    (∀ m ∈ (runApi currentYear requests Db.empty).maintenance,
      ∀ c ∈ (runApi currentYear requests Db.empty).cars, c._id = m.car →
        m.user = c.user) ∧
    (∀ e ∈ (runApi currentYear requests Db.empty).expenses,
      ∀ c ∈ (runApi currentYear requests Db.empty).cars, c._id = e.car →
        e.user = c.user) ∧
    (∀ (caller carId : ObjectId) (records : List PopulatedMaintenance),
      (maintenance.getByCar caller carId (runApi currentYear requests Db.empty)).1 =
        ⟨200, .maintenanceList records⟩ → ∀ r ∈ records, r.user = caller) ∧
    (∀ (caller carId : ObjectId) (records : List PopulatedExpense),
      (expenses.getByCar caller carId (runApi currentYear requests Db.empty)).1 =
        ⟨200, .expenses records⟩ → ∀ r ∈ records, r.user = caller) := by
  have hinv := runApi_api currentYear requests Db.empty apiInvariant_empty
  exact ⟨fun m hm c hc hid => (hinv.maintenanceOwner m hm c hc hid).symm,
    fun e he c hc hid => (hinv.expenseOwner e he c hc hid).symm,
    fun caller carId records h => maintenance_getByCar_owner caller carId _ hinv records h,
    fun caller carId records h => expenses_getByCar_owner caller carId _ hinv records h⟩

/-- C25 on the sample run: afterwards one car, one maintenance record and one expense are
stored (the two requests of user 1 wrote nothing), the records refer to the stored car, the
listing of user 2 for car 0 answers 200 with one record, and that record is of user 2. -/
theorem records_share_car_owner_witness :
    (runApi 2025 sampleRequests Db.empty).cars.map (fun c => (c._id, c.user)) =
      [(0, 2)] ∧
    (runApi 2025 sampleRequests Db.empty).maintenance.map
      (fun m => (m._id, m.car, m.user)) = [(1, 0, 2)] ∧
    (runApi 2025 sampleRequests Db.empty).expenses.map
      (fun e => (e._id, e.car, e.user)) = [(2, 0, 2)] ∧
    (∃ records, (maintenance.getByCar 2 0 (runApi 2025 sampleRequests Db.empty)).1 =
        ⟨200, .maintenanceList records⟩ ∧ records.length = 1 ∧ ∀ r ∈ records, r.user = 2) ∧
    (∀ m ∈ (runApi 2025 sampleRequests Db.empty).maintenance,
      ∀ c ∈ (runApi 2025 sampleRequests Db.empty).cars, c._id = m.car →
        m.user = c.user) :=
  ⟨by decide, by decide, by decide,
    ⟨maintenance.listing (runApi 2025 sampleRequests Db.empty)
        ((runApi 2025 sampleRequests Db.empty).maintenance.filter
          (fun m => m.car = 0)),
      by decide, by decide,
      (records_share_car_owner 2025 sampleRequests).2.2.1 2 0 _ (by decide)⟩,
    (records_share_car_owner 2025 sampleRequests).1⟩

end CarVault

namespace CarVault

/-! ## C26: the card 'Total Expenses' of the dashboard -/

/-- C26, evaluated. For all fetched lists the statistic `totalExpenses` of the dashboard is
the sum of `cost` over the maintenance records, whatever the expenses are. On the data of the
sample database (one maintenance record of cost 50, one expense of amount 40) the card shows
50, while the sum of `amount` over the fetched expenses, which the pages `Expenses` and
`CarDetail` show as the total, is 40. -/
theorem dashboard_total_sums_maintenance :
    (∀ (cars : List Car) (maintenance : List PopulatedMaintenance)
        (expenses : List PopulatedExpense),
      (Dashboard.fetchDashboardData cars maintenance expenses).totalExpenses =
        (maintenance.map (fun record => record.cost)).sum) ∧
    (Dashboard.fetchDashboardData [sampleCar] [populateMaintenance sampleDb sampleMaintenance]
        [populateExpense sampleDb sampleExpense]).totalExpenses = 50 ∧
    (([populateExpense sampleDb sampleExpense].map (fun expense => expense.amount)).sum = 40 ∧
      Expenses.totalExpenses [populateExpense sampleDb sampleExpense] = 40 ∧
      CarDetail.totalExpenses [populateExpense sampleDb sampleExpense] = 40) ∧
    (Dashboard.fetchDashboardData [sampleCar] [populateMaintenance sampleDb sampleMaintenance]
        [populateExpense sampleDb sampleExpense]).totalExpenses ≠
      ([populateExpense sampleDb sampleExpense].map (fun expense => expense.amount)).sum := by
  refine ⟨?_, ?_, ⟨?_, ?_, ?_⟩, ?_⟩
  · intro cars maintenance expenses
    show Dashboard.totalExpenses maintenance = _
    unfold Dashboard.totalExpenses
    rw [foldl_add_eq_sum (fun record : PopulatedMaintenance => record.cost), zero_add]
  · norm_num [Dashboard.fetchDashboardData, Dashboard.totalExpenses, populateMaintenance,
      sampleMaintenance]
  · norm_num [populateExpense, sampleExpense]
  · norm_num [Expenses.totalExpenses, populateExpense, sampleExpense]
  · norm_num [CarDetail.totalExpenses, populateExpense, sampleExpense]
  · norm_num [Dashboard.fetchDashboardData, Dashboard.totalExpenses, populateMaintenance,
      sampleMaintenance, populateExpense, sampleExpense]

end CarVault

namespace CarVault

/-! ## C27: the recent records of the dashboard -/

theorem insertionSort_comparator_sorted {α : Type} (key : α → Int) (l : List α) :
    (l.insertionSort (fun a b => key b - key a ≤ 0)).Sorted (fun a b => key a ≥ key b) := by
  haveI : IsTotal α (fun a b => key b - key a ≤ 0) :=
    ⟨fun a b => by
      rcases le_total (key a) (key b) with h | h
      · right; omega
      · left; omega⟩
  haveI : IsTrans α (fun a b => key b - key a ≤ 0) :=
    ⟨fun a b c hab hbc => by
      have h1 : key b - key a ≤ 0 := hab
      have h2 : key c - key b ≤ 0 := hbc
      show key c - key a ≤ 0
      omega⟩
  have h := List.sorted_insertionSort (fun a b : α => key b - key a ≤ 0) l
  refine List.Pairwise.imp ?_ h
  intro a b hab
  have h1 : key b - key a ≤ 0 := hab
  show key b ≤ key a
  omega

/-- The first five of a list sorted newest first by the comparator of the dashboard. -/
theorem recent_spec {α : Type} (key : α → Int) (l : List α) :
    ((l.insertionSort (fun a b => key b - key a ≤ 0)).take 5).length = min 5 l.length ∧
    ((l.insertionSort (fun a b => key b - key a ≤ 0)).take 5).Sorted
      (fun a b => key a ≥ key b) ∧
    (∀ r ∈ (l.insertionSort (fun a b => key b - key a ≤ 0)).take 5, r ∈ l) ∧
    ∃ rest : List α,
      (((l.insertionSort (fun a b => key b - key a ≤ 0)).take 5) ++ rest).Perm l ∧
      rest.length = l.length - 5 ∧
      ∀ x ∈ rest, ∀ k ∈ (l.insertionSort (fun a b => key b - key a ≤ 0)).take 5,
        key x ≤ key k := by
  have hs := insertionSort_comparator_sorted key l
  have hp := List.perm_insertionSort (fun a b : α => key b - key a ≤ 0) l
  refine ⟨?_, ?_, ?_, (l.insertionSort (fun a b => key b - key a ≤ 0)).drop 5, ?_, ?_, ?_⟩
  · rw [List.length_take, List.length_insertionSort]
  · exact List.Pairwise.sublist (List.take_sublist 5 _) hs
  · intro r hr
    exact hp.subset ((List.take_sublist 5 _).subset hr)
  · rw [List.take_append_drop]; exact hp
  · rw [List.length_drop, List.length_insertionSort]
  · intro x hx k hk
    have hs' := hs
    rw [← List.take_append_drop 5 (l.insertionSort (fun a b => key b - key a ≤ 0))] at hs'
    exact (List.pairwise_append.1 hs').2.2 k hk x hx

/-- C27. For every fetched list of maintenance records and every fetched list of expenses,
`recentMaintenance` (`recentExpenses`) has length min(5, n), is in non-increasing date order,
holds only records of the fetched list, and together with a list `rest` of the n - 5 records
left out makes up the fetched list; every record of `rest` has a date no later than the date
of every record kept. -/
theorem dashboard_recent (maintenance : List PopulatedMaintenance)
    (expenses : List PopulatedExpense) :
    ((Dashboard.recentMaintenance maintenance).length = min 5 maintenance.length ∧
      (Dashboard.recentMaintenance maintenance).Sorted (fun a b => a.date ≥ b.date) ∧
      (∀ r ∈ Dashboard.recentMaintenance maintenance, r ∈ maintenance) ∧
      ∃ rest : List PopulatedMaintenance,
        (Dashboard.recentMaintenance maintenance ++ rest).Perm maintenance ∧
        rest.length = maintenance.length - 5 ∧
        ∀ x ∈ rest, ∀ k ∈ Dashboard.recentMaintenance maintenance, x.date ≤ k.date) ∧
    ((Dashboard.recentExpenses expenses).length = min 5 expenses.length ∧
      (Dashboard.recentExpenses expenses).Sorted (fun a b => a.date ≥ b.date) ∧
      (∀ r ∈ Dashboard.recentExpenses expenses, r ∈ expenses) ∧
      ∃ rest : List PopulatedExpense,
        (Dashboard.recentExpenses expenses ++ rest).Perm expenses ∧
        rest.length = expenses.length - 5 ∧
        ∀ x ∈ rest, ∀ k ∈ Dashboard.recentExpenses expenses, x.date ≤ k.date) :=
  ⟨recent_spec (fun r : PopulatedMaintenance => r.date) maintenance,
    recent_spec (fun e : PopulatedExpense => e.date) expenses⟩

/-- C27 on seven fetched maintenance records with the dates 3, 9, 1, 7, 5, 9, 2 and three
fetched expenses with the dates 4, 8, 6: the dashboard keeps the maintenance records dated
9, 9, 7, 5, 3 (the two of date 9 in fetched order) and all three expenses, newest first. -/
theorem dashboard_recent_witness :
    (Dashboard.recentMaintenance fetchedMaintenance).map (fun r => (r._id, r.date)) =
      [(2, 9), (6, 9), (4, 7), (5, 5), (1, 3)] ∧
    (Dashboard.recentExpenses fetchedExpenses).map (fun e => (e._id, e.date)) =
      [(2, 8), (3, 6), (1, 4)] ∧
    (Dashboard.recentMaintenance fetchedMaintenance).length = min 5 fetchedMaintenance.length ∧
    (Dashboard.recentExpenses fetchedExpenses).length = min 5 fetchedExpenses.length ∧
    (∃ rest : List PopulatedMaintenance,
      (Dashboard.recentMaintenance fetchedMaintenance ++ rest).Perm fetchedMaintenance ∧
      rest.length = fetchedMaintenance.length - 5 ∧
      ∀ x ∈ rest, ∀ k ∈ Dashboard.recentMaintenance fetchedMaintenance, x.date ≤ k.date) :=
  ⟨by decide, by decide, (dashboard_recent fetchedMaintenance fetchedExpenses).1.1,
    (dashboard_recent fetchedMaintenance fetchedExpenses).2.1,
    (dashboard_recent fetchedMaintenance fetchedExpenses).1.2.2.2⟩

end CarVault

namespace CarVault

/-! ## Sums of JavaScript numbers without rounding -/

theorem foldlM_add_of_exact : ∀ (l : List ℚ) (acc : ℚ),
    (∀ k, 1 ≤ k → k ≤ l.length →
      Binary64.round (acc + (l.take k).sum) = some (acc + (l.take k).sum)) →
    l.foldlM Binary64.add acc = some (acc + l.sum)
  | [], acc, _ => by simp
  | a :: l, acc, h => by
    have h1 : Binary64.add acc a = some (acc + a) := by
      have := h 1 (Nat.le_refl 1) (by simp)
      simpa [Binary64.add] using this
    have ih := foldlM_add_of_exact l (acc + a) (fun k hk1 hk => by
      have := h (k + 1) (by omega) (by simpa using hk)
      simpa [add_assoc] using this)
    rw [List.foldlM_cons, h1]
    show l.foldlM Binary64.add (acc + a) = _
    rw [ih, List.sum_cons, add_assoc]

/-- When no partial sum is rounded, the binary64 sum is the exact sum. -/
theorem sum_of_exact (l : List ℚ) (h : Binary64.Exact l) : Binary64.sum l = some l.sum := by
  unfold Binary64.sum
  rw [foldlM_add_of_exact l 0 (fun k _ hk => by simpa using h k hk), zero_add]

end CarVault

namespace CarVault

/-! ## C28: the filter of the expenses page -/

theorem filteredExpenses_all (expenses : List PopulatedExpense) :
    Expenses.filteredExpenses "all" expenses = expenses := by
  unfold Expenses.filteredExpenses
  rw [List.filter_eq_self]
  intro e _
  simp

theorem filteredExpenses_category (filter : String) (hf : filter ≠ "all")
    (expenses : List PopulatedExpense) :
    Expenses.filteredExpenses filter expenses =
      expenses.filter (fun expense => decide (expense.category = filter)) := by
  unfold Expenses.filteredExpenses
  apply List.filter_congr
  intro e _
  simp [hf]

theorem filteredTotal_category (filter : String) (hf : filter ≠ "all")
    (expenses : List PopulatedExpense) :
    Expenses.filteredTotal filter expenses =
      ((expenses.filter (fun expense => decide (expense.category = filter))).map
        (fun expense => expense.amount)).sum := by
  unfold Expenses.filteredTotal
  rw [filteredExpenses_category filter hf,
    foldl_add_eq_sum (fun expense : PopulatedExpense => expense.amount), zero_add]

/-- C28, amended. On the expenses page, for every list of expenses: under the filter 'all'
the filtered list is the list and `filteredTotal` is `totalExpenses`, over exact numbers and
in the arithmetic of JavaScript numbers; under any other filter the filtered list is the list
of the records of that category in their order, a sublist of the list; the page has seven
categories; and when the category of every record is one of them, over exact numbers the
seven filtered totals add up to `totalExpenses`, and the seven counts add up to the length of
the list. The totals over exact numbers are the totals of the page whenever no sum on the way
is rounded. -/
theorem expenses_page_filter (expenses : List PopulatedExpense) :
    (Expenses.filteredExpenses "all" expenses = expenses ∧
      Expenses.filteredTotal "all" expenses = Expenses.totalExpenses expenses) ∧
    (∀ filter : String, filter ≠ "all" →
      Expenses.filteredExpenses filter expenses =
        expenses.filter (fun expense => decide (expense.category = filter)) ∧
      (Expenses.filteredExpenses filter expenses).Sublist expenses ∧
      ∀ expense, expense ∈ Expenses.filteredExpenses filter expenses ↔
        expense ∈ expenses ∧ expense.category = filter) ∧
    Expenses.expenseCategories.length = 7 ∧
    ((∀ expense ∈ expenses, expense.category ∈ Expenses.expenseCategories) →
      (Expenses.expenseCategories.map
          (fun category => Expenses.filteredTotal category expenses)).sum =
        Expenses.totalExpenses expenses ∧
      (Expenses.expenseCategories.map
          (fun category => Expenses.count category expenses)).sum = expenses.length) ∧
    Binary64.filteredTotal "all" expenses = Binary64.totalExpenses expenses ∧
    (∀ filter : String,
      Binary64.Exact
          ((Expenses.filteredExpenses filter expenses).map (fun expense => expense.amount)) →
        Binary64.filteredTotal filter expenses =
          some (Expenses.filteredTotal filter expenses)) := by
  refine ⟨⟨filteredExpenses_all expenses, ?_⟩, ?_, rfl, ?_, ?_, ?_⟩
  rotate_left 3
  · unfold Binary64.filteredTotal Binary64.totalExpenses
    rw [filteredExpenses_all]
  · intro filter hexact
    unfold Binary64.filteredTotal Expenses.filteredTotal
    rw [sum_of_exact _ hexact,
      foldl_add_eq_sum (fun expense : PopulatedExpense => expense.amount), zero_add]
  · unfold Expenses.filteredTotal
    rw [filteredExpenses_all]
    rfl
  · intro filter hf
    refine ⟨filteredExpenses_category filter hf expenses, ?_, ?_⟩
    · rw [filteredExpenses_category filter hf]
      exact List.filter_sublist _
    · intro expense
      rw [filteredExpenses_category filter hf, List.mem_filter, decide_eq_true_eq]
  · intro hall
    have hnd : Expenses.expenseCategories.Nodup := by decide
    have hne : ∀ category ∈ Expenses.expenseCategories, category ≠ "all" := by decide
    constructor
    · have h := sum_by_group (fun expense : PopulatedExpense => expense.category)
        (fun expense => expense.amount) Expenses.expenseCategories hnd expenses hall
      have htot : Expenses.totalExpenses expenses =
          (expenses.map (fun expense => expense.amount)).sum := by
        unfold Expenses.totalExpenses
        rw [foldl_add_eq_sum (fun expense : PopulatedExpense => expense.amount), zero_add]
      rw [htot, ← h]
      congr 1
      apply List.map_congr_left
      intro category hc
      exact filteredTotal_category category (hne category hc) expenses
    · have h := sum_by_group (fun expense : PopulatedExpense => expense.category)
        (fun _ => (1 : Nat)) Expenses.expenseCategories hnd expenses hall
      rw [length_eq_sum_ones expenses, ← h]
      congr 1
      apply List.map_congr_left
      intro category _
      unfold Expenses.count
      exact length_eq_sum_ones _

/-- C28, amended, on three fetched expenses (Fuel 40, Tires 1/2, Fuel 10): the filter 'Fuel'
keeps the first and the third in that order, the seven filtered totals add up to the total,
and no sum of the filter 'Fuel' is rounded: its total in JavaScript numbers is the exact
one. -/
theorem expenses_page_filter_witness :
    (Expenses.filteredExpenses "Fuel" fetchedExpenses).map (fun e => e._id) = [1, 3] ∧
    (Expenses.filteredExpenses "Fuel" fetchedExpenses =
      fetchedExpenses.filter (fun expense => decide (expense.category = "Fuel"))) ∧
    (Expenses.expenseCategories.map
        (fun category => Expenses.filteredTotal category fetchedExpenses)).sum =
      Expenses.totalExpenses fetchedExpenses ∧
    (Expenses.expenseCategories.map
        (fun category => Expenses.count category fetchedExpenses)).sum = 3 ∧
    Binary64.filteredTotal "Fuel" fetchedExpenses =
      some (Expenses.filteredTotal "Fuel" fetchedExpenses) ∧
    Binary64.filteredTotal "Fuel" fetchedExpenses = some 50 :=
  ⟨by decide, ((expenses_page_filter fetchedExpenses).2.1 "Fuel" (by decide)).1,
    ((expenses_page_filter fetchedExpenses).2.2.2.1 (by decide)).1,
    ((expenses_page_filter fetchedExpenses).2.2.2.1 (by decide)).2,
    (expenses_page_filter fetchedExpenses).2.2.2.2.2 "Fuel" (by decide!),
    by decide!⟩

end CarVault

namespace CarVault

/-! ## C29: the amount check of the expense forms -/

/-- C29, as stated, fails at the amount 0: both forms report 'Amount must be greater than 0'
and do not submit, while the validator of the API passes 0 and `POST /expenses` of the owner
of car 5 with that amount is answered 201. -/
theorem form_amount_zero_counterexample :
    (AddExpense.validateForm
        { car := "5", description := "tank", amount := some 0, date := "2024-01-01" }).1.amount =
      some "Amount must be greater than 0" ∧
    (AddExpense.validateForm
        { car := "5", description := "tank", amount := some 0, date := "2024-01-01" }).2 =
      false ∧
    (EditExpense.validateForm
        { car := "5", description := "tank", amount := some 0, date := "2024-01-01" }).1.amount =
      some "Amount must be greater than 0" ∧
    (EditExpense.validateForm
        { car := "5", description := "tank", amount := some 0, date := "2024-01-01" }).2 =
      false ∧
    isFloatMin0 (some 0) = true ∧
    expenses.postErrors
      { car := some 5, category := some "Fuel", description := some "tank", amount := some 0,
        date := some 290 } = [] ∧
    (expenses.post 1 300
      { car := some 5, category := some "Fuel", description := some "tank", amount := some 0,
        date := some 290 } twoCarsDb).1.status = 201 := by
  refine ⟨by decide, by decide, by decide, by decide, by decide, by decide, by decide⟩

theorem errorIf_eq_none (condition : Bool) (message : String) :
    errorIf condition message = none ↔ condition = false := by
  cases condition <;> simp [errorIf]

/-- C29, amended. For every state of the expense forms whose amount is a number, `validateForm`
of `AddExpense` and of `EditExpense` reports no amount error iff the amount is greater than 0;
the validator of the API, on create and on update, passes iff the amount is at least 0; so
every amount the forms accept passes the validator of the API. -/
theorem form_amount_positive (formData : ExpenseFormData) (amount : ℚ)
    (h : formData.amount = some amount) :
    ((AddExpense.validateForm formData).1.amount = none ↔ 0 < amount) ∧
    ((EditExpense.validateForm formData).1.amount = none ↔ 0 < amount) ∧
    (isFloatMin0 (some amount) = true ↔ 0 ≤ amount) ∧
    (optional isFloatMin0 (some amount) = true ↔ 0 ≤ amount) ∧
    ((AddExpense.validateForm formData).1.amount = none → isFloatMin0 (some amount) = true) ∧
    ((EditExpense.validateForm formData).1.amount = none →
      isFloatMin0 (some amount) = true) := by
  have hadd : (AddExpense.validateForm formData).1.amount = none ↔ 0 < amount := by
    show errorIf _ _ = none ↔ _
    rw [errorIf_eq_none, h]
    simp only [falsy, Bool.or_eq_false_iff, decide_eq_false_iff_not, not_le]
    constructor
    · exact fun hh => hh.2
    · exact fun hh => ⟨ne_of_gt hh, hh⟩
  have hedit : (EditExpense.validateForm formData).1.amount = none ↔ 0 < amount := by
    show errorIf _ _ = none ↔ _
    rw [errorIf_eq_none, h]
    simp only [falsy, Bool.or_eq_false_iff, decide_eq_false_iff_not, not_le]
    constructor
    · exact fun hh => hh.2
    · exact fun hh => ⟨ne_of_gt hh, hh⟩
  have hapi : isFloatMin0 (some amount) = true ↔ 0 ≤ amount := by
    simp [isFloatMin0]
  have hopt : optional isFloatMin0 (some amount) = true ↔ 0 ≤ amount := by
    simp [optional, isFloatMin0]
  exact ⟨hadd, hedit, hapi, hopt, fun hh => hapi.2 (le_of_lt (hadd.1 hh)),
    fun hh => hapi.2 (le_of_lt (hedit.1 hh))⟩

/-- C29, amended, on a form with the amount 25/2: neither form reports an amount error, and
the validator of the API passes the amount. -/
theorem form_amount_positive_witness :
    (AddExpense.validateForm
        { car := "5", description := "tank", amount := some (25 / 2),
          date := "2024-01-01" }).1.amount = none ∧
    (EditExpense.validateForm
        { car := "5", description := "tank", amount := some (25 / 2),
          date := "2024-01-01" }).1.amount = none ∧
    isFloatMin0 (some (25 / 2)) = true :=
  ⟨(form_amount_positive
      { car := "5", description := "tank", amount := some (25 / 2), date := "2024-01-01" }
      (25 / 2) rfl).1.2 (by norm_num),
    (form_amount_positive
      { car := "5", description := "tank", amount := some (25 / 2), date := "2024-01-01" }
      (25 / 2) rfl).2.1.2 (by norm_num),
    (form_amount_positive
      { car := "5", description := "tank", amount := some (25 / 2), date := "2024-01-01" }
      (25 / 2) rfl).2.2.1.2 (by norm_num)⟩

end CarVault

namespace CarVault

/-! ## C30: the years of the car form -/

theorem mem_years (currentYear year : Int) :
    year ∈ AddCar.years currentYear ↔ currentYear - 48 ≤ year ∧ year ≤ currentYear + 1 := by
  unfold AddCar.years
  rw [List.mem_map]
  constructor
  · rintro ⟨i, hi, rfl⟩
    rw [List.mem_range] at hi
    constructor <;> omega
  · rintro ⟨h1, h2⟩
    refine ⟨(currentYear + 1 - year).toNat, ?_, ?_⟩
    · rw [List.mem_range]; omega
    · omega

/-- C30. For every current year c the list `years` of the car form has 50 entries, its entry
at index i is c + 1 - i, so it runs from c + 1 down to c - 48, each entry one less than the
one before. For c ≥ 1948 every listed year y has 1900 ≤ y ≤ c + 1, passes the year validator
of the API and gets no year error from `validateForm`. For every state of the form,
`validateForm` reports a year error iff the year is missing, below 1900 or above c + 1. -/
theorem car_form_years (currentYear : Int) :
    (AddCar.years currentYear).length = 50 ∧
    (∀ i : Nat, i < 50 → (AddCar.years currentYear)[i]? = some (currentYear + 1 - i)) ∧
    (AddCar.years currentYear).head? = some (currentYear + 1) ∧
    (AddCar.years currentYear).getLast? = some (currentYear - 48) ∧
    (AddCar.years currentYear).Chain' (fun a b => b = a - 1) ∧
    (1948 ≤ currentYear → ∀ year ∈ AddCar.years currentYear, ∀ formData : CarFormData,
      formData.year = some year →
        1900 ≤ year ∧ year ≤ currentYear + 1 ∧
        isIntBetween 1900 (currentYear + 1) (some year) = true ∧
        (AddCar.validateForm currentYear formData).1.year = none) ∧
    (∀ formData : CarFormData,
      (AddCar.validateForm currentYear formData).1.year = some "Please enter a valid year" ↔
        (formData.year = none ∨
          ∃ year, formData.year = some year ∧ (year < 1900 ∨ year > currentYear + 1))) ∧
    (∀ formData : CarFormData,
      (AddCar.validateForm currentYear formData).1.year = none ↔
        ∃ year, formData.year = some year ∧ 1900 ≤ year ∧ year ≤ currentYear + 1) := by
  have hvalid : ∀ formData : CarFormData,
      (AddCar.validateForm currentYear formData).1.year = none ↔
        ∃ year, formData.year = some year ∧ 1900 ≤ year ∧ year ≤ currentYear + 1 := by
    intro formData
    show errorIf _ _ = none ↔ _
    rw [errorIf_eq_none]
    cases hy : formData.year with
    | none => simp [falsy]
    | some y =>
      simp only [falsy, Bool.or_eq_false_iff, decide_eq_false_iff_not, not_lt,
        Option.some.injEq, exists_eq_left']
      constructor
      · rintro ⟨_, h1, h2⟩; exact ⟨h1, h2⟩
      · rintro ⟨h1, h2⟩; exact ⟨by omega, h1, h2⟩
  have hidx : ∀ i : Nat, i < 50 →
      (AddCar.years currentYear)[i]? = some (currentYear + 1 - i) := by
    intro i hi
    unfold AddCar.years
    rw [List.getElem?_map, List.getElem?_range hi]
    show some (currentYear - (i : Int) + 1) = _
    congr 1
    omega
  refine ⟨by simp [AddCar.years], hidx, ?_, ?_, ?_, ?_, ?_, hvalid⟩
  · rw [List.head?_eq_getElem?, hidx 0 (by decide)]
    simp
  · rw [List.getLast?_eq_getElem?]
    have hlen : (AddCar.years currentYear).length = 50 := by simp [AddCar.years]
    rw [hlen, hidx 49 (by decide)]
    congr 1
    norm_num
    omega
  · unfold AddCar.years
    simp only [List.range, List.range.loop, List.map, List.chain'_cons, List.chain'_singleton,
      and_true]
    omega
  · intro hc year hmem formData hfd
    have hb := (mem_years currentYear year).1 hmem
    have h1 : 1900 ≤ year := by omega
    refine ⟨h1, hb.2, ?_, (hvalid formData).2 ⟨year, hfd, h1, hb.2⟩⟩
    simp [isIntBetween, h1, hb.2]
  · intro formData
    have hnone := hvalid formData
    have hcases : (AddCar.validateForm currentYear formData).1.year = none ∨
        (AddCar.validateForm currentYear formData).1.year =
          some "Please enter a valid year" := by
      show errorIf _ _ = none ∨ errorIf _ _ = some _
      unfold errorIf
      split
      · right; rfl
      · left; rfl
    constructor
    · intro herr
      cases hy : formData.year with
      | none => exact Or.inl rfl
      | some y =>
        right
        refine ⟨y, rfl, ?_⟩
        by_contra hcon
        have : (AddCar.validateForm currentYear formData).1.year = none :=
          hnone.2 ⟨y, hy, by omega, by omega⟩
        rw [this] at herr
        exact absurd herr (by simp)
    · intro hbad
      rcases hcases with hn | hs
      · obtain ⟨y, hy, h1, h2⟩ := hnone.1 hn
        rcases hbad with hb | ⟨y', hy', hb⟩
        · rw [hb] at hy; exact absurd hy (by simp)
        · rw [hy] at hy'
          have : y = y' := Option.some.inj hy'
          subst this
          omega
      · exact hs

/-- C30 in the year 2025: the list runs from 2026 down to 1977, the listed year 1977 passes
the form and the validator of the API, and the form rejects the years 1899 and 2027. -/
theorem car_form_years_witness :
    (AddCar.years 2025).head? = some 2026 ∧
    (AddCar.years 2025).getLast? = some 1977 ∧
    (1900 ≤ (1977 : Int) ∧ (1977 : Int) ≤ 2025 + 1 ∧
      isIntBetween 1900 (2025 + 1) (some 1977) = true ∧
      (AddCar.validateForm 2025 { year := some 1977 }).1.year = none) ∧
    (AddCar.validateForm 2025 { year := some 1899 }).1.year =
      some "Please enter a valid year" ∧
    (AddCar.validateForm 2025 { year := some 2027 }).1.year =
      some "Please enter a valid year" ∧
    (AddCar.validateForm 2025 { year := none }).1.year = some "Please enter a valid year" :=
  ⟨(car_form_years 2025).2.2.1, (car_form_years 2025).2.2.2.1,
    (car_form_years 2025).2.2.2.2.2.1 (by decide) 1977 (by decide) { year := some 1977 } rfl,
    ((car_form_years 2025).2.2.2.2.2.2.1 { year := some 1899 }).2
      (Or.inr ⟨1899, rfl, Or.inl (by decide)⟩),
    ((car_form_years 2025).2.2.2.2.2.2.1 { year := some 2027 }).2
      (Or.inr ⟨2027, rfl, Or.inr (by decide)⟩),
    ((car_form_years 2025).2.2.2.2.2.2.1 { year := none }).2 (Or.inl rfl)⟩

end CarVault

namespace CarVault

/-! ## C18 and C28 in the arithmetic of JavaScript numbers -/

/-- C18, as stated, fails on numbers as they are stored. User 2 has the expenses Registration
92.22, Fuel 18.59 and Registration 85.99 (the binary64 numbers nearest to these decimals).
The summary has the groups Registration and Fuel. The sum of the two Registration amounts is
not a binary64 number, so no total that a response carries is that sum; the binary64 sum of
the two amounts is 178.20999999999998, and with the total 18.59 of Fuel it does not add up to
the sum of the three amounts, neither exactly nor in binary64. -/
theorem summary_rounding_counterexample :
    (Binary64.round (9222 / 100) = some amount9222 ∧
      Binary64.round (1859 / 100) = some amount1859 ∧
      Binary64.round (8599 / 100) = some amount8599) ∧
    (roundedDb.expenses.map (fun e => (e.user, e.category, e.amount)) =
      [(2, "Registration", amount9222), (2, "Fuel", amount1859),
       (2, "Registration", amount8599)]) ∧
    ((roundedDb.expenses.filter
        (fun e => e.category = "Registration" && e.user = 2)).map (fun e => e.amount)).sum =
      amount9222 + amount8599 ∧
    Binary64.round (amount9222 + amount8599) ≠ some (amount9222 + amount8599) ∧
    Binary64.add amount9222 amount8599 = some (3135103474975375 / 17592186044416) ∧
    Binary64.round (17820999999999998 / 100000000000000) =
      some (3135103474975375 / 17592186044416) ∧
    (3135103474975375 / 17592186044416 : ℚ) + amount1859 ≠
      amount9222 + amount1859 + amount8599 ∧
    Binary64.add (3135103474975375 / 17592186044416) amount1859 ≠
      Binary64.sum [amount9222, amount1859, amount8599] := by
  refine ⟨⟨by decide!, by decide!, by decide!⟩, by decide!, by decide!, by decide!, by decide!,
    by decide!, by decide!, by decide!⟩

/-- C28, as stated, fails in the arithmetic of JavaScript numbers. For the fetched expenses
Registration 92.22, Fuel 18.59, Registration 85.99, whose categories are among the seven of
the page, `totalExpenses` is 196.8, the filtered totals of Fuel and Registration are 18.59
and 178.20999999999998 and the other five are 0; the seven add up to 196.79999999999998 in
binary64, and to a number other than `totalExpenses` exactly. -/
theorem expenses_page_rounding_counterexample :
    (∀ expense ∈ roundedExpenses, expense.category ∈ Expenses.expenseCategories) ∧
    roundedExpenses.map (fun expense => (expense.category, expense.amount)) =
      [("Registration", amount9222), ("Fuel", amount1859), ("Registration", amount8599)] ∧
    Binary64.totalExpenses roundedExpenses = some (3462142213541069 / 17592186044416) ∧
    Binary64.round (1968 / 10) = some (3462142213541069 / 17592186044416) ∧
    Expenses.expenseCategories.map (fun category =>
        Binary64.filteredTotal category roundedExpenses) =
      [some amount1859, some 0, some (3135103474975375 / 17592186044416), some 0, some 0,
       some 0, some 0] ∧
    Binary64.sum [amount1859, 0, 3135103474975375 / 17592186044416, 0, 0, 0, 0] =
      some (6924284427082137 / 35184372088832) ∧
    Binary64.round (19679999999999998 / 100000000000000) =
      some (6924284427082137 / 35184372088832) ∧
    (6924284427082137 / 35184372088832 : ℚ) ≠ 3462142213541069 / 17592186044416 ∧
    ([amount1859, 0, 3135103474975375 / 17592186044416, 0, 0, 0, 0] : List ℚ).sum ≠
      3462142213541069 / 17592186044416 := by
  refine ⟨by decide!, by decide!, by decide!, by decide!, by decide!, by decide!, by decide!,
    by decide!, by decide!⟩

end CarVault
